import Mathlib

/-!
# FactoryFlow: the quote calculator and the job store

A shallow embedding of the two pieces of logic of the repository:

* `calculateQuote` of `src/App.js` (validation, pricing formula, rounding), with
  `insertJobToSupabase`, the pricing handlers and the effect that loads the saved settings,
  and
* `db.insert` / `db._saveToLocalStorage` / `checkSupabaseConnection` of
  `src/supabaseClient.js` (remote insert with local fallback).

Conventions of the embedding.

* JavaScript numbers are idealised as the elements of a linearly ordered field `α` with a
  floor function (`ℝ`, or `ℚ` for evaluation): arithmetic is exact, and `NaN` and the
  infinities are not values of the model.  `Math.log10` and the draw of `Math.random()` are
  arguments; theorems about the logarithm instantiate `α := ℝ` and pass `Real.logb 10`.
* A JavaScript object with primitive fields is an association list from keys to `JsVal`;
  properties inherited from `Object.prototype` are not modelled (the form's `<select>`
  elements cannot produce such keys).
* Code that can throw returns `Outcome`; asynchronous calls are the functions of their
  awaited results.  The job store is given twice: as plain functions, and with every throwing
  statement and `try`/`catch` explicit; the two are proved equal.
-/

namespace FactoryFlow

/-! ## Strings -/

/-- ECMAScript `WhiteSpace` and `LineTerminator` code points: the characters removed by
`String.prototype.trim` and skipped at the start of the argument of `parseInt` and
`parseFloat`. -/
def isJsWhiteSpace (c : Char) : Bool :=
  c.toNat = 0x09 || c.toNat = 0x0A || c.toNat = 0x0B || c.toNat = 0x0C || c.toNat = 0x0D ||
  c.toNat = 0x20 || c.toNat = 0xA0 || c.toNat = 0x1680 ||
  (0x2000 ≤ c.toNat && c.toNat ≤ 0x200A) ||
  c.toNat = 0x2028 || c.toNat = 0x2029 || c.toNat = 0x202F || c.toNat = 0x205F ||
  c.toNat = 0x3000 || c.toNat = 0xFEFF

/-- `String.prototype.trim`. -/
def jsTrim (s : String) : String :=
  String.mk ((s.toList.dropWhile isJsWhiteSpace).reverse.dropWhile isJsWhiteSpace).reverse

/-- Value of a character as a digit in radixes up to 36, as used by `parseInt`. -/
def digitValue (c : Char) : Option Nat :=
  if 48 ≤ c.toNat ∧ c.toNat ≤ 57 then some (c.toNat - 48)
  else if 97 ≤ c.toNat ∧ c.toNat ≤ 122 then some (c.toNat - 97 + 10)
  else if 65 ≤ c.toNat ∧ c.toNat ≤ 90 then some (c.toNat - 65 + 10)
  else none

/-- The longest run of radix-`R` digits at the start of the input, as digit values. -/
def leadingDigits (R : Nat) : List Char → List Nat
  | [] => []
  | c :: cs =>
    match digitValue c with
    | some d => if d < R then d :: leadingDigits R cs else []
    | none => []

/-- The number written by a list of digit values in radix `R`. -/
def digitsToNat (R : Nat) (ds : List Nat) : Nat :=
  ds.foldl (fun acc d => acc * R + d) 0

/-- Step 2 of `parseInt` and `parseFloat`: an optional sign is read and removed. -/
def readSign : List Char → Int × List Char
  | '-' :: rest => (-1, rest)
  | '+' :: rest => (1, rest)
  | cs => (1, cs)

/-- Step 4 of `parseInt` with no radix argument: a leading `0x` or `0X` selects radix 16. -/
def readRadix : List Char → Nat × List Char
  | '0' :: 'x' :: rest => (16, rest)
  | '0' :: 'X' :: rest => (16, rest)
  | cs => (10, cs)

/-- The global `parseInt(string)` with no radix argument; `none` stands for `NaN`.
The result is the exact integer (rounding of integers beyond 2^53 is not modelled). -/
def parseInt (s : String) : Option Int :=
  let signed := readSign (s.toList.dropWhile isJsWhiteSpace)
  let prefixed := readRadix signed.2
  let Z := leadingDigits prefixed.1 prefixed.2
  if Z.isEmpty then none else some (signed.1 * (digitsToNat prefixed.1 Z : Int))

/-- The global `isNaN` on the result of `parseInt`. -/
def isNaN (v : Option Int) : Bool := v.isNone

/-- The comparison `v <= 0` on the result of `parseInt`; false for `NaN`. -/
def leZero : Option Int → Bool
  | some n => decide (n ≤ 0)
  | none => false

/-- The longest run of decimal digits at the start of the input, as digit values, and the
rest of the input. -/
def takeDecimalDigits : List Char → List Nat × List Char
  | [] => ([], [])
  | c :: cs =>
    if 48 ≤ c.toNat ∧ c.toNat ≤ 57 then
      ((c.toNat - 48) :: (takeDecimalDigits cs).1, (takeDecimalDigits cs).2)
    else ([], c :: cs)

/-- The optional fraction of a decimal literal: a dot and the digits after it. -/
def readFraction : List Char → List Nat × List Char
  | '.' :: rest => takeDecimalDigits rest
  | cs => ([], cs)

/-- The optional exponent part of a decimal literal: `e` or `E`, an optional sign and at
least one digit; anything else is not part of the literal and counts as exponent 0. -/
def readExponent : List Char → Int
  | [] => 0
  | c :: cs =>
    if c = 'e' ∨ c = 'E' then
      if (takeDecimalDigits (readSign cs).2).1.isEmpty then 0
      else (readSign cs).1 * (digitsToNat 10 (takeDecimalDigits (readSign cs).2).1 : Int)
    else 0

/-- The parts of the decimal literal read by `parseFloat`: sign, digits before and after the
dot, and exponent. -/
structure DecimalLiteral where
  sign : Int
  whole : List Nat
  frac : List Nat
  exponent : Int
deriving DecidableEq, Repr

/-- The longest decimal literal at the start of the trimmed input: an optional sign, digits
with an optional fraction (or a fraction alone), and an optional exponent part; `none` when
no digit is found. -/
def scanDecimal (s : String) : Option DecimalLiteral :=
  let signed := readSign (s.toList.dropWhile isJsWhiteSpace)
  let whole := takeDecimalDigits signed.2
  let frac := readFraction whole.2
  if whole.1.isEmpty && frac.1.isEmpty then none
  else some ⟨signed.1, whole.1, frac.1, readExponent frac.2⟩

/-! ## Form data and validation -/

/-- The state `formData`: every field is the string delivered by its input element. -/
structure FormData where
  partType : String
  material : String
  quantity : String
  complexity : String
  deadline : String
deriving DecidableEq, Repr

/-- The object `validationErrors`: a key is present exactly when its field is `some`. -/
structure ValidationErrors where
  partType : Option String
  material : Option String
  quantity : Option String
deriving DecidableEq, Repr

/-- The empty object `{}` assigned by `setErrors({})`. -/
def ValidationErrors.empty : ValidationErrors := ⟨none, none, none⟩

/-- The test `Object.keys(validationErrors).length > 0`. -/
def ValidationErrors.hasErrors (e : ValidationErrors) : Bool :=
  e.partType.isSome || e.material.isSome || e.quantity.isSome

/-- The condition guarding `validationErrors.quantity`:
`!quantity || isNaN(parseInt(quantity)) || parseInt(quantity) <= 0`. -/
def quantityInvalid (quantity : String) : Bool :=
  quantity = "" || isNaN (parseInt quantity) || leZero (parseInt quantity)

/-- The validation block at the start of `calculateQuote`. -/
def validateForm (form : FormData) : ValidationErrors :=
  { partType := if jsTrim form.partType = "" then some "Part type is required" else none
    material := if form.material = "" then some "Material is required" else none
    quantity := if quantityInvalid form.quantity then some "Valid quantity is required"
                else none }

/-- The condition "quantity is a positive integer" of the specification, read on the text
of the quantity field: a non-empty run of decimal digits that writes a number greater
than 0. -/
def isPositiveIntegerText (quantity : String) : Bool :=
  !quantity.toList.isEmpty &&
  quantity.toList.all (fun c => decide (48 ≤ c.toNat ∧ c.toNat ≤ 57)) &&
  decide (0 < digitsToNat 10 (quantity.toList.map (fun c => c.toNat - 48)))

/-- The worked example of the specification: the form with material steel, complexity
medium and quantity 10. -/
def exampleForm (partType deadline : String) : FormData :=
  ⟨partType, "steel", "10", "medium", deadline⟩

/-! ## Objects -/

/-- A primitive JavaScript value, with numbers in `α`. -/
inductive JsVal (α : Type) where
  | undefined
  | null
  | bool (b : Bool)
  | num (x : α)
  | str (s : String)
deriving DecidableEq, Repr

/-- An object whose properties hold primitive values, in property order. -/
abbrev Record (α : Type) := List (String × JsVal α)

/-- Property read `obj[key]`: `undefined` when the object has no such property. -/
def getKey {α : Type} (obj : Record α) (key : String) : JsVal α :=
  (obj.lookup key).getD JsVal.undefined

/-- Assignment of an object property, as in `{...obj, [key]: value}`: an existing key keeps
its place and takes the new value, a new key is added at the end. -/
def setKey {β : Type} (obj : List (String × β)) (key : String) (value : β) :
    List (String × β) :=
  if obj.any (fun kv => kv.1 == key) then
    obj.map (fun kv => if kv.1 == key then (kv.1, value) else kv)
  else obj ++ [(key, value)]

/-! ## Pricing -/

section Pricing

variable {α : Type} [LinearOrderedField α] [FloorRing α]

/-- The pricing state of the page: `materialPrices` (an object from material name to unit
price) and the advanced options. -/
structure PricingConfig (α : Type) where
  materialPrices : List (String × α)
  rushFeeEnabled : Bool
  rushFeeAmount : α
  marginPercentage : α

/-- The constant `defaultMaterialPrices`. -/
def defaultMaterialPrices : List (String × α) :=
  [("aluminum", 10), ("steel", 15), ("plastic", 5), ("titanium", 50)]

/-- The initial pricing state: `useState(defaultMaterialPrices)`, `useState(false)`,
`useState(50)`, `useState(20)`. -/
def initialPricing : PricingConfig α :=
  { materialPrices := defaultMaterialPrices
    rushFeeEnabled := false
    rushFeeAmount := 50
    marginPercentage := 20 }

/-- The expression `table[key] || dflt` for a table of numbers: `undefined` (no such key) and
the falsy number `0` both give the default. -/
def lookupOr (table : List (String × α)) (key : String) (dflt : α) : α :=
  match table.lookup key with
  | some v => if v = 0 then dflt else v
  | none => dflt

/-- The constant `complexityMultipliers` of `calculateQuote`. -/
def complexityMultipliers : List (String × α) :=
  [("simple", 1.0), ("medium", 1.5), ("complex", 2.5)]

/-- The complexity table of the mock estimate in `getAiQuoteSuggestion`. -/
def mockComplexityMultipliers : List (String × α) :=
  [("low", 1.0), ("medium", 1.5), ("high", 2.5)]

/-- The values of the `<option>` elements of the complexity `<select>` of the form. -/
def complexityOptions : List String := ["low", "medium", "high"]

/-- `Number.prototype.toFixed(2)` followed by `parseFloat`, on a non-negative number: from
10^21 on `toFixed` gives the number's own string, below it the closest multiple of 1/100,
the larger one on a tie. -/
def toFixed2Abs (x : α) : α :=
  if (10 : α) ^ 21 ≤ x then x else (⌊100 * x + 1 / 2⌋ : α) / 100

/-- The expression `parseFloat(x.toFixed(2))`: `toFixed` treats a negative number by its
absolute value and puts the sign in front. -/
def toFixed2 (x : α) : α :=
  if x < 0 then -toFixed2Abs (-x) else toFixed2Abs x

/-- Every value computed by the timer callback of `calculateQuote`, under the names of its
local variables. -/
structure QuoteBreakdown (α : Type) where
  basePrice : α
  complexityMultiplier : α
  quantity : Int
  quantityMultiplier : α
  baseCost : α
  randomFactor : α
  marginMultiplier : α
  rushFee : α
  calculatedAmount : α
  finalQuote : α
  jobData : Record α

/-- The expression `Math.max(1, Math.log10(quantity) + 1)`. -/
def quantityMultiplierOf (log10 : α → α) (quantity : Int) : α :=
  max 1 (log10 (quantity : α) + 1)

/-- The object `jobData` built by the timer callback of `calculateQuote`. -/
def buildJobData (cfg : PricingConfig α) (form : FormData) (quantity : Int) (finalQuote : α)
    (createdAt : String) : Record α :=
  [("part_type", JsVal.str form.partType),
   ("material", JsVal.str form.material),
   ("quantity", JsVal.num (quantity : α)),
   ("complexity", JsVal.str form.complexity),
   ("deadline", if form.deadline = "" then JsVal.null else JsVal.str form.deadline),
   ("quote", JsVal.num finalQuote),
   ("created_at", JsVal.str createdAt),
   ("rush_fee_enabled", JsVal.bool cfg.rushFeeEnabled),
   ("rush_fee_amount", JsVal.num (if cfg.rushFeeEnabled then cfg.rushFeeAmount else 0)),
   ("margin_percentage", JsVal.num cfg.marginPercentage)]

/-- The statements of the timer callback of `calculateQuote` up to `jobData`, in source
order.  `quantity` is the value of `parseInt(formData.quantity)`, `random` the value
returned by `Math.random()` and `createdAt` that of `new Date().toISOString()`. -/
def priceQuote (log10 : α → α) (cfg : PricingConfig α) (form : FormData) (quantity : Int)
    (random : α) (createdAt : String) : QuoteBreakdown α :=
  let basePrice := lookupOr cfg.materialPrices form.material 10
  let complexityMultiplier := lookupOr complexityMultipliers form.complexity 1.5
  let quantityMultiplier := quantityMultiplierOf log10 quantity
  let baseCost := basePrice * complexityMultiplier * quantityMultiplier * (quantity : α)
  let randomFactor := 0.9 + random * 0.2
  let amount₁ := baseCost * randomFactor
  let marginMultiplier := 1 + cfg.marginPercentage / 100
  let amount₂ := amount₁ * marginMultiplier
  let rushFee := if cfg.rushFeeEnabled then cfg.rushFeeAmount else 0
  let amount₃ := if cfg.rushFeeEnabled then amount₂ + rushFee else amount₂
  { basePrice := basePrice
    complexityMultiplier := complexityMultiplier
    quantity := quantity
    quantityMultiplier := quantityMultiplier
    baseCost := baseCost
    randomFactor := randomFactor
    marginMultiplier := marginMultiplier
    rushFee := rushFee
    calculatedAmount := amount₃
    finalQuote := toFixed2 amount₃
    jobData := buildJobData cfg form quantity (toFixed2 amount₃) createdAt }

/-- The computation of `calculateQuote`: the validation errors when validation fails (the
function returns before the timer is set), otherwise the values computed by the timer
callback.  After validation `parseInt(formData.quantity)` is a number, so the `none` branch
is never taken (`parseInt_of_valid`). -/
def calculateQuote (log10 : α → α) (cfg : PricingConfig α) (form : FormData) (random : α)
    (createdAt : String) : Except ValidationErrors (QuoteBreakdown α) :=
  if (validateForm form).hasErrors then Except.error (validateForm form)
  else
    match parseInt form.quantity with
    | some quantity => Except.ok (priceQuote log10 cfg form quantity random createdAt)
    | none => Except.error (validateForm form)

/-- The global `parseFloat(string)`: the value of the longest decimal literal at the start
of the trimmed input, `none` (for `NaN`) when there is none.  The value is exact; the
literal `Infinity`, which denotes no value of the model, is not recognised. -/
def parseFloat (s : String) : Option α :=
  match scanDecimal s with
  | none => none
  | some lit =>
    some ((lit.sign : α) *
      ((digitsToNat 10 lit.whole : α) + (digitsToNat 10 lit.frac : α) / 10 ^ lit.frac.length) *
      10 ^ lit.exponent)

/-- The expression `v || 0` for a number or `NaN`: the falsy values `NaN` and `0` give `0`. -/
def orZero : Option α → α
  | some v => v
  | none => 0

/-- The state `submitStatus`. -/
structure SubmitStatus where
  type : Option String
  message : Option String
deriving DecidableEq, Repr

/-- The part of the component state of `App` that the quote calculator and the save of the
job read and write.  `priceDetails` holds the computed values from which the strings of the object `details` are
formatted. -/
structure AppState (α : Type) where
  formData : FormData
  errors : ValidationErrors
  submitStatus : SubmitStatus
  isCalculating : Bool
  quote : Option α
  priceDetails : Option (QuoteBreakdown α)
  pricing : PricingConfig α
  pricesCustomized : Bool
  demoMode : Bool
  savedQuotes : List (Record α)

/-- The state after the first render: the `useState` initial values. -/
def initialState : AppState α :=
  { formData := ⟨"", "steel", "", "medium", ""⟩
    errors := ValidationErrors.empty
    submitStatus := ⟨none, none⟩
    isCalculating := false
    quote := none
    priceDetails := none
    pricing := initialPricing
    pricesCustomized := false
    demoMode := false
    savedQuotes := [] }

/-- The test `Object.keys(prices).some(mat => prices[mat] !== defaultMaterialPrices[mat])`. -/
def isCustomized (prices : List (String × α)) : Bool :=
  prices.any (fun kv => decide (prices.lookup kv.1 ≠ defaultMaterialPrices.lookup kv.1))

/-- The state updates of `handleMaterialPriceChange(material, value)`. -/
def handleMaterialPriceChange (s : AppState α) (material value : String) : AppState α :=
  let updatedPrices := setKey s.pricing.materialPrices material (orZero (parseFloat value))
  { s with
    pricing := { s.pricing with materialPrices := updatedPrices }
    pricesCustomized := isCustomized updatedPrices }

/-- The state update of `handleRushFeeToggle(checked)`. -/
def handleRushFeeToggle (s : AppState α) (checked : Bool) : AppState α :=
  { s with pricing := { s.pricing with rushFeeEnabled := checked } }

/-- The state update of `handleRushFeeAmountChange(amount)`. -/
def handleRushFeeAmountChange (s : AppState α) (amount : α) : AppState α :=
  { s with pricing := { s.pricing with rushFeeAmount := amount } }

/-- The `onChange` of the rush fee input:
`handleRushFeeAmountChange(parseInt(e.target.value) || 0)`. -/
def rushFeeInputChange (s : AppState α) (value : String) : AppState α :=
  handleRushFeeAmountChange s (orZero ((parseInt value).map (fun n => (n : α))))

/-- The state update of `handleMarginChange(percentage)`. -/
def handleMarginChange (s : AppState α) (percentage : α) : AppState α :=
  { s with pricing := { s.pricing with marginPercentage := percentage } }

/-- The events of the pricing panel: an edit of a material price input, the rush fee
checkbox, an edit of the rush fee input, and one of the three margin buttons. -/
inductive PricingEvent where
  | materialPrice (material value : String)
  | rushFeeToggle (checked : Bool)
  | rushFeeInput (value : String)
  | margin10
  | margin20
  | margin30

/-- The handler run by each event of the pricing panel. -/
def PricingEvent.apply (s : AppState α) : PricingEvent → AppState α
  | .materialPrice material value => handleMaterialPriceChange s material value
  | .rushFeeToggle checked => handleRushFeeToggle s checked
  | .rushFeeInput value => rushFeeInputChange s value
  | .margin10 => handleMarginChange s 10
  | .margin20 => handleMarginChange s 20
  | .margin30 => handleMarginChange s 30

/-- The state reached from the initial one by a sequence of pricing events. -/
def afterEvents (events : List PricingEvent) : AppState α :=
  events.foldl PricingEvent.apply initialState

/-- The state updates of a click on "Calculate Quote" up to `setQuote(finalQuote)`, before
the job is saved: on a validation failure `errors` and `submitStatus` are set and nothing
else changes; otherwise `errors` is cleared and the timer callback stores the breakdown and
the quote. -/
def calculateQuoteClick (log10 : α → α) (s : AppState α) (random : α) (createdAt : String) :
    AppState α :=
  match calculateQuote log10 s.pricing s.formData random createdAt with
  | Except.error errs =>
    { s with
      errors := errs
      submitStatus :=
        ⟨some "error", some "Please fill in all required fields correctly."⟩ }
  | Except.ok b =>
    { s with
      errors := ValidationErrors.empty
      isCalculating := true
      priceDetails := some b
      quote := some b.finalQuote }

end Pricing

/-! ## The job store -/

section JobStore

variable {α : Type} [LinearOrderedField α]

/-- An error object: the `error` of a Supabase response or a caught exception.  Its `code`
and `message` properties may be missing. -/
structure JsError where
  code : Option String
  message : Option String
deriving DecidableEq, Repr

/-- The result of an awaited call that may throw. -/
inductive Outcome (β : Type) where
  | returned (value : β)
  | threw (err : JsError)

/-- The `TypeError` raised by `error.message.includes(...)` when `error.message` is
undefined (the text of its message depends on the engine). -/
def typeError : JsError :=
  ⟨none, some "Cannot read properties of undefined (reading \x27includes\x27)"⟩

/-- `String.prototype.includes` on character lists. -/
def includesChars : List Char → List Char → Bool
  | [], sub => sub.isEmpty
  | c :: cs, sub => sub.isPrefixOf (c :: cs) || includesChars cs sub

/-- `String.prototype.includes`. -/
def includes (s sub : String) : Bool := includesChars s.toList sub.toList

/-- Truthiness of a primitive value. -/
def truthy : JsVal α → Bool
  | JsVal.undefined => false
  | JsVal.null => false
  | JsVal.bool b => b
  | JsVal.num x => decide (x ≠ 0)
  | JsVal.str s => decide (s ≠ "")

/-- The expression `a || b` on primitive values. -/
def jsOr (a b : JsVal α) : JsVal α := if truthy a then a else b

/-- The object read back from `JSON.stringify`: properties whose value is `undefined` are
left out. -/
def stringifyRecord (r : Record α) : Record α :=
  r.filter (fun kv => decide (kv.2 ≠ JsVal.undefined))

/-- The string held by `localStorage` under a key, by what `JSON.parse` makes of it: the
JSON text of an array of objects, the JSON text of an object, the empty string, or any
other string (malformed text, or JSON of another kind of value). -/
inductive Stored (α : Type) where
  | array (items : List (Record α))
  | object (fields : Record α)
  | emptyString
  | other
deriving DecidableEq, Repr

/-- The browser's `localStorage`: the stored strings by key, and whether `getItem` and
`setItem` throw (storage disabled, quota exceeded). -/
structure LocalStorage (α : Type) where
  items : List (String × Stored α)
  getItemThrows : Bool
  setItemThrows : Bool

/-- The response `{ data, error }` of the remote insert. -/
structure InsertResponse (α : Type) where
  data : Option (List (Record α))
  error : Option JsError

/-- The behaviour of the Supabase client during one call of `db.insert`: the `error` of the
probe of the `jobs` table, the `error` of the probe of the system tables, and the response
of `insert([data]).select()`; each call may throw instead. -/
structure Remote (α : Type) where
  jobsProbe : Outcome (Option JsError)
  systemProbe : Outcome (Option JsError)
  insert : Outcome (InsertResponse α)

/-- The object returned by `db.insert` and `db._saveToLocalStorage`; a missing `message`
property is `none`. -/
structure InsertResult (α : Type) where
  data : Option (List (Record α))
  error : Option JsError
  demoMode : Bool
  message : Option String

/-- The object returned by `checkSupabaseConnection`. -/
structure ConnectionStatus where
  isConnected : Bool
  error : Option JsError
deriving DecidableEq, Repr

/-- The function `checkSupabaseConnection`. -/
def checkSupabaseConnection (remote : Remote α) : ConnectionStatus :=
  match remote.jobsProbe with
  | Outcome.threw err => ⟨false, some err⟩
  | Outcome.returned none => ⟨true, none⟩
  | Outcome.returned (some jobsError) =>
    if jobsError.code = some "42P01" then ⟨true, some jobsError⟩
    else
      match remote.systemProbe with
      | Outcome.threw err => ⟨false, some err⟩
      | Outcome.returned none => ⟨true, none⟩
      | Outcome.returned (some error) =>
        if error.code = some "42501" then ⟨true, none⟩
        else
          match error.message with
          | none => ⟨false, some typeError⟩
          | some msg =>
            if includes msg "permission denied" then ⟨true, none⟩ else ⟨false, some error⟩

/-- The default value of the parameter `message` of `_saveToLocalStorage`. -/
def defaultSaveMessage : String := "Saved to local storage in demo mode"

/-- The message passed by `db.insert` for the error code 42P01. -/
def tableMissingMessage : String :=
  "Table does not exist in database. Using local storage until fixed."

/-- The message passed by `db.insert` for the error code 42703. -/
def columnMismatchMessage : String :=
  "Table columns don\x27t match the data. Using local storage until fixed."

/-- The message passed by `db.insert` for a row-level security rejection. -/
def rlsMessage : String :=
  "Row-level security blocked the insert. Using local storage until fixed in Supabase dashboard."

/-- The object `newItem` of `_saveToLocalStorage`:
`{...data, id: data.id || Date.now(), created_at: data.created_at || new Date().toISOString()}`. -/
def newItemOf (now : α) (nowIso : String) (data : Record α) : Record α :=
  setKey (setKey data "id" (jsOr (getKey data "id") (JsVal.num now)))
    "created_at" (jsOr (getKey data "created_at") (JsVal.str nowIso))

/-- The object returned by the `catch` block of `_saveToLocalStorage`. -/
def saveFailure : InsertResult α :=
  ⟨none, some ⟨none, some "Failed to save data even in fallback mode"⟩, true, none⟩

/-- The array `existing` of `_saveToLocalStorage`, the value of
`JSON.parse(localStorage.getItem(table) || '[]')`: a missing key and the empty string give
the empty array; `none` when the stored string does not parse to an array (`JSON.parse`
throws, or `existing.push` is not a function). -/
def readExisting (ls : LocalStorage α) (table : String) : Option (List (Record α)) :=
  match ls.items.lookup table with
  | none => some []
  | some Stored.emptyString => some []
  | some (Stored.array items) => some items
  | some (Stored.object _) => none
  | some Stored.other => none

/-- The method `db._saveToLocalStorage(table, data, message)`: the returned object and the
storage afterwards.  `now` is the value of `Date.now()` and `nowIso` that of
`new Date().toISOString()`. -/
def saveToLocalStorage (ls : LocalStorage α) (now : α) (nowIso : String) (table : String)
    (data : Record α) (message : String) : InsertResult α × LocalStorage α :=
  if ls.getItemThrows then (saveFailure, ls)
  else
    match readExisting ls table with
    | none => (saveFailure, ls)
    | some existing =>
      if ls.setItemThrows then (saveFailure, ls)
      else
        (⟨some [newItemOf now nowIso data], none, true, some message⟩,
         { ls with
           items := setKey ls.items table
             (Stored.array (existing ++ [stringifyRecord (newItemOf now nowIso data)])) })

/-- The method `db.insert(table, data)`: the returned object and the storage afterwards. -/
def dbInsert (remote : Remote α) (ls : LocalStorage α) (now : α) (nowIso : String)
    (table : String) (data : Record α) : InsertResult α × LocalStorage α :=
  if (checkSupabaseConnection remote).isConnected = false then
    saveToLocalStorage ls now nowIso table data defaultSaveMessage
  else
    match remote.insert with
    | Outcome.threw _ => saveToLocalStorage ls now nowIso table data defaultSaveMessage
    | Outcome.returned response =>
      match response.error with
      | none => (⟨response.data, none, false, none⟩, ls)
      | some error =>
        if error.code = some "42P01" then
          saveToLocalStorage ls now nowIso table data tableMissingMessage
        else if error.code = some "42703" then
          saveToLocalStorage ls now nowIso table data columnMismatchMessage
        else if error.code = some "42501" then
          saveToLocalStorage ls now nowIso table data rlsMessage
        else
          match error.message with
          | none => saveToLocalStorage ls now nowIso table data defaultSaveMessage
          | some msg =>
            if includes msg "row-level security" ||
                includes msg "violates row-level security policy" then
              saveToLocalStorage ls now nowIso table data rlsMessage
            else (⟨none, some error, false, none⟩, ls)

/-- The message `db.insert` passes to the local save for an error of the remote insert that
it classifies: by code 42P01, then by code 42703, then as a row-level security rejection. -/
def classMessage (error : JsError) : String :=
  if error.code = some "42P01" then tableMissingMessage
  else if error.code = some "42703" then columnMismatchMessage
  else rlsMessage

/-- The errors of the remote insert that `db.insert` answers with the local save: code
42P01, code 42703, code 42501, or a message that mentions row-level security. -/
def isClassified (error : JsError) : Bool :=
  decide (error.code = some "42P01") || decide (error.code = some "42703") ||
  decide (error.code = some "42501") ||
  (match error.message with
   | some msg => includes msg "row-level security"
   | none => false)

/-- A remote whose `jobs` table is missing at insert time: the probe succeeds and the insert reports the
error code 42P01. -/
def missingTableRemote : Remote α :=
  ⟨Outcome.returned none, Outcome.returned none,
   Outcome.returned ⟨none, some ⟨some "42P01", some "relation public.jobs does not exist"⟩⟩⟩

/-- A storage whose `setItem` throws (quota exceeded), holding one earlier job. -/
def fullStorage : LocalStorage α :=
  ⟨[("jobs", Stored.array [[("part_type", JsVal.str "Bracket")]])], false, true⟩

/-- A remote with schema drift: the probe succeeds and the insert reports the unknown
column `margin_percentage` with code 42703. -/
def unknownColumnRemote : Remote α :=
  ⟨Outcome.returned none, Outcome.returned none,
   Outcome.returned
     ⟨none, some ⟨some "42703", some "column jobs.margin_percentage does not exist"⟩⟩⟩

/-- An empty, working storage. -/
def emptyStorage : LocalStorage α := ⟨[], false, false⟩

/-! ### Exceptions made explicit

The same functions with every statement that can throw returning `Outcome`, and every
`try`/`catch` written out. -/

/-- Sequencing of statements that may throw: an exception skips the statements after it. -/
def Outcome.bind {β γ : Type} : Outcome β → (β → Outcome γ) → Outcome γ
  | Outcome.returned value, rest => rest value
  | Outcome.threw err, _ => Outcome.threw err

/-- The statement `try { body } catch (err) { handler }`. -/
def tryCatch {β : Type} (body : Outcome β) (handler : JsError → Outcome β) : Outcome β :=
  match body with
  | Outcome.returned value => Outcome.returned value
  | Outcome.threw err => handler err

/-- The call `error.message.includes(sub)`: a `TypeError` when `error.message` is
undefined. -/
def messageIncludes (error : JsError) (sub : String) : Outcome Bool :=
  match error.message with
  | none => Outcome.threw typeError
  | some msg => Outcome.returned (includes msg sub)

/-- The exception of a `localStorage` call that fails (the text depends on the engine). -/
def storageError : JsError := ⟨none, some "The operation failed."⟩

/-- The exception raised on a stored string that is not the JSON text of an array: the
`SyntaxError` of `JSON.parse` or the `TypeError` of `existing.push`. -/
def parseError : JsError := ⟨none, some "existing.push is not a function"⟩

/-- The call `localStorage.getItem(key)`. -/
def getItem (ls : LocalStorage α) (key : String) : Outcome (Option (Stored α)) :=
  if ls.getItemThrows then Outcome.threw storageError
  else Outcome.returned (ls.items.lookup key)

/-- The call `localStorage.setItem(key, value)`. -/
def setItem (ls : LocalStorage α) (key : String) (value : Stored α) :
    Outcome (LocalStorage α) :=
  if ls.setItemThrows then Outcome.threw storageError
  else Outcome.returned { ls with items := setKey ls.items key value }

/-- The statements `JSON.parse(text || '[]')` and `existing.push` on the value of
`getItem`. -/
def parseExisting : Option (Stored α) → Outcome (List (Record α))
  | none => Outcome.returned []
  | some Stored.emptyString => Outcome.returned []
  | some (Stored.array items) => Outcome.returned items
  | some (Stored.object _) => Outcome.threw parseError
  | some Stored.other => Outcome.threw parseError

/-- The `try` block of `checkSupabaseConnection`. -/
def checkSupabaseConnectionTry (remote : Remote α) : Outcome ConnectionStatus :=
  remote.jobsProbe.bind fun jobsError =>
    match jobsError with
    | none => Outcome.returned ⟨true, none⟩
    | some jobsError =>
      if jobsError.code = some "42P01" then Outcome.returned ⟨true, some jobsError⟩
      else
        remote.systemProbe.bind fun error =>
          match error with
          | none => Outcome.returned ⟨true, none⟩
          | some error =>
            (if error.code = some "42501" then Outcome.returned true
             else messageIncludes error "permission denied").bind fun denied =>
              if denied then Outcome.returned ⟨true, none⟩
              else Outcome.returned ⟨false, some error⟩

/-- The function `checkSupabaseConnection` with its `catch` block. -/
def checkSupabaseConnectionOutcome (remote : Remote α) : Outcome ConnectionStatus :=
  tryCatch (checkSupabaseConnectionTry remote) (fun err => Outcome.returned ⟨false, some err⟩)

/-- The `try` block of `_saveToLocalStorage`. -/
def saveToLocalStorageTry (ls : LocalStorage α) (now : α) (nowIso : String) (table : String)
    (data : Record α) (message : String) : Outcome (InsertResult α × LocalStorage α) :=
  (getItem ls table).bind fun text =>
    (parseExisting text).bind fun existing =>
      (setItem ls table
          (Stored.array (existing ++ [stringifyRecord (newItemOf now nowIso data)]))).bind
        fun stored =>
          Outcome.returned (⟨some [newItemOf now nowIso data], none, true, some message⟩, stored)

/-- The method `_saveToLocalStorage` with its `catch` block. -/
def saveToLocalStorageOutcome (ls : LocalStorage α) (now : α) (nowIso : String)
    (table : String) (data : Record α) (message : String) :
    Outcome (InsertResult α × LocalStorage α) :=
  tryCatch (saveToLocalStorageTry ls now nowIso table data message)
    (fun _ => Outcome.returned (saveFailure, ls))

/-- The `try` block of `db.insert`. -/
def dbInsertTry (remote : Remote α) (ls : LocalStorage α) (now : α) (nowIso : String)
    (table : String) (data : Record α) : Outcome (InsertResult α × LocalStorage α) :=
  (checkSupabaseConnectionOutcome remote).bind fun connection =>
    if connection.isConnected = false then
      saveToLocalStorageOutcome ls now nowIso table data defaultSaveMessage
    else
      remote.insert.bind fun response =>
        match response.error with
        | none => Outcome.returned (⟨response.data, none, false, none⟩, ls)
        | some error =>
          if error.code = some "42P01" then
            saveToLocalStorageOutcome ls now nowIso table data tableMissingMessage
          else if error.code = some "42703" then
            saveToLocalStorageOutcome ls now nowIso table data columnMismatchMessage
          else
            (if error.code = some "42501" then Outcome.returned true
             else
              (messageIncludes error "row-level security").bind fun mentioned =>
                if mentioned then Outcome.returned true
                else messageIncludes error "violates row-level security policy").bind
              fun rejected =>
                if rejected then
                  saveToLocalStorageOutcome ls now nowIso table data rlsMessage
                else Outcome.returned (⟨none, some error, false, none⟩, ls)

/-- The method `db.insert` with its `catch` block. -/
def dbInsertOutcome (remote : Remote α) (ls : LocalStorage α) (now : α) (nowIso : String)
    (table : String) (data : Record α) : Outcome (InsertResult α × LocalStorage α) :=
  tryCatch (dbInsertTry remote ls now nowIso table data)
    (fun _ => saveToLocalStorageOutcome ls now nowIso table data defaultSaveMessage)

/-- A remote that cannot be reached: both probes throw. -/
def unreachableRemote : Remote α :=
  ⟨Outcome.threw ⟨none, some "Failed to fetch"⟩, Outcome.threw ⟨none, some "Failed to fetch"⟩,
   Outcome.threw ⟨none, some "Failed to fetch"⟩⟩

/-- A remote that accepts the probe and answers the insert with an error object that has
neither a code nor a message. -/
def bareErrorRemote : Remote α :=
  ⟨Outcome.returned none, Outcome.returned none, Outcome.returned ⟨none, some ⟨none, none⟩⟩⟩

/-- A remote that accepts the probe and answers the insert with an unclassified server
error. -/
def serverErrorRemote : Remote α :=
  ⟨Outcome.returned none, Outcome.returned none,
   Outcome.returned ⟨none, some ⟨some "500", some "Internal Server Error"⟩⟩⟩

/-- A remote that accepts the probe and the insert and returns the given rows. -/
def acceptingRemote (rows : List (Record α)) : Remote α :=
  ⟨Outcome.returned none, Outcome.returned none, Outcome.returned ⟨some rows, none⟩⟩

/-- The keys of an object are distinct (every JavaScript object is such a list). -/
def keysDistinct (r : Record α) : Bool := decide (r.map Prod.fst).Nodup

/-- A working storage that holds the material prices and one earlier job. -/
def mixedStorage : LocalStorage α :=
  ⟨[("materialPrices", Stored.object [("steel", JsVal.num 15)]),
    ("jobs", Stored.array [[("part_type", JsVal.str "Bracket")]])], false, false⟩

/-- A storage whose value under `jobs` is not the JSON text of an array. -/
def corruptStorage : LocalStorage α := ⟨[("jobs", Stored.other)], false, false⟩

end JobStore

/-! ## Saving the job -/

section SavePath

variable {α : Type} [LinearOrderedField α] [FloorRing α]

/-- The object returned by `insertJobToSupabase`. -/
structure SaveResult where
  success : Bool
  message : String
deriving DecidableEq, Repr

/-- The expression `text || dflt` for a string or `undefined`. -/
def orString (text : Option String) (dflt : String) : String :=
  match text with
  | some t => if t = "" then dflt else t
  | none => dflt

/-- The condition of the row-level security branch of `insertJobToSupabase`:
`error.message && (error.message.includes('row-level security') ||
error.message.includes('violates row-level security policy'))`. -/
def mentionsRls (error : JsError) : Bool :=
  match error.message with
  | some msg =>
    decide (msg ≠ "") &&
      (includes msg "row-level security" || includes msg "violates row-level security policy")
  | none => false

/-- The end of `insertJobToSupabase` for a local save that carries no message: demo mode, the
job added to `savedQuotes`, and the final success status. -/
def savedInDemoMode (s : AppState α) (jobData : Record α) : AppState α × SaveResult :=
  ({ s with
     demoMode := true
     savedQuotes := s.savedQuotes ++ [jobData]
     submitStatus := ⟨some "success", some "Quote saved successfully!"⟩ },
   ⟨true, "Quote saved successfully!"⟩)

/-- The function `insertJobToSupabase(jobData)`: the state after its updates and the object
it returns.  `inserted` is the outcome of `await db.insert('jobs', jobData)`; a thrown
exception is handled by the `catch` block. -/
def insertJobToSupabase (s : AppState α) (jobData : Record α)
    (inserted : Outcome (InsertResult α)) : AppState α × SaveResult :=
  match inserted with
  | Outcome.threw err =>
    ({ s with
       demoMode := true
       submitStatus :=
         ⟨some "error", some ("Error saving quote: " ++ orString err.message "Please try again.")⟩ },
     ⟨false, "Error saving quote: " ++ orString err.message "Please try again."⟩)
  | Outcome.returned result =>
    match result.error with
    | some error =>
      if error.code = some "42703" then
        ({ s with
           submitStatus := ⟨some "error", some
             "Missing database columns. Please update your database schema manually. Check the console for instructions."⟩
           demoMode := true
           savedQuotes := s.savedQuotes ++ [jobData] },
         ⟨true, "Quote saved locally (database schema needs manual update)"⟩)
      else if mentionsRls error then
        ({ s with
           submitStatus := ⟨some "error", some
             "Row-level security policy error. Please check the RLS policies in your Supabase dashboard for the jobs table."⟩
           demoMode := true
           savedQuotes := s.savedQuotes ++ [jobData] },
         ⟨true, "Quote saved locally (database access restricted)"⟩)
      else
        ({ s with
           submitStatus := ⟨some "error", some
             ("Failed to save quote: " ++ orString error.message "Please try again.")⟩ },
         ⟨false, "Failed to save quote: " ++ orString error.message "Please try again."⟩)
    | none =>
      if result.demoMode then
        match result.message with
        | some message =>
          if message ≠ "" then
            ({ s with
               demoMode := true
               savedQuotes := s.savedQuotes ++ [jobData]
               submitStatus := ⟨some "warning", some message⟩ },
             ⟨true, message⟩)
          else savedInDemoMode s jobData
        | none => savedInDemoMode s jobData
      else
        ({ s with
           demoMode := false
           submitStatus := ⟨some "success", some "Quote saved successfully!"⟩ },
         ⟨true, "Quote saved successfully!"⟩)

/-- The status set by `calculateQuote` from the object returned by `insertJobToSupabase`. -/
def statusOfSave (result : SaveResult) : SubmitStatus :=
  if result.success then
    ⟨some "success", some (orString (some result.message) "Quote saved successfully!")⟩
  else ⟨some "error", some (orString (some result.message) "Failed to save quote.")⟩

/-- The whole of `calculateQuote`, until `setIsCalculating(false)`: the state updates of the
click, then in the timer callback the save of the job and the status update that follows.
`insertOf jobData` is the outcome of `await db.insert('jobs', jobData)`. -/
def calculateQuoteComplete (log10 : α → α) (s : AppState α) (random : α) (createdAt : String)
    (insertOf : Record α → Outcome (InsertResult α)) : AppState α :=
  match calculateQuote log10 s.pricing s.formData random createdAt with
  | Except.error _ => calculateQuoteClick log10 s random createdAt
  | Except.ok b =>
    { (insertJobToSupabase (calculateQuoteClick log10 s random createdAt) b.jobData
        (insertOf b.jobData)).1 with
      submitStatus := statusOfSave
        (insertJobToSupabase (calculateQuoteClick log10 s random createdAt) b.jobData
          (insertOf b.jobData)).2
      isCalculating := false }

/-- The whole of `calculateQuote` with `db.insert` as the store: the state at the end. -/
def calculateQuoteAndStore (log10 : α → α) (s : AppState α) (random : α) (createdAt : String)
    (remote : Remote α) (ls : LocalStorage α) (now : α) (nowIso : String) : AppState α :=
  calculateQuoteComplete log10 s random createdAt
    (fun jobData => Outcome.returned (dbInsert remote ls now nowIso "jobs" jobData).1)

end SavePath

/-! ## Persisted pricing settings -/

section Settings

variable {α : Type} [LinearOrderedField α]

/-- The value of `JSON.stringify(materialPrices)`. -/
def materialPricesJson (prices : List (String × α)) : Stored α :=
  Stored.object (prices.map (fun kv => (kv.1, JsVal.num kv.2)))

/-- The value of `JSON.stringify({ rushFeeEnabled, rushFeeAmount, marginPercentage })`. -/
def advancedOptionsJson (cfg : PricingConfig α) : Stored α :=
  Stored.object
    [("rushFeeEnabled", JsVal.bool cfg.rushFeeEnabled),
     ("rushFeeAmount", JsVal.num cfg.rushFeeAmount),
     ("marginPercentage", JsVal.num cfg.marginPercentage)]

/-- The key and the value that each handler of the pricing panel passes to
`localStorage.setItem`, from the state before the event. -/
def PricingEvent.written (s : AppState α) : PricingEvent → String × Stored α
  | .materialPrice material value =>
    ("materialPrices",
      materialPricesJson (handleMaterialPriceChange s material value).pricing.materialPrices)
  | .rushFeeToggle checked =>
    ("advancedOptions", advancedOptionsJson (handleRushFeeToggle s checked).pricing)
  | .rushFeeInput value =>
    ("advancedOptions", advancedOptionsJson (rushFeeInputChange s value).pricing)
  | .margin10 => ("advancedOptions", advancedOptionsJson (handleMarginChange s 10).pricing)
  | .margin20 => ("advancedOptions", advancedOptionsJson (handleMarginChange s 20).pricing)
  | .margin30 => ("advancedOptions", advancedOptionsJson (handleMarginChange s 30).pricing)

/-- The storage after `localStorage.setItem(key, value)` at the end of a handler: unchanged
when the call throws. -/
def writeItem (ls : LocalStorage α) (key : String) (value : Stored α) : LocalStorage α :=
  if ls.setItemThrows then ls else { ls with items := setKey ls.items key value }

/-- A handler of the pricing panel on the state and the storage. -/
def PricingEvent.run (st : AppState α × LocalStorage α) (ev : PricingEvent) :
    AppState α × LocalStorage α :=
  (ev.apply st.1, writeItem st.2 (ev.written st.1).1 (ev.written st.1).2)

/-- The state and the storage after a sequence of pricing events from the initial state. -/
def runEvents (events : List PricingEvent) (ls : LocalStorage α) :
    AppState α × LocalStorage α :=
  events.foldl PricingEvent.run (initialState, ls)

/-- The material prices held by a parsed object whose values are all numbers. -/
def pricesOfRecord : Record α → Option (List (String × α))
  | [] => some []
  | (key, JsVal.num x) :: rest => (pricesOfRecord rest).map (fun prices => (key, x) :: prices)
  | _ :: _ => none

/-- The advanced options part of the load effect, on the parsed object:
`rushFeeEnabled` is taken when it is not `undefined`, `rushFeeAmount` and `marginPercentage`
only when they are truthy.  Values of another type than the handlers write are left out of
the typed state. -/
def loadAdvancedOptions (fields : Record α) (cfg : PricingConfig α) : PricingConfig α :=
  let withEnabled : PricingConfig α :=
    match getKey fields "rushFeeEnabled" with
    | JsVal.bool b => { cfg with rushFeeEnabled := b }
    | _ => cfg
  let withAmount : PricingConfig α :=
    match getKey fields "rushFeeAmount" with
    | JsVal.num x => if x = 0 then withEnabled else { withEnabled with rushFeeAmount := x }
    | _ => withEnabled
  match getKey fields "marginPercentage" with
  | JsVal.num x => if x = 0 then withAmount else { withAmount with marginPercentage := x }
  | _ => withAmount

/-- The effect "Load saved material prices from localStorage" run at startup.  A missing or
empty item is skipped; a string that `JSON.parse` rejects ends the effect in its `catch`
block with the updates made so far (the case taken for `Stored.other`); stored values of
another shape than the handlers write leave the typed state as it is. -/
def loadSavedSettings (ls : LocalStorage α) (s : AppState α) : AppState α :=
  if ls.getItemThrows then s
  else
    let afterPrices : Option (AppState α) :=
      match ls.items.lookup "materialPrices" with
      | none => some s
      | some Stored.emptyString => some s
      | some Stored.other => none
      | some (Stored.array _) => some s
      | some (Stored.object fields) =>
        match pricesOfRecord fields with
        | some prices =>
          some { s with
                 pricing := { s.pricing with materialPrices := prices }
                 pricesCustomized := isCustomized prices }
        | none => some s
    match afterPrices with
    | none => s
    | some loaded =>
      match ls.items.lookup "advancedOptions" with
      | some (Stored.object fields) =>
        { loaded with pricing := loadAdvancedOptions fields loaded.pricing }
      | _ => loaded

/-- The strings written when the loaded settings are saved again:
`JSON.stringify(materialPrices)` and the item written by `saveAdvancedOptions()`. -/
def resavedSettings (s : AppState α) : Stored α × Stored α :=
  (materialPricesJson s.pricing.materialPrices, advancedOptionsJson s.pricing)

end Settings

/-! ## Reset of the material prices -/

section Reset

variable {α : Type} [LinearOrderedField α]

/-- The state updates of `resetMaterialPrices()`. -/
def resetMaterialPrices (s : AppState α) : AppState α :=
  { s with
    pricing := { s.pricing with materialPrices := defaultMaterialPrices }
    pricesCustomized := false }

/-- The function `resetMaterialPrices()` on the state and the storage: after the state
updates it calls `localStorage.setItem('materialPrices', JSON.stringify(defaultMaterialPrices))`. -/
def resetMaterialPricesRun (st : AppState α × LocalStorage α) : AppState α × LocalStorage α :=
  (resetMaterialPrices st.1,
   writeItem st.2 "materialPrices" (materialPricesJson defaultMaterialPrices))

end Reset

/-! ## Jobs queries and the AI suggestion -/

section Queries

variable {α : Type} [LinearOrderedField α] [FloorRing α]

/-- The response `{ data, error }` of a `select` on the `jobs` table. -/
structure QueryResponse (α : Type) where
  data : Option (List (Record α))
  error : Option JsError

/-- The states `jobs`, `jobsError` and `isLoadingJobs`. -/
structure JobsState (α : Type) where
  jobs : List (Record α)
  jobsError : Option String
  isLoadingJobs : Bool

/-- The function `fetchJobs` with its `try`, `catch` and `finally` blocks; `query` is the
outcome of the awaited `select`. -/
def fetchJobsOutcome (s : JobsState α) (query : Outcome (QueryResponse α)) :
    Outcome (JobsState α) :=
  tryCatch
    (query.bind fun response =>
      match response.error with
      | some error =>
        Outcome.returned { s with jobsError := error.message, jobs := [], isLoadingJobs := false }
      | none =>
        Outcome.returned
          { s with jobsError := none, jobs := response.data.getD [], isLoadingJobs := false })
    (fun err =>
      Outcome.returned { s with jobsError := err.message, jobs := [], isLoadingJobs := false })

/-- The state after `fetchJobs`. -/
def fetchJobs (s : JobsState α) (query : Outcome (QueryResponse α)) : JobsState α :=
  match query with
  | Outcome.threw err => { s with jobsError := err.message, jobs := [], isLoadingJobs := false }
  | Outcome.returned response =>
    match response.error with
    | some error => { s with jobsError := error.message, jobs := [], isLoadingJobs := false }
    | none => { s with jobsError := none, jobs := response.data.getD [], isLoadingJobs := false }

/-- The object returned by `fetchSimilarJobs`. -/
structure SimilarJobs (α : Type) where
  success : Bool
  error : Option JsError
  data : List (Record α)

/-- The function `fetchSimilarJobs` with its `try` and `catch` blocks. -/
def fetchSimilarJobsOutcome (query : Outcome (QueryResponse α)) : Outcome (SimilarJobs α) :=
  tryCatch
    (query.bind fun response =>
      match response.error with
      | some error => Outcome.returned ⟨false, some error, []⟩
      | none => Outcome.returned ⟨true, none, response.data.getD []⟩)
    (fun err => Outcome.returned ⟨false, some err, []⟩)

/-- The object returned by `fetchSimilarJobs`. -/
def fetchSimilarJobs (query : Outcome (QueryResponse α)) : SimilarJobs α :=
  match query with
  | Outcome.threw err => ⟨false, some err, []⟩
  | Outcome.returned response =>
    match response.error with
    | some error => ⟨false, some error, []⟩
    | none => ⟨true, none, response.data.getD []⟩

/-- The base prices of the mock estimate in `getAiQuoteSuggestion`. -/
def mockBasePrices : List (String × α) :=
  [("steel", 15), ("aluminum", 10), ("plastic", 5), ("titanium", 50)]

/-- The variable `variationFactor` of the mock estimate: `0.9 + Math.random() * 0.3`,
replaced by `0.95 + Math.random() * 0.2` (a second draw) when there are similar jobs. -/
def mockVariationFactor (hasSimilarJobs : Bool) (random₁ random₂ : α) : α :=
  if hasSimilarJobs then 0.95 + random₂ * 0.2 else 0.9 + random₁ * 0.3

/-- The variable `mockQuote` of the mock estimate. -/
def mockQuote (log10 : α → α) (form : FormData) (quantity : Int) (hasSimilarJobs : Bool)
    (random₁ random₂ : α) : α :=
  lookupOr mockBasePrices form.material 10 *
    lookupOr mockComplexityMultipliers form.complexity 1.5 *
    max 1 (log10 (quantity : α) + 1) * (quantity : α) *
    mockVariationFactor hasSimilarJobs random₁ random₂

/-- The value of the state `aiQuoteResult`: the trimmed reply of the chat completion, or the
mock estimate, shown as a dollar sign and `mockQuote.toFixed(2)` (`$NaN` when the quantity
does not parse). -/
inductive Suggestion (α : Type) where
  | reply (text : String)
  | estimate (amount : α)
  | estimateNaN

/-- The states `aiQuoteResult`, `aiQuoteError` and `isAiQuoting`, with the state `errors`
that `getAiQuoteSuggestion` also sets. -/
structure AiState (α : Type) where
  aiQuoteResult : Option (Suggestion α)
  aiQuoteError : Option String
  isAiQuoting : Bool
  errors : ValidationErrors

/-- The states set by the `catch (apiErr)` block of `getAiQuoteSuggestion`: the mock estimate
and the notice that the AI service could not be reached. -/
def mockFallback (log10 : α → α) (form : FormData) (similarJobs : List (Record α))
    (random₁ random₂ : α) : AiState α :=
  match parseInt form.quantity with
  | some quantity =>
    ⟨some (Suggestion.estimate (toFixed2 (mockQuote log10 form quantity
        (decide (0 < similarJobs.length)) random₁ random₂))),
      some "Could not reach AI service. Showing an estimated quote instead.", false,
      ValidationErrors.empty⟩
  | none =>
    ⟨some Suggestion.estimateNaN,
      some "Could not reach AI service. Showing an estimated quote instead.", false,
      ValidationErrors.empty⟩

/-- The `TypeError` raised by `error.message` when `error` is undefined (the text of its
message depends on the engine). -/
def undefinedError : JsError :=
  ⟨none, some "Cannot read properties of undefined (reading \x27message\x27)"⟩

/-- The states set by the outer `catch (err)` block of `getAiQuoteSuggestion`. -/
def aiQuoteFailure (err : JsError) : AiState α :=
  ⟨none, some ("Error getting AI quote: " ++ orString err.message "Unknown error"), false,
    ValidationErrors.empty⟩

/-- The states set when `fetchSimilarJobs` reports no success. -/
def similarJobsFailure (error : JsError) : AiState α :=
  ⟨none,
    some ("Failed to fetch similar jobs for AI comparison: " ++ error.message.getD "undefined"),
    false, ValidationErrors.empty⟩

/-- The function `getAiQuoteSuggestion`: the AI states at its end.  `similar` is the outcome
of the query of `fetchSimilarJobs`, `chat` the outcome of the chat-completion call followed
by `response.data.choices[0].message.content.trim()`, and `random₁`, `random₂` the draws of
the mock estimate.  Every exception is caught by one of the function's `catch` blocks. -/
def getAiQuoteSuggestion (log10 : α → α) (form : FormData)
    (similar : Outcome (QueryResponse α)) (chat : Outcome String) (random₁ random₂ : α) :
    AiState α :=
  if (validateForm form).hasErrors then
    ⟨none, some "Please fill in all required fields correctly before getting an AI suggestion.",
      false, validateForm form⟩
  else if (fetchSimilarJobs similar).success = false then
    match (fetchSimilarJobs similar).error with
    | some error => similarJobsFailure error
    | none => aiQuoteFailure undefinedError
  else
    match chat with
    | Outcome.returned aiSuggestion =>
      if aiSuggestion = "" then
        mockFallback log10 form (fetchSimilarJobs similar).data random₁ random₂
      else ⟨some (Suggestion.reply aiSuggestion), none, false, ValidationErrors.empty⟩
    | Outcome.threw _ =>
      mockFallback log10 form (fetchSimilarJobs similar).data random₁ random₂

/-- The function `getAiQuoteSuggestion` with its `try` and `catch` blocks. -/
def getAiQuoteSuggestionOutcome (log10 : α → α) (form : FormData)
    (similar : Outcome (QueryResponse α)) (chat : Outcome String) (random₁ random₂ : α) :
    Outcome (AiState α) :=
  if (validateForm form).hasErrors then
    Outcome.returned
      ⟨none, some "Please fill in all required fields correctly before getting an AI suggestion.",
        false, validateForm form⟩
  else
    tryCatch
      ((fetchSimilarJobsOutcome similar).bind fun fetched =>
        if fetched.success = false then
          match fetched.error with
          | some error => Outcome.returned (similarJobsFailure error)
          | none => Outcome.threw undefinedError
        else
          tryCatch
            (chat.bind fun aiSuggestion =>
              if aiSuggestion = "" then Outcome.threw ⟨none, some "No valid response from AI"⟩
              else
                Outcome.returned
                  ⟨some (Suggestion.reply aiSuggestion), none, false, ValidationErrors.empty⟩)
            (fun _ =>
              Outcome.returned (mockFallback log10 form fetched.data random₁ random₂)))
      (fun err => Outcome.returned (aiQuoteFailure err))

end Queries

/-! ## Columns of the `jobs` table -/

/-- The columns of the `CREATE TABLE public.jobs` statement of `setup_database.js`. -/
def setupDatabaseColumns : List String :=
  ["id", "part_type", "material", "quantity", "complexity", "deadline", "quote", "created_at"]

/-- The columns of the `CREATE TABLE IF NOT EXISTS jobs` statement of `initializeDatabase`
in `App.js`. -/
def initializeDatabaseColumns : List String :=
  ["id", "part_type", "material", "quantity", "complexity", "deadline", "quote_amount",
   "rush_fee_enabled", "rush_fee_amount", "margin_percentage", "created_at"]

/-- The columns that `createJobsTable` of `supabaseClient.js` tells the user to create. -/
def documentedColumns : List String :=
  ["id", "part_type", "material", "quantity", "complexity", "deadline", "quote",
   "rush_fee_enabled", "rush_fee_amount", "margin_percentage", "created_at"]

/-- The numbers written by the strings `details.rushFeeAmount` and `details.finalQuote` of
the object `details`: `rushFee.toFixed(2)` and `finalQuote.toFixed(2)`. -/
def detailsAmounts {α : Type} [LinearOrderedField α] [FloorRing α] (b : QuoteBreakdown α) :
    α × α :=
  (toFixed2 b.rushFee, toFixed2 b.finalQuote)

/-- A state with the steel / medium / 10 form filled in and the rush fee switched on. -/
def rushOrderState {α : Type} [LinearOrderedField α] : AppState α :=
  { initialState with
    formData := ⟨"Gear", "steel", "10", "medium", "2025-04-01"⟩
    pricing := { initialPricing with rushFeeEnabled := true } }

/-! ## Validation lemmas -/

theorem hasErrors_eq_false_iff (form : FormData) :
    (validateForm form).hasErrors = false ↔
      jsTrim form.partType ≠ "" ∧ form.material ≠ "" ∧ quantityInvalid form.quantity = false := by
  unfold validateForm ValidationErrors.hasErrors
  by_cases h1 : jsTrim form.partType = "" <;> by_cases h2 : form.material = "" <;>
    by_cases h3 : quantityInvalid form.quantity = true <;> simp [h1, h2, h3]

theorem quantityInvalid_eq_false_iff (quantity : String) :
    quantityInvalid quantity = false ↔
      quantity ≠ "" ∧ ∃ q : Int, parseInt quantity = some q ∧ 0 < q := by
  unfold quantityInvalid isNaN
  cases h : parseInt quantity with
  | none => simp [leZero]
  | some n => simp [leZero]

/-- After a successful validation `parseInt(formData.quantity)` is a positive integer. -/
theorem parseInt_of_valid (form : FormData) (h : (validateForm form).hasErrors = false) :
    ∃ q : Int, parseInt form.quantity = some q ∧ 0 < q :=
  ((quantityInvalid_eq_false_iff _).1 ((hasErrors_eq_false_iff form).1 h).2.2).2

section PricingLemmas

variable {α : Type} [LinearOrderedField α] [FloorRing α]

theorem calculateQuote_of_valid (log10 : α → α) (cfg : PricingConfig α) (form : FormData)
    (random : α) (createdAt : String) (q : Int) (h : (validateForm form).hasErrors = false)
    (hq : parseInt form.quantity = some q) :
    calculateQuote log10 cfg form random createdAt =
      Except.ok (priceQuote log10 cfg form q random createdAt) := by
  simp [calculateQuote, h, hq]

theorem calculateQuote_of_invalid (log10 : α → α) (cfg : PricingConfig α) (form : FormData)
    (random : α) (createdAt : String) (h : (validateForm form).hasErrors = true) :
    calculateQuote log10 cfg form random createdAt = Except.error (validateForm form) := by
  simp [calculateQuote, h]

end PricingLemmas

/-! ## The pricing formula (C1, C2) -/

section Tables

variable {α : Type} [LinearOrderedField α]

theorem lookupOr_steel_default :
    lookupOr (defaultMaterialPrices : List (String × α)) "steel" 10 = 15 := by
  simp [lookupOr, defaultMaterialPrices, List.lookup]

theorem lookupOr_medium :
    lookupOr (complexityMultipliers : List (String × α)) "medium" 1.5 = 1.5 := by
  simp [lookupOr, complexityMultipliers, List.lookup]

end Tables

section Formula

variable {α : Type} [LinearOrderedField α] [FloorRing α]

/-- C1. For every validated form, every pricing configuration and every value of
`Math.random()`, `calculateQuote` reaches the pricing statements and the amount before
rounding is `basePrice × complexityMultiplier × quantityMultiplier × quantity ×
randomFactor × (1 + marginPercentage/100)`, plus `rushFeeAmount` added flat (outside the
margin) exactly when `rushFeeEnabled`; here `quantity = parseInt(formData.quantity)` and
`quantityMultiplier = max(1, log10(quantity) + 1)`. -/
theorem calculateQuote_amount_formula (log10 : α → α) (cfg : PricingConfig α)
    (form : FormData) (random : α) (createdAt : String)
    (h : (validateForm form).hasErrors = false) :
    ∃ b : QuoteBreakdown α, calculateQuote log10 cfg form random createdAt = Except.ok b ∧
      parseInt form.quantity = some b.quantity ∧
      b.basePrice = lookupOr cfg.materialPrices form.material 10 ∧
      b.complexityMultiplier = lookupOr complexityMultipliers form.complexity 1.5 ∧
      b.quantityMultiplier = max 1 (log10 (b.quantity : α) + 1) ∧
      b.randomFactor = 0.9 + 0.2 * random ∧
      b.baseCost =
        b.basePrice * b.complexityMultiplier * b.quantityMultiplier * (b.quantity : α) ∧
      b.calculatedAmount =
        b.basePrice * b.complexityMultiplier * b.quantityMultiplier * (b.quantity : α) *
            b.randomFactor * (1 + cfg.marginPercentage / 100) +
          (if cfg.rushFeeEnabled then cfg.rushFeeAmount else 0) := by
  obtain ⟨q, hq, -⟩ := parseInt_of_valid form h
  refine ⟨_, calculateQuote_of_valid log10 cfg form random createdAt q h hq, hq, rfl, rfl, rfl,
    ?_, rfl, ?_⟩
  · simp only [priceQuote]; ring
  · simp only [priceQuote]
    cases cfg.rushFeeEnabled <;> simp

/-- Witness for C1: the steel / medium / 10 form with the initial pricing over the reals, the
base-10 logarithm and the draw 1/2. -/
theorem calculateQuote_amount_formula_witness :
    (validateForm ⟨"Gear", "steel", "10", "medium", ""⟩).hasErrors = false ∧
    ∃ b : QuoteBreakdown ℝ,
      calculateQuote (Real.logb 10) initialPricing ⟨"Gear", "steel", "10", "medium", ""⟩
        (1 / 2) "2025-03-25T12:00:00.000Z" = Except.ok b ∧
      parseInt "10" = some b.quantity ∧
      b.basePrice = (lookupOr initialPricing.materialPrices "steel" 10 : ℝ) ∧
      b.complexityMultiplier = (lookupOr complexityMultipliers "medium" 1.5 : ℝ) ∧
      b.quantityMultiplier = max 1 (Real.logb 10 (b.quantity : ℝ) + 1) ∧
      b.randomFactor = 0.9 + 0.2 * (1 / 2) ∧
      b.baseCost =
        b.basePrice * b.complexityMultiplier * b.quantityMultiplier * (b.quantity : ℝ) ∧
      b.calculatedAmount =
        b.basePrice * b.complexityMultiplier * b.quantityMultiplier * (b.quantity : ℝ) *
            b.randomFactor * (1 + (initialPricing : PricingConfig ℝ).marginPercentage / 100) +
          (if (initialPricing : PricingConfig ℝ).rushFeeEnabled
            then (initialPricing : PricingConfig ℝ).rushFeeAmount else 0) :=
  ⟨by decide,
   calculateQuote_amount_formula (Real.logb 10) initialPricing
     ⟨"Gear", "steel", "10", "medium", ""⟩ (1 / 2) "2025-03-25T12:00:00.000Z" (by decide)⟩

theorem exampleForm_valid (partType deadline : String) (hp : jsTrim partType ≠ "") :
    (validateForm (exampleForm partType deadline)).hasErrors = false := by
  rw [hasErrors_eq_false_iff]
  refine ⟨hp, ?_, ?_⟩
  · show ("steel" : String) ≠ ""
    decide
  · show quantityInvalid "10" = false
    decide

/-- C2. With the initial (default) pricing, material steel, complexity medium, quantity 10,
margin 20 and no rush fee, `calculateQuote` computes `quantityMultiplier = 2` and
`baseCost = 450`, and for every draw `r` in `[0, 1)` the random factor `0.9 + 0.2 r` lies in
`[0.9, 1.1]` and the amount before rounding lies in `[486, 594]`. -/
theorem calculateQuote_steel_medium_ten (partType deadline createdAt : String) (r : ℝ)
    (hp : jsTrim partType ≠ "") (h0 : 0 ≤ r) (h1 : r < 1) :
    ∃ b : QuoteBreakdown ℝ,
      calculateQuote (Real.logb 10) initialPricing (exampleForm partType deadline) r
        createdAt = Except.ok b ∧
      b.quantity = 10 ∧ b.basePrice = 15 ∧ b.complexityMultiplier = 1.5 ∧
      b.quantityMultiplier = 2 ∧ b.baseCost = 450 ∧
      b.randomFactor = 0.9 + 0.2 * r ∧ 0.9 ≤ b.randomFactor ∧ b.randomFactor ≤ 1.1 ∧
      486 ≤ b.calculatedAmount ∧ b.calculatedAmount ≤ 594 := by
  have hq : parseInt (exampleForm partType deadline).quantity = some 10 := by
    show parseInt "10" = some 10
    decide
  have hlog : Real.logb 10 ((10 : Int) : ℝ) = 1 := by
    have : ((10 : Int) : ℝ) = 10 := by norm_num
    rw [this]
    exact Real.logb_self_eq_one (by norm_num)
  have hqm : quantityMultiplierOf (Real.logb 10) 10 = 2 := by
    unfold quantityMultiplierOf
    rw [hlog]
    norm_num
  refine ⟨_, calculateQuote_of_valid _ _ _ r createdAt 10
      (exampleForm_valid partType deadline hp) hq,
    rfl, ?_, ?_, hqm, ?_, ?_, ?_, ?_, ?_, ?_⟩
  · exact lookupOr_steel_default
  · exact lookupOr_medium
  · show lookupOr _ _ 10 * lookupOr _ _ 1.5 * quantityMultiplierOf _ 10 * ((10 : Int) : ℝ) = 450
    rw [hqm]
    simp only [initialPricing, exampleForm, lookupOr_steel_default, lookupOr_medium]
    norm_num
  · show (0.9 : ℝ) + r * 0.2 = 0.9 + 0.2 * r
    ring
  · show (0.9 : ℝ) ≤ 0.9 + r * 0.2
    linarith
  · show (0.9 : ℝ) + r * 0.2 ≤ 1.1
    norm_num
    linarith
  all_goals
    simp only [priceQuote, initialPricing, exampleForm, lookupOr_steel_default,
      lookupOr_medium, hqm]
    norm_num
    nlinarith

/-- Witness for C2: part type "Gear", no deadline, draw 1/2. -/
theorem calculateQuote_steel_medium_ten_witness :
    jsTrim "Gear" ≠ "" ∧ (0 : ℝ) ≤ 1 / 2 ∧ (1 / 2 : ℝ) < 1 ∧
    ∃ b : QuoteBreakdown ℝ,
      calculateQuote (Real.logb 10) initialPricing (exampleForm "Gear" "") (1 / 2)
        "2025-03-25T12:00:00.000Z" = Except.ok b ∧
      b.quantity = 10 ∧ b.basePrice = 15 ∧ b.complexityMultiplier = 1.5 ∧
      b.quantityMultiplier = 2 ∧ b.baseCost = 450 ∧
      b.randomFactor = 0.9 + 0.2 * (1 / 2) ∧ 0.9 ≤ b.randomFactor ∧ b.randomFactor ≤ 1.1 ∧
      486 ≤ b.calculatedAmount ∧ b.calculatedAmount ≤ 594 :=
  ⟨by decide, by norm_num, by norm_num,
   calculateQuote_steel_medium_ten "Gear" "" "2025-03-25T12:00:00.000Z" (1 / 2) (by decide)
     (by norm_num) (by norm_num)⟩

end Formula

/-! ## Base price and complexity multiplier (C3, C4) -/

section Lookups

variable {α : Type} [LinearOrderedField α]

theorem lookupOr_of_ne_zero (table : List (String × α)) (key : String) (dflt v : α)
    (h : table.lookup key = some v) (hv : v ≠ 0) : lookupOr table key dflt = v := by
  simp [lookupOr, h, hv]

theorem lookupOr_of_none (table : List (String × α)) (key : String) (dflt : α)
    (h : table.lookup key = none) : lookupOr table key dflt = dflt := by
  simp [lookupOr, h]

theorem lookupOr_of_zero (table : List (String × α)) (key : String) (dflt : α)
    (h : table.lookup key = some 0) : lookupOr table key dflt = dflt := by
  simp [lookupOr, h]

theorem lookupOr_nil (key : String) (dflt : α) : lookupOr [] key dflt = dflt := rfl

theorem lookupOr_cons_self (table : List (String × α)) (key : String) (v dflt : α) :
    lookupOr ((key, v) :: table) key dflt = if v = 0 then dflt else v := by
  simp [lookupOr, List.lookup]

theorem lookupOr_cons_of_ne (table : List (String × α)) (key k : String) (v dflt : α)
    (h : key ≠ k) : lookupOr ((k, v) :: table) key dflt = lookupOr table key dflt := by
  have hb : (key == k) = false := beq_eq_false_iff_ne.2 h
  simp [lookupOr, List.lookup, hb]

/-- The multiplier the calculator gives to every label: only the keys of its own table
(`simple`, `medium`, `complex`) are mapped, every other label gets 1.5. -/
theorem complexityMultiplier_eq (label : String) :
    lookupOr (complexityMultipliers : List (String × α)) label 1.5 =
      if label = "simple" then 1 else if label = "complex" then 2.5 else 1.5 := by
  unfold complexityMultipliers
  by_cases h1 : label = "simple"
  · subst h1
    rw [lookupOr_cons_self, if_neg (by norm_num), if_pos rfl]
    norm_num
  rw [lookupOr_cons_of_ne _ _ _ _ _ h1, if_neg h1]
  by_cases h2 : label = "medium"
  · subst h2
    rw [lookupOr_cons_self, if_neg (by norm_num), if_neg (by decide)]
  rw [lookupOr_cons_of_ne _ _ _ _ _ h2]
  by_cases h3 : label = "complex"
  · subst h3
    rw [lookupOr_cons_self, if_neg (by norm_num), if_pos rfl]
  rw [lookupOr_cons_of_ne _ _ _ _ _ h3, lookupOr_nil, if_neg h3]

/-- The multiplier of the mock estimate for every label. -/
theorem mockComplexityMultiplier_eq (label : String) :
    lookupOr (mockComplexityMultipliers : List (String × α)) label 1.5 =
      if label = "low" then 1 else if label = "high" then 2.5 else 1.5 := by
  unfold mockComplexityMultipliers
  by_cases h1 : label = "low"
  · subst h1
    rw [lookupOr_cons_self, if_neg (by norm_num), if_pos rfl]
    norm_num
  rw [lookupOr_cons_of_ne _ _ _ _ _ h1, if_neg h1]
  by_cases h2 : label = "medium"
  · subst h2
    rw [lookupOr_cons_self, if_neg (by norm_num), if_neg (by decide)]
  rw [lookupOr_cons_of_ne _ _ _ _ _ h2]
  by_cases h3 : label = "high"
  · subst h3
    rw [lookupOr_cons_self, if_neg (by norm_num), if_pos rfl]
  rw [lookupOr_cons_of_ne _ _ _ _ _ h3, lookupOr_nil, if_neg h3]

end Lookups

theorem scanDecimal_zero : scanDecimal "0" = some ⟨1, [0], [], 0⟩ := by decide

theorem steel_zero_prices :
    (handleMaterialPriceChange (initialState : AppState ℝ) "steel" "0").pricing.materialPrices
      = [("aluminum", 10), ("steel", 0), ("plastic", 5), ("titanium", 50)] := by
  simp [handleMaterialPriceChange, initialState, initialPricing, defaultMaterialPrices, setKey,
    parseFloat, scanDecimal_zero, orZero, digitsToNat]

/-- C3 (code defect). After `handleMaterialPriceChange('steel', '0')` the configured price of
steel is 0, yet `calculateQuote` for a steel part uses `basePrice = 10`: the expression
`materialPrices[material] || 10` takes the stored price 0 for a missing one. -/
theorem basePrice_ignores_zero_price :
    (handleMaterialPriceChange (initialState : AppState ℝ) "steel" "0").pricing.materialPrices.lookup
        "steel" = some 0 ∧
    ∃ b : QuoteBreakdown ℝ,
      calculateQuote (Real.logb 10)
        (handleMaterialPriceChange (initialState : AppState ℝ) "steel" "0").pricing
        ⟨"Gear", "steel", "10", "medium", ""⟩ 0 "2025-03-25T12:00:00.000Z" = Except.ok b ∧
      b.basePrice = 10 := by
  refine ⟨?_, _, calculateQuote_of_valid _ _ _ _ _ 10 (by decide) (by decide), ?_⟩
  · rw [steel_zero_prices]
    simp [List.lookup]
  · show lookupOr (handleMaterialPriceChange (initialState : AppState ℝ) "steel"
      "0").pricing.materialPrices "steel" 10 = 10
    rw [steel_zero_prices, lookupOr_cons_of_ne _ _ _ _ _ (by decide), lookupOr_cons_self]
    simp

/-- C4 (code defect). For the labels `low` and `high` offered by the form, `calculateQuote`
uses the complexity multiplier 1.5, not 1.0 and 2.5: its table has the keys `simple`,
`medium` and `complex`.  The mock estimate of `getAiQuoteSuggestion` maps the same two labels
to 1.0 and 2.5. -/
theorem complexityMultiplier_low_high :
    "low" ∈ complexityOptions ∧ "high" ∈ complexityOptions ∧
    (∃ b : QuoteBreakdown ℝ,
      calculateQuote (Real.logb 10) initialPricing ⟨"Gear", "steel", "10", "low", ""⟩ 0
        "2025-03-25T12:00:00.000Z" = Except.ok b ∧ b.complexityMultiplier = 1.5) ∧
    (∃ b : QuoteBreakdown ℝ,
      calculateQuote (Real.logb 10) initialPricing ⟨"Gear", "steel", "10", "high", ""⟩ 0
        "2025-03-25T12:00:00.000Z" = Except.ok b ∧ b.complexityMultiplier = 1.5) ∧
    lookupOr (mockComplexityMultipliers : List (String × ℝ)) "low" 1.5 = 1.0 ∧
    lookupOr (mockComplexityMultipliers : List (String × ℝ)) "high" 1.5 = 2.5 := by
  refine ⟨by decide, by decide,
    ⟨_, calculateQuote_of_valid _ _ _ _ _ 10 (by decide) (by decide), ?_⟩,
    ⟨_, calculateQuote_of_valid _ _ _ _ _ 10 (by decide) (by decide), ?_⟩, ?_, ?_⟩
  · show lookupOr (complexityMultipliers : List (String × ℝ)) "low" 1.5 = 1.5
    rw [complexityMultiplier_eq]
    simp
  · show lookupOr (complexityMultipliers : List (String × ℝ)) "high" 1.5 = 1.5
    rw [complexityMultiplier_eq]
    simp
  · rw [mockComplexityMultiplier_eq]
    norm_num
  · rw [mockComplexityMultiplier_eq]
    simp

/-! ## The quantity (C6) -/

/-- C6. Whenever validation passes, `calculateQuote` runs the pricing formula with
`quantity = parseInt(formData.quantity)`, an integer at least 1; so the argument of
`log10` is positive, `log10(quantity)` is non-negative, and
`quantityMultiplier = max(1, log10(quantity) + 1) = log10(quantity) + 1 ≥ 1`. -/
theorem quantityMultiplier_of_valid (cfg : PricingConfig ℝ) (form : FormData) (r : ℝ)
    (createdAt : String) (h : (validateForm form).hasErrors = false) :
    ∃ b : QuoteBreakdown ℝ,
      calculateQuote (Real.logb 10) cfg form r createdAt = Except.ok b ∧
      parseInt form.quantity = some b.quantity ∧ 1 ≤ b.quantity ∧
      (0 : ℝ) < (b.quantity : ℝ) ∧ 0 ≤ Real.logb 10 (b.quantity : ℝ) ∧
      b.quantityMultiplier = max 1 (Real.logb 10 (b.quantity : ℝ) + 1) ∧
      b.quantityMultiplier = Real.logb 10 (b.quantity : ℝ) + 1 ∧
      1 ≤ b.quantityMultiplier := by
  obtain ⟨q, hq, hpos⟩ := parseInt_of_valid form h
  have h1 : (1 : ℝ) ≤ (q : ℝ) := by exact_mod_cast hpos
  have hlog : 0 ≤ Real.logb 10 (q : ℝ) := Real.logb_nonneg (by norm_num) h1
  have hmax : max 1 (Real.logb 10 (q : ℝ) + 1) = Real.logb 10 (q : ℝ) + 1 :=
    max_eq_right (by linarith)
  have h0 : (0 : ℝ) < (q : ℝ) := by linarith
  refine ⟨_, calculateQuote_of_valid _ cfg form r createdAt q h hq, hq, hpos, h0, hlog,
    rfl, hmax, ?_⟩
  show 1 ≤ max 1 (Real.logb 10 (q : ℝ) + 1)
  exact le_max_left _ _

/-- Witness for C6: the steel / medium / 10 form with the initial pricing. -/
theorem quantityMultiplier_of_valid_witness :
    (validateForm ⟨"Gear", "steel", "10", "medium", ""⟩).hasErrors = false ∧
    ∃ b : QuoteBreakdown ℝ,
      calculateQuote (Real.logb 10) initialPricing ⟨"Gear", "steel", "10", "medium", ""⟩
        (1 / 2) "2025-03-25T12:00:00.000Z" = Except.ok b ∧
      parseInt "10" = some b.quantity ∧ 1 ≤ b.quantity ∧
      (0 : ℝ) < (b.quantity : ℝ) ∧ 0 ≤ Real.logb 10 (b.quantity : ℝ) ∧
      b.quantityMultiplier = max 1 (Real.logb 10 (b.quantity : ℝ) + 1) ∧
      b.quantityMultiplier = Real.logb 10 (b.quantity : ℝ) + 1 ∧
      1 ≤ b.quantityMultiplier :=
  ⟨by decide,
   quantityMultiplier_of_valid initialPricing ⟨"Gear", "steel", "10", "medium", ""⟩ (1 / 2)
     "2025-03-25T12:00:00.000Z" (by decide)⟩

/-! ## Validation gate (C5) -/

section Gate

variable {α : Type} [LinearOrderedField α] [FloorRing α]

theorem parseInt_pos_iff (quantity : String) :
    (∃ q : Int, parseInt quantity = some q ∧ 0 < q) ↔ quantityInvalid quantity = false := by
  rw [quantityInvalid_eq_false_iff]
  constructor
  · rintro ⟨q, hq, hpos⟩
    refine ⟨?_, q, hq, hpos⟩
    rintro rfl
    have h0 : parseInt "" = none := by decide
    rw [h0] at hq
    exact Option.noConfusion hq
  · exact fun h => h.2

theorem calculateQuote_ok_iff (log10 : α → α) (cfg : PricingConfig α) (form : FormData)
    (random : α) (createdAt : String) :
    (∃ b, calculateQuote log10 cfg form random createdAt = Except.ok b) ↔
      (validateForm form).hasErrors = false := by
  constructor
  · rintro ⟨b, hb⟩
    by_contra hne
    have ht : (validateForm form).hasErrors = true := by simpa using hne
    rw [calculateQuote_of_invalid log10 cfg form random createdAt ht] at hb
    exact Except.noConfusion hb
  · intro h
    obtain ⟨q, hq, -⟩ := parseInt_of_valid form h
    exact ⟨_, calculateQuote_of_valid log10 cfg form random createdAt q h hq⟩

/-- C5 as stated fails: with the quantity field `2.5`, which is not a positive integer,
validation passes and the quote is computed for the quantity `parseInt("2.5") = 2`. -/
theorem calculateQuote_runs_on_fractional_quantity :
    ¬ ((∃ b : QuoteBreakdown ℝ,
          calculateQuote (Real.logb 10) initialPricing ⟨"Gear", "steel", "2.5", "medium", ""⟩ 0
            "2025-03-25T12:00:00.000Z" = Except.ok b) ↔
        (jsTrim "Gear" ≠ "" ∧ ("steel" : String) ≠ "" ∧ isPositiveIntegerText "2.5" = true)) := by
  intro h
  have hrun : ∃ b : QuoteBreakdown ℝ,
      calculateQuote (Real.logb 10) initialPricing ⟨"Gear", "steel", "2.5", "medium", ""⟩ 0
        "2025-03-25T12:00:00.000Z" = Except.ok b :=
    ⟨_, calculateQuote_of_valid _ _ _ _ _ 2 (by decide) (by decide)⟩
  have hfalse : isPositiveIntegerText "2.5" = false := by decide
  have := (h.1 hrun).2.2
  rw [hfalse] at this
  exact Bool.noConfusion this

/-- C5, amended. The calculation runs if and only if the part type is non-empty after
trimming, a material is selected, and `parseInt` of the quantity field is a number greater
than 0.  Otherwise `calculateQuote` returns before computing a quote or building a job (the
`quote` and `priceDetails` states keep their values), and the `errors` state is set to an
object that holds a message for exactly each offending field. -/
theorem calculateQuote_runs_iff (log10 : α → α) (s : AppState α) (random : α)
    (createdAt : String) :
    ((∃ b, calculateQuote log10 s.pricing s.formData random createdAt = Except.ok b) ↔
      (jsTrim s.formData.partType ≠ "" ∧ s.formData.material ≠ "" ∧
        ∃ q : Int, parseInt s.formData.quantity = some q ∧ 0 < q)) ∧
    ((¬ ∃ b, calculateQuote log10 s.pricing s.formData random createdAt = Except.ok b) →
      calculateQuote log10 s.pricing s.formData random createdAt
        = Except.error (validateForm s.formData) ∧
      (calculateQuoteClick log10 s random createdAt).errors = validateForm s.formData ∧
      (calculateQuoteClick log10 s random createdAt).quote = s.quote ∧
      (calculateQuoteClick log10 s random createdAt).priceDetails = s.priceDetails) ∧
    (((validateForm s.formData).partType.isSome ↔ jsTrim s.formData.partType = "") ∧
      ((validateForm s.formData).material.isSome ↔ s.formData.material = "") ∧
      ((validateForm s.formData).quantity.isSome ↔
        ¬ ∃ q : Int, parseInt s.formData.quantity = some q ∧ 0 < q)) := by
  refine ⟨?_, ?_, ?_, ?_, ?_⟩
  · rw [calculateQuote_ok_iff, hasErrors_eq_false_iff, parseInt_pos_iff]
  · intro hno
    rw [calculateQuote_ok_iff] at hno
    have ht : (validateForm s.formData).hasErrors = true := by simpa using hno
    have hc := calculateQuote_of_invalid log10 s.pricing s.formData random createdAt ht
    refine ⟨hc, ?_, ?_, ?_⟩ <;> simp [calculateQuoteClick, hc]
  · by_cases h : jsTrim s.formData.partType = "" <;> simp [validateForm, h]
  · by_cases h : s.formData.material = "" <;> simp [validateForm, h]
  · rw [parseInt_pos_iff]
    by_cases h : quantityInvalid s.formData.quantity = true <;> simp [validateForm, h]

/-- Witness for the amended C5: blank part type, no material and quantity `0`. -/
theorem calculateQuote_runs_iff_witness :
    (calculateQuoteClick (Real.logb 10)
        { (initialState : AppState ℝ) with formData := ⟨" ", "", "0", "medium", ""⟩ } 0
        "2025-03-25T12:00:00.000Z").errors =
      ⟨some "Part type is required", some "Material is required",
        some "Valid quantity is required"⟩ := by
  have h := (calculateQuote_runs_iff (Real.logb 10)
    { (initialState : AppState ℝ) with formData := ⟨" ", "", "0", "medium", ""⟩ } 0
    "2025-03-25T12:00:00.000Z").2.1
  have hno : ¬ ∃ b, calculateQuote (Real.logb 10)
      ({ (initialState : AppState ℝ) with formData := ⟨" ", "", "0", "medium", ""⟩ }).pricing
      ({ (initialState : AppState ℝ) with formData := ⟨" ", "", "0", "medium", ""⟩ }).formData
      0 "2025-03-25T12:00:00.000Z" = Except.ok b := by
    rw [calculateQuote_ok_iff]
    decide
  rw [(h hno).2.1]
  decide

end Gate

/-! ## Rounding (C8) -/

section Rounding

variable {α : Type} [LinearOrderedField α] [FloorRing α]

theorem roundHundredths_close (x : α) :
    |(⌊100 * x + 1 / 2⌋ : α) / 100 - x| ≤ 1 / 200 := by
  have h1 := Int.floor_le (100 * x + 1 / 2)
  have h2 := Int.lt_floor_add_one (100 * x + 1 / 2)
  rw [abs_le]
  constructor
  · linarith
  · linarith

theorem toFixed2Abs_spec (x : α) (hlarge : (10 : α) ^ 21 ≤ x → ∃ k : ℤ, x = k) :
    (∃ n : ℤ, 100 * toFixed2Abs x = n) ∧ |toFixed2Abs x - x| ≤ 1 / 200 := by
  unfold toFixed2Abs
  split_ifs with h
  · obtain ⟨k, hk⟩ := hlarge h
    refine ⟨⟨100 * k, ?_⟩, by simp⟩
    rw [hk]
    push_cast
    ring
  · refine ⟨⟨⌊100 * x + 1 / 2⌋, ?_⟩, roundHundredths_close x⟩
    field_simp

/-- The value of `parseFloat(x.toFixed(2))` is a whole number of hundredths within 0.005 of
`x`, as long as `x` is an integer whenever its magnitude reaches 10^21. -/
theorem toFixed2_spec (x : α) (hlarge : (10 : α) ^ 21 ≤ |x| → ∃ k : ℤ, x = k) :
    (∃ n : ℤ, 100 * toFixed2 x = n) ∧ |toFixed2 x - x| ≤ 1 / 200 := by
  unfold toFixed2
  split_ifs with h
  · have hl : (10 : α) ^ 21 ≤ -x → ∃ k : ℤ, -x = k := by
      intro h'
      rw [abs_of_neg h] at hlarge
      obtain ⟨k, hk⟩ := hlarge h'
      exact ⟨-k, by rw [hk]; push_cast; ring⟩
    obtain ⟨⟨n, hn⟩, hc⟩ := toFixed2Abs_spec (-x) hl
    refine ⟨⟨-n, ?_⟩, ?_⟩
    · push_cast
      rw [← hn]
      ring
    · rw [show -toFixed2Abs (-x) - x = -(toFixed2Abs (-x) - -x) by ring, abs_neg]
      exact hc
  · have hx : 0 ≤ x := not_lt.1 h
    rw [abs_of_nonneg hx] at hlarge
    exact toFixed2Abs_spec x hlarge

theorem toFixed2_nonneg (x : α) (hx : 0 ≤ x) : 0 ≤ toFixed2 x := by
  unfold toFixed2 toFixed2Abs
  rw [if_neg (not_lt.2 hx)]
  split_ifs with h
  · exact hx
  · apply div_nonneg _ (by norm_num)
    have : (0 : ℤ) ≤ ⌊100 * x + 1 / 2⌋ := Int.floor_nonneg.2 (by positivity)
    exact_mod_cast this

theorem toFixed2Abs_hundredths (n : ℤ) (h : (n : α) / 100 < 10 ^ 21) :
    toFixed2Abs ((n : α) / 100) = (n : α) / 100 := by
  unfold toFixed2Abs
  rw [if_neg (not_le.2 h)]
  have h1 : (100 : α) * ((n : α) / 100) + 1 / 2 = (n : α) + 1 / 2 := by ring
  rw [h1, Int.floor_int_add]
  have h0 : ⌊(1 / 2 : α)⌋ = 0 := by
    rw [Int.floor_eq_zero_iff]
    constructor <;> norm_num
  rw [h0]
  simp

/-- A whole number of hundredths below 10^21 in magnitude is left unchanged. -/
theorem toFixed2_hundredths (n : ℤ) (h : |(n : α) / 100| < 10 ^ 21) :
    toFixed2 ((n : α) / 100) = (n : α) / 100 := by
  unfold toFixed2
  split_ifs with hneg
  · have h2 : -((n : α) / 100) = ((-n : ℤ) : α) / 100 := by
      push_cast
      ring
    rw [abs_of_neg hneg] at h
    rw [h2] at h ⊢
    rw [toFixed2Abs_hundredths (-n) h]
    push_cast
    ring
  · rw [abs_of_nonneg (not_lt.1 hneg)] at h
    exact toFixed2Abs_hundredths n h

theorem priceQuote_finalQuote (log10 : α → α) (cfg : PricingConfig α) (form : FormData)
    (q : Int) (random : α) (createdAt : String) :
    (priceQuote log10 cfg form q random createdAt).finalQuote =
      toFixed2 (priceQuote log10 cfg form q random createdAt).calculatedAmount := rfl

theorem priceQuote_basePrice (log10 : α → α) (cfg : PricingConfig α) (form : FormData)
    (q : Int) (random : α) (createdAt : String) :
    (priceQuote log10 cfg form q random createdAt).basePrice =
      lookupOr cfg.materialPrices form.material 10 := rfl

/-- The amount computed by the pricing statements, in closed form. -/
theorem priceQuote_calculatedAmount (log10 : α → α) (cfg : PricingConfig α) (form : FormData)
    (q : Int) (random : α) (createdAt : String) :
    (priceQuote log10 cfg form q random createdAt).calculatedAmount =
      lookupOr cfg.materialPrices form.material 10 *
          lookupOr complexityMultipliers form.complexity 1.5 *
          max 1 (log10 (q : α) + 1) * (q : α) * (0.9 + random * 0.2) *
          (1 + cfg.marginPercentage / 100) +
        (if cfg.rushFeeEnabled then cfg.rushFeeAmount else 0) := by
  simp only [priceQuote, quantityMultiplierOf]
  cases cfg.rushFeeEnabled <;> simp

/-- C8. For every validated form the final quote is `parseFloat(amount.toFixed(2))` of the
computed amount: `100 × quote` is an integer and `|quote − amount| ≤ 0.005`.  A JavaScript
number of magnitude 10^21 or more, for which `toFixed` returns the number itself, is an
integer; the embedding takes this as the hypothesis `hlarge` on the amount. -/
theorem finalQuote_rounds_amount (log10 : α → α) (cfg : PricingConfig α) (form : FormData)
    (q : Int) (random : α) (createdAt : String)
    (h : (validateForm form).hasErrors = false) (hq : parseInt form.quantity = some q)
    (hlarge : (10 : α) ^ 21 ≤ |(priceQuote log10 cfg form q random createdAt).calculatedAmount| →
      ∃ k : ℤ, (priceQuote log10 cfg form q random createdAt).calculatedAmount = k) :
    ∃ b : QuoteBreakdown α, calculateQuote log10 cfg form random createdAt = Except.ok b ∧
      b.finalQuote = toFixed2 b.calculatedAmount ∧
      (∃ n : ℤ, 100 * b.finalQuote = n) ∧
      |b.finalQuote - b.calculatedAmount| ≤ 0.005 := by
  refine ⟨_, calculateQuote_of_valid log10 cfg form random createdAt q h hq, rfl, ?_⟩
  have hs := toFixed2_spec _ hlarge
  refine ⟨hs.1, ?_⟩
  have h5 : (0.005 : α) = 1 / 200 := by norm_num
  rw [h5]
  exact hs.2

theorem quantityMultiplierOf_one : quantityMultiplierOf (Real.logb 10) 1 = 1 := by
  simp [quantityMultiplierOf]

theorem priceQuote_single_steel_amount (createdAt : String) :
    (priceQuote (Real.logb 10) initialPricing ⟨"Gear", "steel", "1", "medium", ""⟩ 1 (1 / 2)
      createdAt).calculatedAmount = 27 := by
  rw [priceQuote_calculatedAmount]
  simp only [initialPricing, lookupOr_steel_default, lookupOr_medium]
  norm_num

/-- Witness for C8: one steel part of medium complexity, initial pricing, draw 1/2 (the
amount is 27). -/
theorem finalQuote_rounds_amount_witness :
    (validateForm ⟨"Gear", "steel", "1", "medium", ""⟩).hasErrors = false ∧
    parseInt "1" = some 1 ∧
    ∃ b : QuoteBreakdown ℝ,
      calculateQuote (Real.logb 10) initialPricing ⟨"Gear", "steel", "1", "medium", ""⟩ (1 / 2)
        "2025-03-25T12:00:00.000Z" = Except.ok b ∧
      b.finalQuote = toFixed2 b.calculatedAmount ∧
      (∃ n : ℤ, 100 * b.finalQuote = n) ∧
      |b.finalQuote - b.calculatedAmount| ≤ 0.005 :=
  ⟨by decide, by decide,
   finalQuote_rounds_amount (Real.logb 10) initialPricing ⟨"Gear", "steel", "1", "medium", ""⟩
     1 (1 / 2) "2025-03-25T12:00:00.000Z" (by decide) (by decide) (by
       intro hbig
       rw [priceQuote_single_steel_amount] at hbig
       norm_num at hbig)⟩

end Rounding

/-! ## Sign of the quote (C7) -/

section Sign

variable {α : Type} [LinearOrderedField α] [FloorRing α]

/-- With non-negative base price, margin multiplier and rush fee, and a draw `random ≥ 0`,
the final quote of a validated form is non-negative. -/
theorem finalQuote_nonneg_of_nonneg_pricing (log10 : α → α) (cfg : PricingConfig α)
    (form : FormData) (random : α) (createdAt : String)
    (h : (validateForm form).hasErrors = false)
    (hprice : 0 ≤ lookupOr cfg.materialPrices form.material 10)
    (hmargin : -100 ≤ cfg.marginPercentage) (hfee : 0 ≤ cfg.rushFeeAmount)
    (hrandom : 0 ≤ random) :
    ∃ b : QuoteBreakdown α, calculateQuote log10 cfg form random createdAt = Except.ok b ∧
      0 ≤ b.finalQuote := by
  obtain ⟨q, hq, hpos⟩ := parseInt_of_valid form h
  refine ⟨_, calculateQuote_of_valid log10 cfg form random createdAt q h hq, ?_⟩
  show 0 ≤ toFixed2 (priceQuote log10 cfg form q random createdAt).calculatedAmount
  apply toFixed2_nonneg
  rw [priceQuote_calculatedAmount]
  have hc : (0 : α) ≤ lookupOr complexityMultipliers form.complexity 1.5 := by
    rw [complexityMultiplier_eq]
    split_ifs <;> norm_num
  have hm : (0 : α) ≤ max 1 (log10 (q : α) + 1) := le_trans zero_le_one (le_max_left _ _)
  have hqα : (0 : α) ≤ (q : α) := by exact_mod_cast hpos.le
  have hr : (0 : α) ≤ 0.9 + random * 0.2 := by
    have : (0 : α) ≤ random * 0.2 := mul_nonneg hrandom (by norm_num)
    have h9 : (0 : α) ≤ 0.9 := by norm_num
    linarith
  have hmm : (0 : α) ≤ 1 + cfg.marginPercentage / 100 := by
    have : (-1 : α) ≤ cfg.marginPercentage / 100 := by
      rw [le_div_iff₀ (by norm_num)]
      linarith
    linarith
  have hfee' : (0 : α) ≤ (if cfg.rushFeeEnabled then cfg.rushFeeAmount else 0) := by
    split_ifs
    · exact hfee
    · exact le_refl 0
  have hprod := mul_nonneg (mul_nonneg (mul_nonneg (mul_nonneg (mul_nonneg hprice hc) hm) hqα)
    hr) hmm
  linarith

end Sign

theorem scanDecimal_minus_five : scanDecimal "-5" = some ⟨-1, [5], [], 0⟩ := by decide

theorem steel_negative_prices :
    (afterEvents [PricingEvent.materialPrice "steel" "-5"] : AppState ℝ).pricing
      = ⟨[("aluminum", 10), ("steel", -5), ("plastic", 5), ("titanium", 50)], false, 50, 20⟩ := by
  simp [afterEvents, PricingEvent.apply, handleMaterialPriceChange, initialState,
    initialPricing, defaultMaterialPrices, setKey, parseFloat, scanDecimal_minus_five, orZero,
    digitsToNat]

/-- C7 (code defect). Typing `-5` into the price input of steel is accepted by
`handleMaterialPriceChange`; one steel part of medium complexity with the draw 0 is then
quoted at -8.10, a negative final quote for a form that passes validation. -/
theorem finalQuote_negative_after_price_edit :
    ∃ b : QuoteBreakdown ℝ,
      calculateQuote (Real.logb 10)
        (afterEvents [PricingEvent.materialPrice "steel" "-5"] : AppState ℝ).pricing
        ⟨"Gear", "steel", "1", "medium", ""⟩ 0 "2025-03-25T12:00:00.000Z" = Except.ok b ∧
      b.quantity = 1 ∧ b.basePrice = -5 ∧ b.finalQuote = -8.1 ∧ b.finalQuote < 0 := by
  have hbase : lookupOr (([("aluminum", 10), ("steel", -5), ("plastic", 5), ("titanium", 50)] :
      List (String × ℝ))) "steel" 10 = -5 := by
    rw [lookupOr_cons_of_ne _ _ _ _ _ (by decide), lookupOr_cons_self]
    norm_num
  have hamount : (priceQuote (Real.logb 10)
      (afterEvents [PricingEvent.materialPrice "steel" "-5"] : AppState ℝ).pricing
      ⟨"Gear", "steel", "1", "medium", ""⟩ 1 0 "2025-03-25T12:00:00.000Z").calculatedAmount
        = ((-810 : ℤ) : ℝ) / 100 := by
    rw [priceQuote_calculatedAmount, steel_negative_prices]
    simp only [hbase, lookupOr_medium]
    norm_num
  have hfinal : (priceQuote (Real.logb 10)
      (afterEvents [PricingEvent.materialPrice "steel" "-5"] : AppState ℝ).pricing
      ⟨"Gear", "steel", "1", "medium", ""⟩ 1 0 "2025-03-25T12:00:00.000Z").finalQuote
        = -8.1 := by
    have hsmall : |((-810 : ℤ) : ℝ) / 100| < 10 ^ 21 := by
      rw [abs_lt]
      constructor <;> norm_num
    rw [priceQuote_finalQuote, hamount, toFixed2_hundredths _ hsmall]
    norm_num
  refine ⟨_, calculateQuote_of_valid _ _ _ _ _ 1 (by decide) (by decide), rfl, ?_, hfinal, ?_⟩
  · rw [priceQuote_basePrice, steel_negative_prices]
    exact hbase
  · rw [hfinal]
    norm_num

/-! ## Per-unit base cost (C9) -/

theorem priceQuote_baseCost {α : Type} [LinearOrderedField α] [FloorRing α] (log10 : α → α)
    (cfg : PricingConfig α) (form : FormData) (q : Int) (random : α) (createdAt : String) :
    (priceQuote log10 cfg form q random createdAt).baseCost =
      lookupOr cfg.materialPrices form.material 10 *
        lookupOr complexityMultipliers form.complexity 1.5 *
        quantityMultiplierOf log10 q * (q : α) := rfl

theorem quantityMultiplierOf_ten : quantityMultiplierOf (Real.logb 10) 10 = 2 := by
  have h10 : ((10 : Int) : ℝ) = 10 := by norm_num
  unfold quantityMultiplierOf
  rw [h10, Real.logb_self_eq_one (by norm_num)]
  norm_num

/-- For a quantity of at least 1 the multiplier is `log10(quantity) + 1`. -/
theorem quantityMultiplierOf_of_pos (q : Int) (hq : 0 < q) :
    quantityMultiplierOf (Real.logb 10) q = Real.logb 10 (q : ℝ) + 1 := by
  have h1 : (1 : ℝ) ≤ (q : ℝ) := by exact_mod_cast hq
  have hlog : 0 ≤ Real.logb 10 (q : ℝ) := Real.logb_nonneg (by norm_num) h1
  exact max_eq_right (by linarith)

/-- C9 as stated fails: with the initial pricing, steel and medium complexity, the per-unit
base cost is 22.5 for quantity 1 and 45 for quantity 10, so it is higher for the larger
quantity. -/
theorem perUnit_baseCost_rises_one_to_ten :
    ∃ b₁ b₂ : QuoteBreakdown ℝ,
      calculateQuote (Real.logb 10) initialPricing ⟨"Gear", "steel", "1", "medium", ""⟩ 0
        "2025-03-25T12:00:00.000Z" = Except.ok b₁ ∧
      calculateQuote (Real.logb 10) initialPricing ⟨"Gear", "steel", "10", "medium", ""⟩ 0
        "2025-03-25T12:00:00.000Z" = Except.ok b₂ ∧
      1 ≤ b₁.quantity ∧ b₁.quantity ≤ b₂.quantity ∧
      ¬ (b₂.baseCost / (b₂.quantity : ℝ) ≤ b₁.baseCost / (b₁.quantity : ℝ)) := by
  refine ⟨_, _, calculateQuote_of_valid _ _ _ _ _ 1 (by decide) (by decide),
    calculateQuote_of_valid _ _ _ _ _ 10 (by decide) (by decide), ?_, ?_, ?_⟩
  · show (1 : Int) ≤ 1
    decide
  · show (1 : Int) ≤ 10
    decide
  · rw [priceQuote_baseCost, priceQuote_baseCost, quantityMultiplierOf_ten,
      quantityMultiplierOf_one]
    simp only [initialPricing, lookupOr_steel_default, lookupOr_medium]
    show ¬ ((15 : ℝ) * 1.5 * 2 * ((10 : Int) : ℝ) / ((10 : Int) : ℝ)
      ≤ 15 * 1.5 * 1 * ((1 : Int) : ℝ) / ((1 : Int) : ℝ))
    norm_num

/-- C9, amended. The quantity multiplier raises the per-unit base cost: for a validated form
`baseCost / quantity = basePrice × complexityMultiplier × (log10(quantity) + 1)`, and for two
validated forms with the same material and complexity, a non-negative base price and
quantities `q₁ ≤ q₂`, the per-unit base cost for `q₂` is no lower than the one for `q₁`. -/
theorem perUnit_baseCost_monotone (cfg : PricingConfig ℝ) (form₁ form₂ : FormData)
    (r₁ r₂ : ℝ) (t₁ t₂ : String)
    (h₁ : (validateForm form₁).hasErrors = false) (h₂ : (validateForm form₂).hasErrors = false)
    (hmat : form₁.material = form₂.material) (hcx : form₁.complexity = form₂.complexity)
    (hprice : 0 ≤ lookupOr cfg.materialPrices form₁.material 10) :
    ∃ b₁ b₂ : QuoteBreakdown ℝ,
      calculateQuote (Real.logb 10) cfg form₁ r₁ t₁ = Except.ok b₁ ∧
      calculateQuote (Real.logb 10) cfg form₂ r₂ t₂ = Except.ok b₂ ∧
      b₁.baseCost / (b₁.quantity : ℝ) =
        b₁.basePrice * b₁.complexityMultiplier * (Real.logb 10 (b₁.quantity : ℝ) + 1) ∧
      b₂.baseCost / (b₂.quantity : ℝ) =
        b₂.basePrice * b₂.complexityMultiplier * (Real.logb 10 (b₂.quantity : ℝ) + 1) ∧
      (b₁.quantity ≤ b₂.quantity →
        b₁.baseCost / (b₁.quantity : ℝ) ≤ b₂.baseCost / (b₂.quantity : ℝ)) := by
  obtain ⟨q₁, hq₁, hpos₁⟩ := parseInt_of_valid form₁ h₁
  obtain ⟨q₂, hq₂, hpos₂⟩ := parseInt_of_valid form₂ h₂
  have hq₁r : (0 : ℝ) < (q₁ : ℝ) := by exact_mod_cast hpos₁
  have hq₂r : (0 : ℝ) < (q₂ : ℝ) := by exact_mod_cast hpos₂
  have e₁ : (priceQuote (Real.logb 10) cfg form₁ q₁ r₁ t₁).baseCost / (q₁ : ℝ) =
      lookupOr cfg.materialPrices form₁.material 10 *
        lookupOr complexityMultipliers form₁.complexity 1.5 *
        (Real.logb 10 (q₁ : ℝ) + 1) := by
    rw [priceQuote_baseCost, quantityMultiplierOf_of_pos q₁ hpos₁]
    field_simp
  have e₂ : (priceQuote (Real.logb 10) cfg form₂ q₂ r₂ t₂).baseCost / (q₂ : ℝ) =
      lookupOr cfg.materialPrices form₂.material 10 *
        lookupOr complexityMultipliers form₂.complexity 1.5 *
        (Real.logb 10 (q₂ : ℝ) + 1) := by
    rw [priceQuote_baseCost, quantityMultiplierOf_of_pos q₂ hpos₂]
    field_simp
  refine ⟨_, _, calculateQuote_of_valid _ cfg form₁ r₁ t₁ q₁ h₁ hq₁,
    calculateQuote_of_valid _ cfg form₂ r₂ t₂ q₂ h₂ hq₂, e₁, e₂, ?_⟩
  intro hle
  have hle' : (q₁ : ℝ) ≤ (q₂ : ℝ) := by exact_mod_cast hle
  have hlog : Real.logb 10 (q₁ : ℝ) ≤ Real.logb 10 (q₂ : ℝ) :=
    Real.logb_le_logb_of_le (by norm_num) hq₁r hle'
  have hc : (0 : ℝ) ≤ lookupOr complexityMultipliers form₁.complexity 1.5 := by
    rw [complexityMultiplier_eq]
    split_ifs <;> norm_num
  show (priceQuote (Real.logb 10) cfg form₁ q₁ r₁ t₁).baseCost / (q₁ : ℝ) ≤
    (priceQuote (Real.logb 10) cfg form₂ q₂ r₂ t₂).baseCost / (q₂ : ℝ)
  rw [e₁, e₂, ← hmat, ← hcx]
  exact mul_le_mul_of_nonneg_left (by linarith) (mul_nonneg hprice hc)

/-- Witness for the amended C9: steel, medium complexity, quantities 1 and 10. -/
theorem perUnit_baseCost_monotone_witness :
    (validateForm ⟨"Gear", "steel", "1", "medium", ""⟩).hasErrors = false ∧
    (validateForm ⟨"Gear", "steel", "10", "medium", ""⟩).hasErrors = false ∧
    (0 : ℝ) ≤ lookupOr (initialPricing : PricingConfig ℝ).materialPrices "steel" 10 ∧
    ∃ b₁ b₂ : QuoteBreakdown ℝ,
      calculateQuote (Real.logb 10) initialPricing ⟨"Gear", "steel", "1", "medium", ""⟩ 0
        "2025-03-25T12:00:00.000Z" = Except.ok b₁ ∧
      calculateQuote (Real.logb 10) initialPricing ⟨"Gear", "steel", "10", "medium", ""⟩ 0
        "2025-03-25T12:00:00.000Z" = Except.ok b₂ ∧
      b₁.baseCost / (b₁.quantity : ℝ) =
        b₁.basePrice * b₁.complexityMultiplier * (Real.logb 10 (b₁.quantity : ℝ) + 1) ∧
      b₂.baseCost / (b₂.quantity : ℝ) =
        b₂.basePrice * b₂.complexityMultiplier * (Real.logb 10 (b₂.quantity : ℝ) + 1) ∧
      (b₁.quantity ≤ b₂.quantity →
        b₁.baseCost / (b₁.quantity : ℝ) ≤ b₂.baseCost / (b₂.quantity : ℝ)) := by
  have hprice : (0 : ℝ) ≤ lookupOr (initialPricing : PricingConfig ℝ).materialPrices "steel" 10 := by
    show (0 : ℝ) ≤ lookupOr (defaultMaterialPrices : List (String × ℝ)) "steel" 10
    rw [lookupOr_steel_default]
    norm_num
  exact ⟨by decide, by decide, hprice,
    perUnit_baseCost_monotone initialPricing ⟨"Gear", "steel", "1", "medium", ""⟩
      ⟨"Gear", "steel", "10", "medium", ""⟩ 0 0 "2025-03-25T12:00:00.000Z"
      "2025-03-25T12:00:00.000Z" (by decide) (by decide) rfl rfl hprice⟩

/-! ## Classified errors of the remote insert (C10) -/

section Classified

variable {α : Type} [LinearOrderedField α]

theorem saveToLocalStorage_ok (ls : LocalStorage α) (now : α) (nowIso table : String)
    (data : Record α) (message : String) (existing : List (Record α))
    (hget : ls.getItemThrows = false) (hset : ls.setItemThrows = false)
    (hread : readExisting ls table = some existing) :
    saveToLocalStorage ls now nowIso table data message =
      (⟨some [newItemOf now nowIso data], none, true, some message⟩,
       { ls with
         items := setKey ls.items table
           (Stored.array (existing ++ [stringifyRecord (newItemOf now nowIso data)])) }) := by
  simp [saveToLocalStorage, hget, hset, hread]

theorem saveToLocalStorage_setItem_throws (ls : LocalStorage α) (now : α)
    (nowIso table : String) (data : Record α) (message : String)
    (hset : ls.setItemThrows = true) :
    saveToLocalStorage ls now nowIso table data message = (saveFailure, ls) := by
  unfold saveToLocalStorage
  split_ifs
  · rfl
  · cases readExisting ls table <;> simp [hset]

/-- C10 as stated fails: when the remote insert reports code 42P01 and `localStorage.setItem`
throws, `db.insert` returns `data = null` and a non-null `error`, and the stored list is
unchanged. -/
theorem dbInsert_classified_error_storage_full :
    (dbInsert (missingTableRemote : Remote ℝ) fullStorage 1742900000000
        "2025-03-25T12:00:00.000Z" "jobs" [("part_type", JsVal.str "Gear")]).1.error
      = some ⟨none, some "Failed to save data even in fallback mode"⟩ ∧
    (dbInsert (missingTableRemote : Remote ℝ) fullStorage 1742900000000
        "2025-03-25T12:00:00.000Z" "jobs" [("part_type", JsVal.str "Gear")]).1.data = none ∧
    (dbInsert (missingTableRemote : Remote ℝ) fullStorage 1742900000000
        "2025-03-25T12:00:00.000Z" "jobs" [("part_type", JsVal.str "Gear")]).2.items
      = (fullStorage : LocalStorage ℝ).items := by
  have h : dbInsert (missingTableRemote : Remote ℝ) fullStorage 1742900000000
      "2025-03-25T12:00:00.000Z" "jobs" [("part_type", JsVal.str "Gear")]
      = (saveFailure, fullStorage) := by
    simp [dbInsert, checkSupabaseConnection, missingTableRemote,
      saveToLocalStorage_setItem_throws _ _ _ _ _ _ (rfl : (fullStorage :
        LocalStorage ℝ).setItemThrows = true)]
  rw [h]
  exact ⟨rfl, rfl, rfl⟩

/-- C10, amended. Let the probe report the remote connected and the remote insert report an
error whose code is 42P01, 42703 or 42501, or whose message mentions row-level security.
Provided the local save succeeds (`getItem` and `setItem` do not throw and the string stored
under the table name is missing, empty or a JSON array), `db.insert` appends the new record
to the list stored under the table name and returns `demoMode = true`, `error = null`,
`data = [newItem]` and the message of the error's class: "Table does not exist in database.
Using local storage until fixed." for 42P01, otherwise "Table columns don't match the data.
Using local storage until fixed." for 42703, otherwise "Row-level security blocked the
insert. Using local storage until fixed in Supabase dashboard." -/
theorem dbInsert_classified_error (remote : Remote α) (ls : LocalStorage α) (now : α)
    (nowIso table : String) (data : Record α) (rows : Option (List (Record α)))
    (error : JsError) (existing : List (Record α))
    (hconn : (checkSupabaseConnection remote).isConnected = true)
    (hins : remote.insert = Outcome.returned ⟨rows, some error⟩)
    (hclass : isClassified error = true)
    (hget : ls.getItemThrows = false) (hset : ls.setItemThrows = false)
    (hread : readExisting ls table = some existing) :
    dbInsert remote ls now nowIso table data =
      (⟨some [newItemOf now nowIso data], none, true, some (classMessage error)⟩,
       { ls with
         items := setKey ls.items table
           (Stored.array (existing ++ [stringifyRecord (newItemOf now nowIso data)])) }) := by
  have hsave := fun message =>
    saveToLocalStorage_ok ls now nowIso table data message existing hget hset hread
  unfold dbInsert classMessage
  rw [if_neg (by simp [hconn]), hins]
  simp only []
  by_cases h1 : error.code = some "42P01"
  · rw [if_pos h1, if_pos h1, hsave]
  rw [if_neg h1, if_neg h1]
  by_cases h2 : error.code = some "42703"
  · rw [if_pos h2, if_pos h2, hsave]
  rw [if_neg h2, if_neg h2]
  by_cases h3 : error.code = some "42501"
  · rw [if_pos h3, hsave]
  rw [if_neg h3]
  cases hmsg : error.message with
  | none => simp [isClassified, h1, h2, h3, hmsg] at hclass
  | some msg =>
    have hinc : includes msg "row-level security" = true := by
      simpa [isClassified, h1, h2, h3, hmsg] using hclass
    simp only [hinc, Bool.true_or, if_true]
    rw [hsave]

/-- Witness for the amended C10: an unknown-column error that mentions `margin_percentage`,
with an empty working storage; the returned message is the column-mismatch one and the
record, with its assigned `id` and `created_at`, is the only element of the stored list. -/
theorem dbInsert_classified_error_witness :
    (checkSupabaseConnection (unknownColumnRemote : Remote ℝ)).isConnected = true ∧
    isClassified ⟨some "42703", some "column jobs.margin_percentage does not exist"⟩ = true ∧
    readExisting (emptyStorage : LocalStorage ℝ) "jobs" = some [] ∧
    (dbInsert (unknownColumnRemote : Remote ℝ) emptyStorage 1742900000000
        "2025-03-25T12:00:00.000Z" "jobs" [("part_type", JsVal.str "Gear")]).1.message
      = some columnMismatchMessage ∧
    (dbInsert (unknownColumnRemote : Remote ℝ) emptyStorage 1742900000000
        "2025-03-25T12:00:00.000Z" "jobs" [("part_type", JsVal.str "Gear")]).1.data
      = some [[("part_type", JsVal.str "Gear"), ("id", JsVal.num 1742900000000),
          ("created_at", JsVal.str "2025-03-25T12:00:00.000Z")]] ∧
    (dbInsert (unknownColumnRemote : Remote ℝ) emptyStorage 1742900000000
        "2025-03-25T12:00:00.000Z" "jobs" [("part_type", JsVal.str "Gear")]).2.items
      = [("jobs", Stored.array [[("part_type", JsVal.str "Gear"),
          ("id", JsVal.num 1742900000000),
          ("created_at", JsVal.str "2025-03-25T12:00:00.000Z")]])] := by
  refine ⟨rfl, by decide, rfl, ?_⟩
  rw [dbInsert_classified_error unknownColumnRemote emptyStorage 1742900000000
     "2025-03-25T12:00:00.000Z" "jobs" [("part_type", JsVal.str "Gear")] none
     ⟨some "42703", some "column jobs.margin_percentage does not exist"⟩ []
     rfl rfl (by decide) rfl rfl rfl]
  refine ⟨by simp [classMessage], ?_, ?_⟩ <;>
    simp [emptyStorage, setKey, newItemOf, getKey, jsOr, truthy, stringifyRecord, List.lookup]

end Classified

/-! ## Objects and stored lists -/

section ObjectLemmas

variable {β : Type}

theorem lookup_map_setKey (l : List (String × β)) (key k : String) (v : β) :
    (l.map (fun kv => if kv.1 == key then (kv.1, v) else kv)).lookup k =
      if k = key then (l.lookup k).map (fun _ => v) else l.lookup k := by
  induction l with
  | nil => simp
  | cons hd tl ih =>
    obtain ⟨a, b⟩ := hd
    by_cases hak : a = key
    · subst hak
      have e : (a == a) = true := beq_self_eq_true a
      simp only [List.map_cons, e, ↓reduceIte, List.lookup_cons]
      by_cases hka : k = a
      · subst hka
        simp only [e, ↓reduceIte, Option.map_some']
      · have hka' : (k == a) = false := beq_eq_false_iff_ne.2 hka
        simp only [hka', ih]
    · have hak' : (a == key) = false := beq_eq_false_iff_ne.2 hak
      simp only [List.map_cons, hak', Bool.false_eq_true, ↓reduceIte, List.lookup_cons]
      by_cases hka : k = a
      · subst hka
        have e : (k == k) = true := beq_self_eq_true k
        simp only [e, if_neg hak]
      · have hka' : (k == a) = false := beq_eq_false_iff_ne.2 hka
        simp only [hka', ih]

theorem lookup_eq_none_of_any_false (l : List (String × β)) (key : String)
    (h : l.any (fun kv => kv.1 == key) = false) : l.lookup key = none := by
  induction l with
  | nil => rfl
  | cons hd tl ih =>
    obtain ⟨a, b⟩ := hd
    rw [List.any_cons, Bool.or_eq_false_iff] at h
    have hne : key ≠ a := fun e => by
      have h1 := h.1
      rw [e] at h1
      simp at h1
    have hb : (key == a) = false := beq_eq_false_iff_ne.2 hne
    simp only [List.lookup_cons, hb, ih h.2]

theorem lookup_isSome_of_any (l : List (String × β)) (key : String)
    (h : l.any (fun kv => kv.1 == key) = true) : ∃ w, l.lookup key = some w := by
  induction l with
  | nil => simp at h
  | cons hd tl ih =>
    obtain ⟨a, b⟩ := hd
    by_cases hka : key = a
    · subst hka
      exact ⟨b, by simp [List.lookup]⟩
    · have hb : (key == a) = false := beq_eq_false_iff_ne.2 hka
      have hab : (a == key) = false := beq_eq_false_iff_ne.2 (Ne.symm hka)
      simp only [List.any_cons, hab, Bool.false_or] at h
      obtain ⟨w, hw⟩ := ih h
      exact ⟨w, by simp [List.lookup, hb, hw]⟩

theorem lookup_append_single (l : List (String × β)) (key k : String) (v : β) :
    (l ++ [(key, v)]).lookup k =
      match l.lookup k with
      | some w => some w
      | none => if k = key then some v else none := by
  induction l with
  | nil =>
    by_cases hk : k = key
    · subst hk; simp [List.lookup]
    · have hb : (k == key) = false := beq_eq_false_iff_ne.2 hk
      simp [List.lookup, hb, hk]
  | cons hd tl ih =>
    obtain ⟨a, b⟩ := hd
    by_cases hka : k = a
    · subst hka
      simp [List.lookup]
    · have hb : (k == a) = false := beq_eq_false_iff_ne.2 hka
      simp [List.lookup, hb, ih]

theorem lookup_setKey_self (l : List (String × β)) (key : String) (v : β) :
    (setKey l key v).lookup key = some v := by
  unfold setKey
  split_ifs with h
  · rw [lookup_map_setKey, if_pos rfl]
    obtain ⟨w, hw⟩ := lookup_isSome_of_any l key h
    simp [hw]
  · have hf : l.any (fun kv => kv.1 == key) = false := Bool.eq_false_iff.2 h
    rw [lookup_append_single, lookup_eq_none_of_any_false l key hf]
    simp

theorem lookup_setKey_of_ne (l : List (String × β)) (key k : String) (v : β) (hk : k ≠ key) :
    (setKey l key v).lookup k = l.lookup k := by
  unfold setKey
  split_ifs with h
  · rw [lookup_map_setKey, if_neg hk]
  · rw [lookup_append_single]
    cases l.lookup k <;> simp [hk]
end ObjectLemmas

section RecordLemmas

variable {α : Type}

theorem getKey_setKey_self (r : Record α) (key : String) (v : JsVal α) :
    getKey (setKey r key v) key = v := by
  simp [getKey, lookup_setKey_self]

theorem getKey_setKey_of_ne (r : Record α) (key k : String) (v : JsVal α) (hk : k ≠ key) :
    getKey (setKey r key v) k = getKey r k := by
  simp [getKey, lookup_setKey_of_ne _ _ _ _ hk]

theorem lookup_eq_none_of_not_mem (r : Record α) (k : String) (h : k ∉ r.map Prod.fst) :
    r.lookup k = none := by
  induction r with
  | nil => rfl
  | cons hd tl ih =>
    obtain ⟨a, b⟩ := hd
    simp only [List.map_cons, List.mem_cons, not_or] at h
    have hb : (k == a) = false := beq_eq_false_iff_ne.2 h.1
    simp [List.lookup, hb, ih h.2]

end RecordLemmas

section StringifyLemmas

variable {α : Type} [LinearOrderedField α]

theorem stringifyRecord_cons (a : String) (b : JsVal α) (tl : Record α) :
    stringifyRecord ((a, b) :: tl) =
      if b = JsVal.undefined then stringifyRecord tl else (a, b) :: stringifyRecord tl := by
  by_cases hb : b = JsVal.undefined <;> simp [stringifyRecord, List.filter, hb]

theorem getKey_stringifyRecord (r : Record α) (k : String) (h : (r.map Prod.fst).Nodup) :
    getKey (stringifyRecord r) k = getKey r k := by
  induction r with
  | nil => rfl
  | cons hd tl ih =>
    obtain ⟨a, b⟩ := hd
    rw [List.map_cons, List.nodup_cons] at h
    have ih' := ih h.2
    unfold getKey at ih' ⊢
    rw [stringifyRecord_cons]
    by_cases hka : k = a
    · subst hka
      have e : (k == k) = true := beq_self_eq_true k
      by_cases hb : b = JsVal.undefined
      · subst hb
        have hnone : (stringifyRecord tl).lookup k = none := by
          apply lookup_eq_none_of_not_mem
          intro hmem
          apply h.1
          rw [List.mem_map] at hmem ⊢
          obtain ⟨x, hx, hxk⟩ := hmem
          exact ⟨x, (List.mem_filter.1 hx).1, hxk⟩
        simp only [↓reduceIte, hnone, List.lookup_cons, e, Option.getD_none, Option.getD_some]
      · simp only [if_neg hb, List.lookup_cons, e]
    · have hbeq : (k == a) = false := beq_eq_false_iff_ne.2 hka
      by_cases hb : b = JsVal.undefined
      · simp only [if_pos hb, List.lookup_cons, hbeq]
        exact ih'
      · simp only [if_neg hb, List.lookup_cons, hbeq]
        exact ih'
end StringifyLemmas

/-! ## The job store: paths of `db.insert` -/

section Exceptions

variable {α : Type}

theorem includesChars_iff (s sub : List Char) : includesChars s sub = true ↔ sub <:+: s := by
  induction s with
  | nil => simp [includesChars]
  | cons c cs ih =>
    rw [includesChars, Bool.or_eq_true, ih, List.infix_cons_iff, List.isPrefixOf_iff_prefix]

/-- A string that contains `inner` contains every substring of `inner`. -/
theorem includes_of_includes (s inner sub : String) (hsub : includes inner sub = true)
    (h : includes s inner = true) : includes s sub = true := by
  unfold includes at *
  rw [includesChars_iff] at *
  exact List.IsInfix.trans hsub h

theorem includes_policy_of_not_rls (msg : String)
    (h : includes msg "row-level security" = false) :
    includes msg "violates row-level security policy" = false := by
  by_contra hne
  have ht : includes msg "violates row-level security policy" = true := by simpa using hne
  have := includes_of_includes msg _ "row-level security" (by decide) ht
  rw [h] at this
  exact Bool.noConfusion this

theorem bind_returned {β γ : Type} (value : β) (rest : β → Outcome γ) :
    (Outcome.returned value).bind rest = rest value := rfl

theorem bind_threw {β γ : Type} (err : JsError) (rest : β → Outcome γ) :
    (Outcome.threw err : Outcome β).bind rest = Outcome.threw err := rfl

theorem tryCatch_returned {β : Type} (value : β) (handler : JsError → Outcome β) :
    tryCatch (Outcome.returned value) handler = Outcome.returned value := rfl

theorem tryCatch_threw {β : Type} (err : JsError) (handler : JsError → Outcome β) :
    tryCatch (Outcome.threw err) handler = handler err := rfl

theorem checkSupabaseConnectionOutcome_eq (remote : Remote α) :
    checkSupabaseConnectionOutcome remote = Outcome.returned (checkSupabaseConnection remote) := by
  unfold checkSupabaseConnectionOutcome checkSupabaseConnectionTry checkSupabaseConnection
  cases remote.jobsProbe with
  | threw err => rfl
  | returned jobsError =>
    cases jobsError with
    | none => rfl
    | some jobsError =>
      simp only [bind_returned]
      split_ifs with h1
      · rfl
      · cases remote.systemProbe with
        | threw err => rfl
        | returned error =>
          cases error with
          | none => rfl
          | some error =>
            simp only [bind_returned]
            split_ifs with h2
            · rfl
            · cases hm : error.message with
              | none => simp [messageIncludes, hm, bind_threw, tryCatch_threw]
              | some msg =>
                by_cases hi : includes msg "permission denied" = true <;>
                  simp [messageIncludes, hm, bind_returned, tryCatch_returned, hi]

end Exceptions

section Paths

variable {α : Type} [LinearOrderedField α]

theorem saveToLocalStorageOutcome_eq (ls : LocalStorage α) (now : α) (nowIso table : String)
    (data : Record α) (message : String) :
    saveToLocalStorageOutcome ls now nowIso table data message =
      Outcome.returned (saveToLocalStorage ls now nowIso table data message) := by
  unfold saveToLocalStorageOutcome saveToLocalStorageTry saveToLocalStorage getItem setItem
    readExisting
  by_cases hg : ls.getItemThrows = true
  · simp [hg, bind_threw, tryCatch_threw]
  · by_cases hs : ls.setItemThrows = true
    · cases hl : ls.items.lookup table with
      | none => simp [hg, hs, bind_returned, bind_threw, tryCatch_threw, parseExisting]
      | some stored =>
        cases stored <;>
          simp [hg, hs, bind_returned, bind_threw, tryCatch_threw, parseExisting]
    · cases hl : ls.items.lookup table with
      | none => simp [hg, hs, bind_returned, tryCatch_returned, parseExisting]
      | some stored =>
        cases stored <;>
          simp [hg, hs, bind_returned, bind_threw, tryCatch_returned, tryCatch_threw,
            parseExisting]

theorem dbInsertOutcome_eq (remote : Remote α) (ls : LocalStorage α) (now : α)
    (nowIso table : String) (data : Record α) :
    dbInsertOutcome remote ls now nowIso table data =
      Outcome.returned (dbInsert remote ls now nowIso table data) := by
  unfold dbInsertOutcome dbInsertTry dbInsert
  rw [checkSupabaseConnectionOutcome_eq]
  simp only [bind_returned, saveToLocalStorageOutcome_eq]
  split_ifs with hc
  · rfl
  · cases remote.insert with
    | threw err => rfl
    | returned response =>
      obtain ⟨rows, rerror⟩ := response
      cases rerror with
      | none => rfl
      | some error =>
        simp only [bind_returned]
        split_ifs with h1 h2 h3
        · rfl
        · rfl
        · rfl
        · cases hm : error.message with
          | none => simp [messageIncludes, hm, bind_threw, tryCatch_threw]
          | some msg =>
            by_cases hi : includes msg "row-level security" = true
            · simp [messageIncludes, hm, bind_returned, tryCatch_returned, hi]
            · by_cases hj : includes msg "violates row-level security policy" = true <;>
                simp [messageIncludes, hm, bind_returned, tryCatch_returned, hi, hj]

theorem dbInsert_of_not_connected (remote : Remote α) (ls : LocalStorage α) (now : α)
    (nowIso table : String) (data : Record α)
    (hconn : (checkSupabaseConnection remote).isConnected = false) :
    dbInsert remote ls now nowIso table data =
      saveToLocalStorage ls now nowIso table data defaultSaveMessage := by
  simp [dbInsert, hconn]

theorem dbInsert_of_insert_threw (remote : Remote α) (ls : LocalStorage α) (now : α)
    (nowIso table : String) (data : Record α) (err : JsError)
    (hins : remote.insert = Outcome.threw err) :
    dbInsert remote ls now nowIso table data =
      saveToLocalStorage ls now nowIso table data defaultSaveMessage := by
  unfold dbInsert
  split_ifs
  · rfl
  · rw [hins]

theorem dbInsert_of_no_error (remote : Remote α) (ls : LocalStorage α) (now : α)
    (nowIso table : String) (data : Record α) (rows : Option (List (Record α)))
    (hconn : (checkSupabaseConnection remote).isConnected = true)
    (hins : remote.insert = Outcome.returned ⟨rows, none⟩) :
    dbInsert remote ls now nowIso table data = (⟨rows, none, false, none⟩, ls) := by
  simp [dbInsert, hconn, hins]

/-- An error with a message that `db.insert` does not classify is returned as it is, and
the storage is not touched. -/
theorem dbInsert_of_unclassified (remote : Remote α) (ls : LocalStorage α) (now : α)
    (nowIso table : String) (data : Record α) (rows : Option (List (Record α)))
    (error : JsError) (msg : String)
    (hconn : (checkSupabaseConnection remote).isConnected = true)
    (hins : remote.insert = Outcome.returned ⟨rows, some error⟩)
    (hmsg : error.message = some msg) (hclass : isClassified error = false) :
    dbInsert remote ls now nowIso table data = (⟨none, some error, false, none⟩, ls) := by
  simp only [isClassified, hmsg, Bool.or_eq_false_iff, decide_eq_false_iff_not] at hclass
  obtain ⟨⟨⟨h1, h2⟩, h3⟩, h4⟩ := hclass
  have h5 := includes_policy_of_not_rls msg h4
  simp [dbInsert, hconn, hins, h1, h2, h3, hmsg, h4, h5]

/-- The outcome of the local save: either it fails and returns the failure object with the
storage untouched, or the stored value parses to an array and the new record is appended. -/
theorem saveToLocalStorage_cases (ls : LocalStorage α) (now : α) (nowIso table : String)
    (data : Record α) (message : String) :
    saveToLocalStorage ls now nowIso table data message = (saveFailure, ls) ∨
    ∃ existing, readExisting ls table = some existing ∧
      saveToLocalStorage ls now nowIso table data message =
        (⟨some [newItemOf now nowIso data], none, true, some message⟩,
         { ls with
           items := setKey ls.items table
             (Stored.array (existing ++ [stringifyRecord (newItemOf now nowIso data)])) }) := by
  unfold saveToLocalStorage
  by_cases hg : ls.getItemThrows = true
  · left
    simp [hg]
  · cases hr : readExisting ls table with
    | none =>
      left
      simp [hg]
    | some existing =>
      by_cases hs : ls.setItemThrows = true
      · left
        simp [hg, hs]
      · right
        exact ⟨existing, rfl, by simp [hg, hs]⟩

theorem saveToLocalStorage_demoMode (ls : LocalStorage α) (now : α) (nowIso table : String)
    (data : Record α) (message : String) :
    (saveToLocalStorage ls now nowIso table data message).1.demoMode = true := by
  rcases saveToLocalStorage_cases ls now nowIso table data message with h | ⟨existing, -, h⟩
  · rw [h]
    rfl
  · rw [h]

end Paths

section Results

variable {α : Type} [LinearOrderedField α]

/-- Every result of `db.insert`: a local save, the remote's rows, or an error with a
message that is not classified, returned as it is. -/
theorem dbInsert_cases (remote : Remote α) (ls : LocalStorage α) (now : α)
    (nowIso table : String) (data : Record α) :
    (∃ message, dbInsert remote ls now nowIso table data =
        saveToLocalStorage ls now nowIso table data message) ∨
    (∃ rows, dbInsert remote ls now nowIso table data = (⟨rows, none, false, none⟩, ls)) ∨
    (∃ error msg, error.message = some msg ∧ isClassified error = false ∧
      dbInsert remote ls now nowIso table data = (⟨none, some error, false, none⟩, ls)) := by
  unfold dbInsert
  split_ifs with hc
  · exact Or.inl ⟨_, rfl⟩
  · cases remote.insert with
    | threw err => exact Or.inl ⟨_, rfl⟩
    | returned response =>
      obtain ⟨rows, rerror⟩ := response
      cases rerror with
      | none => exact Or.inr (Or.inl ⟨rows, rfl⟩)
      | some error =>
        simp only []
        split_ifs with h1 h2 h3
        · exact Or.inl ⟨_, rfl⟩
        · exact Or.inl ⟨_, rfl⟩
        · exact Or.inl ⟨_, rfl⟩
        · cases hm : error.message with
          | none => exact Or.inl ⟨_, rfl⟩
          | some msg =>
            simp only []
            split_ifs with hi
            · exact Or.inl ⟨_, rfl⟩
            · refine Or.inr (Or.inr ⟨error, msg, hm, ?_, rfl⟩)
              simp only [Bool.or_eq_true, not_or, Bool.not_eq_true] at hi
              simp [isClassified, h1, h2, h3, hm, hi.1]

theorem getKey_newItemOf (now : α) (nowIso : String) (data : Record α) (k : String)
    (hid : k ≠ "id") (hcreated : k ≠ "created_at") :
    getKey (newItemOf now nowIso data) k = getKey data k := by
  unfold newItemOf
  rw [getKey_setKey_of_ne _ _ _ _ hcreated, getKey_setKey_of_ne _ _ _ _ hid]

theorem getKey_newItemOf_id (now : α) (nowIso : String) (data : Record α) :
    getKey (newItemOf now nowIso data) "id" = jsOr (getKey data "id") (JsVal.num now) := by
  unfold newItemOf
  rw [getKey_setKey_of_ne _ _ _ _ (by decide), getKey_setKey_self]

theorem getKey_newItemOf_created_at (now : α) (nowIso : String) (data : Record α) :
    getKey (newItemOf now nowIso data) "created_at" =
      jsOr (getKey data "created_at") (JsVal.str nowIso) := by
  unfold newItemOf
  rw [getKey_setKey_self]

theorem keys_setKey_nodup {β : Type} (l : List (String × β)) (key : String) (v : β)
    (h : (l.map Prod.fst).Nodup) : ((setKey l key v).map Prod.fst).Nodup := by
  unfold setKey
  split_ifs with hany
  · have hmap : (l.map (fun kv => if kv.1 == key then (kv.1, v) else kv)).map Prod.fst
        = l.map Prod.fst := by
      rw [List.map_map]
      apply List.map_congr_left
      intro kv _
      show (if kv.1 == key then (kv.1, v) else kv).1 = kv.1
      split_ifs <;> rfl
    rw [hmap]
    exact h
  · rw [List.map_append, List.map_cons, List.map_nil]
    apply List.Nodup.append h (List.nodup_singleton _)
    intro x hx hx'
    rw [List.mem_singleton] at hx'
    subst hx'
    apply hany
    rw [List.any_eq_true]
    rw [List.mem_map] at hx
    obtain ⟨kv, hkv, hk⟩ := hx
    exact ⟨kv, hkv, by simp [hk]⟩

theorem keysDistinct_newItemOf (now : α) (nowIso : String) (data : Record α)
    (h : keysDistinct data = true) : ((newItemOf now nowIso data).map Prod.fst).Nodup := by
  unfold newItemOf
  exact keys_setKey_nodup _ _ _ (keys_setKey_nodup _ _ _ (of_decide_eq_true h))

/-- The record stored by the local save holds every property of the input; only a missing or
falsy `id` or `created_at` is replaced. -/
theorem getKey_stored_item (now : α) (nowIso : String) (data : Record α) (k : String)
    (hkeys : keysDistinct data = true)
    (hid : k = "id" → truthy (getKey data "id") = true)
    (hcreated : k = "created_at" → truthy (getKey data "created_at") = true) :
    getKey (stringifyRecord (newItemOf now nowIso data)) k = getKey data k := by
  rw [getKey_stringifyRecord _ _ (keysDistinct_newItemOf now nowIso data hkeys)]
  by_cases h1 : k = "id"
  · subst h1
    rw [getKey_newItemOf_id, jsOr, if_pos (hid rfl)]
  · by_cases h2 : k = "created_at"
    · subst h2
      rw [getKey_newItemOf_created_at, jsOr, if_pos (hcreated rfl)]
    · exact getKey_newItemOf now nowIso data k h1 h2

end Results

/-! ## Unclassified errors (C11) -/

/-- C11 (code defect). When the remote insert reports an error object with no code and no
message, `db.insert` does not return it: `error.message.includes` throws, the outer `catch`
runs the local save, and the result is a fallback (`demoMode = true`, `error = null`) with
the job appended to the local store.  An unclassified error that has a message is returned
as a hard failure and the store is left alone. -/
theorem dbInsert_bare_error_falls_back :
    (dbInsert (bareErrorRemote : Remote ℝ) emptyStorage 1742900000000
        "2025-03-25T12:00:00.000Z" "jobs" [("part_type", JsVal.str "Gear")]).1
      = ⟨some [[("part_type", JsVal.str "Gear"), ("id", JsVal.num 1742900000000),
          ("created_at", JsVal.str "2025-03-25T12:00:00.000Z")]], none, true,
          some defaultSaveMessage⟩ ∧
    (dbInsert (bareErrorRemote : Remote ℝ) emptyStorage 1742900000000
        "2025-03-25T12:00:00.000Z" "jobs" [("part_type", JsVal.str "Gear")]).2.items
      = [("jobs", Stored.array [[("part_type", JsVal.str "Gear"),
          ("id", JsVal.num 1742900000000),
          ("created_at", JsVal.str "2025-03-25T12:00:00.000Z")]])] ∧
    dbInsert (serverErrorRemote : Remote ℝ) emptyStorage 1742900000000
        "2025-03-25T12:00:00.000Z" "jobs" [("part_type", JsVal.str "Gear")]
      = (⟨none, some ⟨some "500", some "Internal Server Error"⟩, false, none⟩, emptyStorage) := by
  have hsave : saveToLocalStorage (emptyStorage : LocalStorage ℝ) 1742900000000
      "2025-03-25T12:00:00.000Z" "jobs" [("part_type", JsVal.str "Gear")] defaultSaveMessage
      = (⟨some [[("part_type", JsVal.str "Gear"), ("id", JsVal.num 1742900000000),
          ("created_at", JsVal.str "2025-03-25T12:00:00.000Z")]], none, true,
          some defaultSaveMessage⟩,
         ⟨[("jobs", Stored.array [[("part_type", JsVal.str "Gear"),
          ("id", JsVal.num 1742900000000),
          ("created_at", JsVal.str "2025-03-25T12:00:00.000Z")]])], false, false⟩) := by
    rw [saveToLocalStorage_ok (emptyStorage : LocalStorage ℝ) 1742900000000
      "2025-03-25T12:00:00.000Z" "jobs" [("part_type", JsVal.str "Gear")] defaultSaveMessage
      [] rfl rfl rfl]
    simp [emptyStorage, setKey, newItemOf, getKey, jsOr, truthy, stringifyRecord, List.lookup]
  have hbare : dbInsert (bareErrorRemote : Remote ℝ) emptyStorage 1742900000000
      "2025-03-25T12:00:00.000Z" "jobs" [("part_type", JsVal.str "Gear")]
      = saveToLocalStorage emptyStorage 1742900000000 "2025-03-25T12:00:00.000Z" "jobs"
          [("part_type", JsVal.str "Gear")] defaultSaveMessage := by
    simp [dbInsert, checkSupabaseConnection, bareErrorRemote]
  refine ⟨by rw [hbare, hsave], by rw [hbare, hsave], ?_⟩
  exact dbInsert_of_unclassified _ _ _ _ _ _ none _ "Internal Server Error" rfl rfl rfl
    (by decide)

/-! ## The remote's rows (C14) -/

section Success

variable {α : Type} [LinearOrderedField α]

/-- C14. When the probe reports the remote connected and the remote insert reports no error,
`db.insert` returns the rows returned by the remote as `data`, with `error = null` and
`demoMode = false`, and the local storage is unchanged. -/
theorem dbInsert_success (remote : Remote α) (ls : LocalStorage α) (now : α)
    (nowIso table : String) (data : Record α) (rows : Option (List (Record α)))
    (hconn : (checkSupabaseConnection remote).isConnected = true)
    (hins : remote.insert = Outcome.returned ⟨rows, none⟩) :
    (dbInsert remote ls now nowIso table data).1.data = rows ∧
    (dbInsert remote ls now nowIso table data).1.error = none ∧
    (dbInsert remote ls now nowIso table data).1.demoMode = false ∧
    (dbInsert remote ls now nowIso table data).2 = ls := by
  rw [dbInsert_of_no_error remote ls now nowIso table data rows hconn hins]
  exact ⟨rfl, rfl, rfl, rfl⟩

end Success

/-- Witness for C14: the remote returns the inserted row with its server-assigned id; the
storage holds an earlier job and stays as it is. -/
theorem dbInsert_success_witness :
    (checkSupabaseConnection
      (acceptingRemote [[("id", JsVal.num 7), ("part_type", JsVal.str "Gear")]] :
        Remote ℝ)).isConnected = true ∧
    (dbInsert (acceptingRemote [[("id", JsVal.num 7), ("part_type", JsVal.str "Gear")]])
        (fullStorage : LocalStorage ℝ) 1742900000000 "2025-03-25T12:00:00.000Z" "jobs"
        [("part_type", JsVal.str "Gear")]).1.data
      = some [[("id", JsVal.num 7), ("part_type", JsVal.str "Gear")]] ∧
    (dbInsert (acceptingRemote [[("id", JsVal.num 7), ("part_type", JsVal.str "Gear")]])
        (fullStorage : LocalStorage ℝ) 1742900000000 "2025-03-25T12:00:00.000Z" "jobs"
        [("part_type", JsVal.str "Gear")]).1.error = none ∧
    (dbInsert (acceptingRemote [[("id", JsVal.num 7), ("part_type", JsVal.str "Gear")]])
        (fullStorage : LocalStorage ℝ) 1742900000000 "2025-03-25T12:00:00.000Z" "jobs"
        [("part_type", JsVal.str "Gear")]).1.demoMode = false ∧
    (dbInsert (acceptingRemote [[("id", JsVal.num 7), ("part_type", JsVal.str "Gear")]])
        (fullStorage : LocalStorage ℝ) 1742900000000 "2025-03-25T12:00:00.000Z" "jobs"
        [("part_type", JsVal.str "Gear")]).2 = fullStorage :=
  ⟨rfl, dbInsert_success _ fullStorage 1742900000000 "2025-03-25T12:00:00.000Z" "jobs"
    [("part_type", JsVal.str "Gear")]
    (some [[("id", JsVal.num 7), ("part_type", JsVal.str "Gear")]]) rfl rfl⟩

/-! ## No exception leaves `db.insert` (C13) -/

section NeverRaises

variable {α : Type} [LinearOrderedField α]

/-- C13. With every throwing statement and every `try`/`catch` made explicit, `db.insert`
returns a result object for every behaviour of the remote and of the local storage: it
never raises, and neither does the probe.  When the remote insert throws, the result is the
one of the unreachable path: the local save with the default message, whose `demoMode` is
true whether or not the save succeeds. -/
theorem dbInsert_never_raises (remote : Remote α) (ls : LocalStorage α) (now : α)
    (nowIso table : String) (data : Record α) :
    dbInsertOutcome remote ls now nowIso table data =
      Outcome.returned (dbInsert remote ls now nowIso table data) ∧
    checkSupabaseConnectionOutcome remote =
      Outcome.returned (checkSupabaseConnection remote) ∧
    ((checkSupabaseConnection remote).isConnected = false →
      dbInsert remote ls now nowIso table data =
        saveToLocalStorage ls now nowIso table data defaultSaveMessage) ∧
    (∀ err, remote.insert = Outcome.threw err →
      dbInsert remote ls now nowIso table data =
        saveToLocalStorage ls now nowIso table data defaultSaveMessage) ∧
    (saveToLocalStorage ls now nowIso table data defaultSaveMessage).1.demoMode = true :=
  ⟨dbInsertOutcome_eq remote ls now nowIso table data,
   checkSupabaseConnectionOutcome_eq remote,
   dbInsert_of_not_connected remote ls now nowIso table data,
   fun err => dbInsert_of_insert_threw remote ls now nowIso table data err,
   saveToLocalStorage_demoMode ls now nowIso table data defaultSaveMessage⟩

end NeverRaises

/-- Witness for C13: the probe succeeds, the insert throws and `setItem` throws too; the
result is the failure object of the local save, returned and not raised. -/
theorem dbInsert_never_raises_witness :
    dbInsertOutcome (⟨Outcome.returned none, Outcome.returned none,
        Outcome.threw ⟨none, some "Failed to fetch"⟩⟩ : Remote ℝ) fullStorage 1742900000000
        "2025-03-25T12:00:00.000Z" "jobs" [("part_type", JsVal.str "Gear")]
      = Outcome.returned (saveFailure, fullStorage) := by
  have h := dbInsert_never_raises (⟨Outcome.returned none, Outcome.returned none,
    Outcome.threw ⟨none, some "Failed to fetch"⟩⟩ : Remote ℝ) fullStorage 1742900000000
    "2025-03-25T12:00:00.000Z" "jobs" [("part_type", JsVal.str "Gear")]
  rw [h.1, h.2.2.2.1 _ rfl, saveToLocalStorage_setItem_throws _ _ _ _ _ _ rfl]

/-! ## The local save (C16, C12, C15) -/

theorem checkSupabaseConnection_congr {α : Type} (remote other : Remote α)
    (hjobs : other.jobsProbe = remote.jobsProbe)
    (hsystem : other.systemProbe = remote.systemProbe) :
    checkSupabaseConnection other = checkSupabaseConnection remote := by
  unfold checkSupabaseConnection
  rw [hjobs, hsystem]

theorem readExisting_of_array {α : Type} (ls : LocalStorage α) (table : String)
    (existing items : List (Record α)) (hread : readExisting ls table = some existing)
    (h : ls.items.lookup table = some (Stored.array items)) : existing = items := by
  unfold readExisting at hread
  rw [h] at hread
  exact (Option.some.inj hread).symm

theorem readExisting_of_missing {α : Type} (ls : LocalStorage α) (table : String)
    (existing : List (Record α)) (hread : readExisting ls table = some existing)
    (h : ls.items.lookup table = none) : existing = [] := by
  unfold readExisting at hread
  rw [h] at hread
  exact (Option.some.inj hread).symm

section LocalSave

variable {α : Type} [LinearOrderedField α]

/-- C16. A successful local save appends: when the result carries no error, the string
stored under the table name parsed to a list `L` (the stored array, or the empty list when
nothing was stored), and afterwards the list stored under the table name is `L` followed by
exactly one new record, while the values stored under every other key are unchanged. -/
theorem saveToLocalStorage_appends (ls : LocalStorage α) (now : α) (nowIso table : String)
    (data : Record α) (message : String)
    (hok : (saveToLocalStorage ls now nowIso table data message).1.error = none) :
    ∃ L : List (Record α), readExisting ls table = some L ∧
      (∀ items, ls.items.lookup table = some (Stored.array items) → L = items) ∧
      (ls.items.lookup table = none → L = []) ∧
      (saveToLocalStorage ls now nowIso table data message).2.items.lookup table =
        some (Stored.array (L ++ [stringifyRecord (newItemOf now nowIso data)])) ∧
      ∀ key, key ≠ table →
        (saveToLocalStorage ls now nowIso table data message).2.items.lookup key =
          ls.items.lookup key := by
  rcases saveToLocalStorage_cases ls now nowIso table data message with h | ⟨L, hread, h⟩
  · rw [h] at hok
    exact Option.noConfusion hok
  · refine ⟨L, hread, fun items hi => readExisting_of_array ls table L items hread hi,
      fun hn => readExisting_of_missing ls table L hread hn, ?_, ?_⟩
    · rw [h]
      exact lookup_setKey_self _ _ _
    · intro key hkey
      rw [h]
      exact lookup_setKey_of_ne _ _ _ _ hkey

/-- C12, amended. When the probe reports the remote unreachable, the result of `db.insert`
does not depend on the remote insert (none is attempted).  Provided the local save succeeds
(`getItem` and `setItem` do not throw and the string stored under the table name is
missing, empty or a JSON array), the result has `demoMode = true`, the message "Saved to
local storage in demo mode" and `error = null`, and afterwards the last record of the list
stored under the table name holds every property of the job with the job's value, a missing
or falsy `id` or `created_at` excepted (these are assigned). -/
theorem dbInsert_unreachable (remote : Remote α) (ls : LocalStorage α) (now : α)
    (nowIso table : String) (data : Record α) (existing : List (Record α))
    (hconn : (checkSupabaseConnection remote).isConnected = false)
    (hget : ls.getItemThrows = false) (hset : ls.setItemThrows = false)
    (hread : readExisting ls table = some existing) (hkeys : keysDistinct data = true) :
    (∀ other : Remote α, other.jobsProbe = remote.jobsProbe →
      other.systemProbe = remote.systemProbe →
      dbInsert other ls now nowIso table data = dbInsert remote ls now nowIso table data) ∧
    (dbInsert remote ls now nowIso table data).1.demoMode = true ∧
    (dbInsert remote ls now nowIso table data).1.message = some defaultSaveMessage ∧
    (dbInsert remote ls now nowIso table data).1.error = none ∧
    (dbInsert remote ls now nowIso table data).2.items.lookup table =
      some (Stored.array (existing ++ [stringifyRecord (newItemOf now nowIso data)])) ∧
    ∀ key, (key = "id" → truthy (getKey data "id") = true) →
      (key = "created_at" → truthy (getKey data "created_at") = true) →
      getKey (stringifyRecord (newItemOf now nowIso data)) key = getKey data key := by
  refine ⟨?_, ?_⟩
  · intro other hjobs hsystem
    have hother : (checkSupabaseConnection other).isConnected = false := by
      rw [checkSupabaseConnection_congr remote other hjobs hsystem]
      exact hconn
    rw [dbInsert_of_not_connected other ls now nowIso table data hother,
      dbInsert_of_not_connected remote ls now nowIso table data hconn]
  · rw [dbInsert_of_not_connected remote ls now nowIso table data hconn,
      saveToLocalStorage_ok ls now nowIso table data defaultSaveMessage existing hget hset hread]
    exact ⟨rfl, rfl, rfl, lookup_setKey_self _ _ _,
      fun key hid hcreated => getKey_stored_item now nowIso data key hkeys hid hcreated⟩

/-- C15, amended. A call of `db.insert` that ends in a successful local save (`demoMode`
true and no error) returns exactly one record, which holds every input property unchanged
apart from `id` and `created_at`, with `id = data.id || Date.now()` and
`created_at = data.created_at || new Date().toISOString()`.  A call that returns an error
(an unclassified remote error, or a failed local save) returns `data = null`. -/
theorem dbInsert_returned_record (remote : Remote α) (ls : LocalStorage α) (now : α)
    (nowIso table : String) (data : Record α) :
    ((dbInsert remote ls now nowIso table data).1.demoMode = true →
      (dbInsert remote ls now nowIso table data).1.error = none →
      (dbInsert remote ls now nowIso table data).1.data = some [newItemOf now nowIso data] ∧
      (∀ key, key ≠ "id" → key ≠ "created_at" →
        getKey (newItemOf now nowIso data) key = getKey data key) ∧
      getKey (newItemOf now nowIso data) "id" = jsOr (getKey data "id") (JsVal.num now) ∧
      getKey (newItemOf now nowIso data) "created_at" =
        jsOr (getKey data "created_at") (JsVal.str nowIso)) ∧
    ((dbInsert remote ls now nowIso table data).1.error ≠ none →
      (dbInsert remote ls now nowIso table data).1.data = none) := by
  have hrec : (∀ key, key ≠ "id" → key ≠ "created_at" →
        getKey (newItemOf now nowIso data) key = getKey data key) ∧
      getKey (newItemOf now nowIso data) "id" = jsOr (getKey data "id") (JsVal.num now) ∧
      getKey (newItemOf now nowIso data) "created_at" =
        jsOr (getKey data "created_at") (JsVal.str nowIso) :=
    ⟨fun key h1 h2 => getKey_newItemOf now nowIso data key h1 h2,
      getKey_newItemOf_id now nowIso data, getKey_newItemOf_created_at now nowIso data⟩
  rcases dbInsert_cases remote ls now nowIso table data with
    ⟨message, h⟩ | ⟨rows, h⟩ | ⟨error, msg, -, -, h⟩
  · rcases saveToLocalStorage_cases ls now nowIso table data message with
      hs | ⟨existing, -, hs⟩
    · rw [h, hs]
      exact ⟨fun _ herr => Option.noConfusion herr, fun _ => rfl⟩
    · rw [h, hs]
      exact ⟨fun _ _ => ⟨rfl, hrec⟩, fun herr => absurd rfl herr⟩
  · rw [h]
    exact ⟨fun hdemo _ => Bool.noConfusion hdemo, fun herr => absurd rfl herr⟩
  · rw [h]
    exact ⟨fun hdemo _ => Bool.noConfusion hdemo, fun _ => rfl⟩

end LocalSave

/-- Witness for C16: a job saved into a working storage that holds the material prices and
one earlier job. -/
theorem saveToLocalStorage_appends_witness :
    (saveToLocalStorage (mixedStorage : LocalStorage ℝ) 1742900000000
      "2025-03-25T12:00:00.000Z" "jobs" [("part_type", JsVal.str "Gear")]
      defaultSaveMessage).1.error = none ∧
    ∃ L : List (Record ℝ), readExisting (mixedStorage : LocalStorage ℝ) "jobs" = some L ∧
      (∀ items, (mixedStorage : LocalStorage ℝ).items.lookup "jobs" =
        some (Stored.array items) → L = items) ∧
      ((mixedStorage : LocalStorage ℝ).items.lookup "jobs" = none → L = []) ∧
      (saveToLocalStorage (mixedStorage : LocalStorage ℝ) 1742900000000
        "2025-03-25T12:00:00.000Z" "jobs" [("part_type", JsVal.str "Gear")]
        defaultSaveMessage).2.items.lookup "jobs" =
        some (Stored.array (L ++ [stringifyRecord (newItemOf 1742900000000
          "2025-03-25T12:00:00.000Z" [("part_type", JsVal.str "Gear")])])) ∧
      ∀ key, key ≠ "jobs" →
        (saveToLocalStorage (mixedStorage : LocalStorage ℝ) 1742900000000
          "2025-03-25T12:00:00.000Z" "jobs" [("part_type", JsVal.str "Gear")]
          defaultSaveMessage).2.items.lookup key =
          (mixedStorage : LocalStorage ℝ).items.lookup key := by
  have hok : (saveToLocalStorage (mixedStorage : LocalStorage ℝ) 1742900000000
      "2025-03-25T12:00:00.000Z" "jobs" [("part_type", JsVal.str "Gear")]
      defaultSaveMessage).1.error = none := by
    rw [saveToLocalStorage_ok (mixedStorage : LocalStorage ℝ) 1742900000000
      "2025-03-25T12:00:00.000Z" "jobs" [("part_type", JsVal.str "Gear")] defaultSaveMessage
      [[("part_type", JsVal.str "Bracket")]] rfl rfl rfl]
  exact ⟨hok, saveToLocalStorage_appends mixedStorage 1742900000000
    "2025-03-25T12:00:00.000Z" "jobs" [("part_type", JsVal.str "Gear")] defaultSaveMessage hok⟩

theorem checkSupabaseConnection_unreachable :
    (checkSupabaseConnection (unreachableRemote : Remote ℝ)).isConnected = false := rfl

/-- C12 as stated fails: with an unreachable remote and a value under `jobs` that is not a
JSON array, `db.insert` returns a non-null `error` and no message and stores nothing; and
with a working storage, a job whose `id` is 0 is stored with the assigned `id` instead. -/
theorem dbInsert_unreachable_corrupt_storage :
    dbInsert (unreachableRemote : Remote ℝ) corruptStorage 1742900000000
        "2025-03-25T12:00:00.000Z" "jobs" [("part_type", JsVal.str "Gear")]
      = (⟨none, some ⟨none, some "Failed to save data even in fallback mode"⟩, true, none⟩,
         corruptStorage) ∧
    (dbInsert (unreachableRemote : Remote ℝ) emptyStorage 1742900000000
        "2025-03-25T12:00:00.000Z" "jobs"
        [("id", JsVal.num 0), ("part_type", JsVal.str "Gear")]).2.items
      = [("jobs", Stored.array [[("id", JsVal.num 1742900000000),
          ("part_type", JsVal.str "Gear"),
          ("created_at", JsVal.str "2025-03-25T12:00:00.000Z")]])] := by
  constructor
  · rw [dbInsert_of_not_connected _ _ _ _ _ _ checkSupabaseConnection_unreachable]
    rfl
  · rw [dbInsert_of_not_connected _ _ _ _ _ _ checkSupabaseConnection_unreachable,
      saveToLocalStorage_ok (emptyStorage : LocalStorage ℝ) 1742900000000
        "2025-03-25T12:00:00.000Z" "jobs"
        [("id", JsVal.num 0), ("part_type", JsVal.str "Gear")] defaultSaveMessage [] rfl rfl
        rfl]
    simp [emptyStorage, setKey, newItemOf, getKey, jsOr, truthy, stringifyRecord, List.lookup]

/-- Witness for the amended C12: an unreachable remote and an empty working storage. -/
theorem dbInsert_unreachable_witness :
    (checkSupabaseConnection (unreachableRemote : Remote ℝ)).isConnected = false ∧
    readExisting (emptyStorage : LocalStorage ℝ) "jobs" = some [] ∧
    keysDistinct ([("part_type", JsVal.str "Gear")] : Record ℝ) = true ∧
    (dbInsert (unreachableRemote : Remote ℝ) emptyStorage 1742900000000
        "2025-03-25T12:00:00.000Z" "jobs" [("part_type", JsVal.str "Gear")]).1.demoMode
      = true ∧
    (dbInsert (unreachableRemote : Remote ℝ) emptyStorage 1742900000000
        "2025-03-25T12:00:00.000Z" "jobs" [("part_type", JsVal.str "Gear")]).1.error
      = none ∧
    getKey (stringifyRecord (newItemOf (1742900000000 : ℝ) "2025-03-25T12:00:00.000Z"
        [("part_type", JsVal.str "Gear")])) "part_type" = JsVal.str "Gear" := by
  have hkeys : keysDistinct ([("part_type", JsVal.str "Gear")] : Record ℝ) = true := by
    simp [keysDistinct]
  have h := dbInsert_unreachable (unreachableRemote : Remote ℝ) emptyStorage 1742900000000
    "2025-03-25T12:00:00.000Z" "jobs" [("part_type", JsVal.str "Gear")] []
    checkSupabaseConnection_unreachable rfl rfl rfl hkeys
  refine ⟨rfl, rfl, hkeys, h.2.1, h.2.2.2.1, ?_⟩
  rw [h.2.2.2.2.2 "part_type" (by decide) (by decide)]
  simp [getKey, List.lookup]

/-- C15 as stated fails: for an unclassified server error `db.insert` returns `data = null`,
so no record with the input fields, an `id` and a `created_at` is returned. -/
theorem dbInsert_hard_failure_returns_no_record :
    (dbInsert (serverErrorRemote : Remote ℝ) emptyStorage 1742900000000
        "2025-03-25T12:00:00.000Z" "jobs" [("part_type", JsVal.str "Gear")]).1.data = none ∧
    (dbInsert (serverErrorRemote : Remote ℝ) emptyStorage 1742900000000
        "2025-03-25T12:00:00.000Z" "jobs" [("part_type", JsVal.str "Gear")]).1.demoMode
      = false := by
  rw [dbInsert_of_unclassified (serverErrorRemote : Remote ℝ) emptyStorage 1742900000000
    "2025-03-25T12:00:00.000Z" "jobs" [("part_type", JsVal.str "Gear")] none
    ⟨some "500", some "Internal Server Error"⟩ "Internal Server Error" rfl rfl rfl (by decide)]
  exact ⟨rfl, rfl⟩

/-- Witness for the amended C15: an unreachable remote and an empty working storage; the
returned record is the job with the assigned `id` and `created_at`. -/
theorem dbInsert_returned_record_witness :
    (dbInsert (unreachableRemote : Remote ℝ) emptyStorage 1742900000000
        "2025-03-25T12:00:00.000Z" "jobs" [("part_type", JsVal.str "Gear")]).1.demoMode
      = true ∧
    (dbInsert (unreachableRemote : Remote ℝ) emptyStorage 1742900000000
        "2025-03-25T12:00:00.000Z" "jobs" [("part_type", JsVal.str "Gear")]).1.error
      = none ∧
    (dbInsert (unreachableRemote : Remote ℝ) emptyStorage 1742900000000
        "2025-03-25T12:00:00.000Z" "jobs" [("part_type", JsVal.str "Gear")]).1.data
      = some [[("part_type", JsVal.str "Gear"), ("id", JsVal.num 1742900000000),
          ("created_at", JsVal.str "2025-03-25T12:00:00.000Z")]] := by
  have hr : dbInsert (unreachableRemote : Remote ℝ) emptyStorage 1742900000000
      "2025-03-25T12:00:00.000Z" "jobs" [("part_type", JsVal.str "Gear")]
      = saveToLocalStorage emptyStorage 1742900000000 "2025-03-25T12:00:00.000Z" "jobs"
          [("part_type", JsVal.str "Gear")] defaultSaveMessage :=
    dbInsert_of_not_connected _ _ _ _ _ _ checkSupabaseConnection_unreachable
  have hdemo : (dbInsert (unreachableRemote : Remote ℝ) emptyStorage 1742900000000
      "2025-03-25T12:00:00.000Z" "jobs" [("part_type", JsVal.str "Gear")]).1.demoMode
      = true := by
    rw [hr]
    exact saveToLocalStorage_demoMode _ _ _ _ _ _
  have herr : (dbInsert (unreachableRemote : Remote ℝ) emptyStorage 1742900000000
      "2025-03-25T12:00:00.000Z" "jobs" [("part_type", JsVal.str "Gear")]).1.error
      = none := by
    rw [hr, saveToLocalStorage_ok (emptyStorage : LocalStorage ℝ) 1742900000000
      "2025-03-25T12:00:00.000Z" "jobs" [("part_type", JsVal.str "Gear")] defaultSaveMessage
      [] rfl rfl rfl]
  refine ⟨hdemo, herr, ?_⟩
  rw [((dbInsert_returned_record (unreachableRemote : Remote ℝ) emptyStorage 1742900000000
    "2025-03-25T12:00:00.000Z" "jobs" [("part_type", JsVal.str "Gear")]).1 hdemo herr).1]
  simp [setKey, newItemOf, getKey, jsOr, truthy, List.lookup]

/-! ## The pricing configuration in the job record (C17) -/

section JobFields

variable {α : Type} [LinearOrderedField α]

theorem getKey_jobData_rush_fee_enabled (cfg : PricingConfig α) (form : FormData) (q : Int)
    (finalQuote : α) (createdAt : String) :
    getKey (buildJobData cfg form q finalQuote createdAt) "rush_fee_enabled" =
      JsVal.bool cfg.rushFeeEnabled := by
  simp [getKey, buildJobData, List.lookup]

theorem getKey_jobData_rush_fee_amount (cfg : PricingConfig α) (form : FormData) (q : Int)
    (finalQuote : α) (createdAt : String) :
    getKey (buildJobData cfg form q finalQuote createdAt) "rush_fee_amount" =
      JsVal.num (if cfg.rushFeeEnabled then cfg.rushFeeAmount else 0) := by
  simp [getKey, buildJobData, List.lookup]

theorem getKey_jobData_margin_percentage (cfg : PricingConfig α) (form : FormData) (q : Int)
    (finalQuote : α) (createdAt : String) :
    getKey (buildJobData cfg form q finalQuote createdAt) "margin_percentage" =
      JsVal.num cfg.marginPercentage := by
  simp [getKey, buildJobData, List.lookup]

end JobFields

section JobRecord

variable {α : Type} [LinearOrderedField α] [FloorRing α]

theorem priceQuote_jobData (log10 : α → α) (cfg : PricingConfig α) (form : FormData)
    (q : Int) (random : α) (createdAt : String) :
    (priceQuote log10 cfg form q random createdAt).jobData =
      buildJobData cfg form q (priceQuote log10 cfg form q random createdAt).finalQuote
        createdAt := rfl

/-- C17, amended. Every job record built by `calculateQuote` carries `rush_fee_enabled` and
`margin_percentage` equal to the configured `rushFeeEnabled` and `marginPercentage` used for
the quote; its `rush_fee_amount` is the rush fee added to the quote: the configured
`rushFeeAmount` when the rush fee is enabled and 0 otherwise. -/
theorem jobData_pricing_fields (log10 : α → α) (cfg : PricingConfig α) (form : FormData)
    (random : α) (createdAt : String) (h : (validateForm form).hasErrors = false) :
    ∃ b : QuoteBreakdown α, calculateQuote log10 cfg form random createdAt = Except.ok b ∧
      getKey b.jobData "rush_fee_enabled" = JsVal.bool cfg.rushFeeEnabled ∧
      getKey b.jobData "margin_percentage" = JsVal.num cfg.marginPercentage ∧
      getKey b.jobData "rush_fee_amount" =
        JsVal.num (if cfg.rushFeeEnabled then cfg.rushFeeAmount else 0) ∧
      getKey b.jobData "rush_fee_amount" = JsVal.num b.rushFee ∧
      b.marginMultiplier = 1 + cfg.marginPercentage / 100 := by
  obtain ⟨q, hq, -⟩ := parseInt_of_valid form h
  refine ⟨_, calculateQuote_of_valid log10 cfg form random createdAt q h hq, ?_, ?_, ?_, ?_, rfl⟩
  · rw [priceQuote_jobData, getKey_jobData_rush_fee_enabled]
  · rw [priceQuote_jobData, getKey_jobData_margin_percentage]
  · rw [priceQuote_jobData, getKey_jobData_rush_fee_amount]
  · rw [priceQuote_jobData, getKey_jobData_rush_fee_amount]
    rfl

end JobRecord

/-- C17 as stated fails: with the initial configuration (rush fee off, `rushFeeAmount` 50)
the job record carries `rush_fee_amount = 0`, not the configured 50. -/
theorem jobData_rush_fee_amount_when_disabled :
    ∃ b : QuoteBreakdown ℝ,
      calculateQuote (Real.logb 10) initialPricing ⟨"Gear", "steel", "10", "medium", ""⟩ 0
        "2025-03-25T12:00:00.000Z" = Except.ok b ∧
      (initialPricing : PricingConfig ℝ).rushFeeAmount = 50 ∧
      getKey b.jobData "rush_fee_amount" = JsVal.num 0 ∧
      getKey b.jobData "rush_fee_amount" ≠
        JsVal.num (initialPricing : PricingConfig ℝ).rushFeeAmount := by
  have hzero : getKey (priceQuote (Real.logb 10) initialPricing
      ⟨"Gear", "steel", "10", "medium", ""⟩ 10 0 "2025-03-25T12:00:00.000Z").jobData
      "rush_fee_amount" = JsVal.num 0 := by
    rw [priceQuote_jobData, getKey_jobData_rush_fee_amount]
    rfl
  refine ⟨_, calculateQuote_of_valid _ _ _ _ _ 10 (by decide) (by decide), rfl, hzero, ?_⟩
  rw [hzero]
  intro h
  have h50 : (0 : ℝ) = 50 := JsVal.num.inj h
  norm_num at h50

/-- Witness for the amended C17: the steel / medium / 10 form with the initial pricing. -/
theorem jobData_pricing_fields_witness :
    (validateForm ⟨"Gear", "steel", "10", "medium", ""⟩).hasErrors = false ∧
    ∃ b : QuoteBreakdown ℝ,
      calculateQuote (Real.logb 10) initialPricing ⟨"Gear", "steel", "10", "medium", ""⟩ 0
        "2025-03-25T12:00:00.000Z" = Except.ok b ∧
      getKey b.jobData "rush_fee_enabled" =
        JsVal.bool (initialPricing : PricingConfig ℝ).rushFeeEnabled ∧
      getKey b.jobData "margin_percentage" =
        JsVal.num (initialPricing : PricingConfig ℝ).marginPercentage ∧
      getKey b.jobData "rush_fee_amount" =
        JsVal.num (if (initialPricing : PricingConfig ℝ).rushFeeEnabled
          then (initialPricing : PricingConfig ℝ).rushFeeAmount else 0) ∧
      getKey b.jobData "rush_fee_amount" = JsVal.num b.rushFee ∧
      b.marginMultiplier = 1 + (initialPricing : PricingConfig ℝ).marginPercentage / 100 :=
  ⟨by decide, jobData_pricing_fields (Real.logb 10) initialPricing
    ⟨"Gear", "steel", "10", "medium", ""⟩ 0 "2025-03-25T12:00:00.000Z" (by decide)⟩

/-! ## The quote state across the save (C19) -/

section SaveState

variable {α : Type}

/-- No branch of `insertJobToSupabase` touches the `quote` state. -/
theorem insertJobToSupabase_quote (s : AppState α) (jobData : Record α)
    (inserted : Outcome (InsertResult α)) :
    (insertJobToSupabase s jobData inserted).1.quote = s.quote := by
  unfold insertJobToSupabase
  cases inserted with
  | threw err => rfl
  | returned result =>
    obtain ⟨rows, error, demo, message⟩ := result
    cases error with
    | some error =>
      simp only []
      split_ifs <;> rfl
    | none =>
      cases demo with
      | false => rfl
      | true =>
        cases message with
        | none => rfl
        | some message =>
          simp only [if_true]
          split_ifs <;> rfl

end SaveState

section QuoteState

variable {α : Type} [LinearOrderedField α] [FloorRing α]

theorem calculateQuoteClick_of_ok (log10 : α → α) (s : AppState α) (random : α)
    (createdAt : String) (b : QuoteBreakdown α)
    (hb : calculateQuote log10 s.pricing s.formData random createdAt = Except.ok b) :
    (calculateQuoteClick log10 s random createdAt).quote = some b.finalQuote := by
  simp [calculateQuoteClick, hb]

theorem calculateQuoteComplete_of_ok (log10 : α → α) (s : AppState α) (random : α)
    (createdAt : String) (insertOf : Record α → Outcome (InsertResult α))
    (b : QuoteBreakdown α)
    (hb : calculateQuote log10 s.pricing s.formData random createdAt = Except.ok b) :
    calculateQuoteComplete log10 s random createdAt insertOf =
      { (insertJobToSupabase (calculateQuoteClick log10 s random createdAt) b.jobData
          (insertOf b.jobData)).1 with
        submitStatus := statusOfSave
          (insertJobToSupabase (calculateQuoteClick log10 s random createdAt) b.jobData
            (insertOf b.jobData)).2
        isCalculating := false } := by
  simp [calculateQuoteComplete, hb]

/-- C19. For a validated form and every outcome of the save (the result of `db.insert` may
be a remote success, a local fallback, a hard failure, or a thrown exception), the `quote`
state at the end of `calculateQuote` is the computed `finalQuote`: neither
`insertJobToSupabase` nor the status update after it changes `quote`. -/
theorem quote_kept_across_save (log10 : α → α) (s : AppState α) (random : α)
    (createdAt : String) (insertOf : Record α → Outcome (InsertResult α))
    (h : (validateForm s.formData).hasErrors = false) :
    ∃ b : QuoteBreakdown α,
      calculateQuote log10 s.pricing s.formData random createdAt = Except.ok b ∧
      (calculateQuoteClick log10 s random createdAt).quote = some b.finalQuote ∧
      (insertJobToSupabase (calculateQuoteClick log10 s random createdAt) b.jobData
        (insertOf b.jobData)).1.quote = some b.finalQuote ∧
      (calculateQuoteComplete log10 s random createdAt insertOf).quote = some b.finalQuote := by
  obtain ⟨q, hq, -⟩ := parseInt_of_valid s.formData h
  have hb := calculateQuote_of_valid log10 s.pricing s.formData random createdAt q h hq
  have hclick := calculateQuoteClick_of_ok log10 s random createdAt _ hb
  refine ⟨_, hb, hclick, ?_, ?_⟩
  · rw [insertJobToSupabase_quote, hclick]
  · rw [calculateQuoteComplete_of_ok log10 s random createdAt insertOf _ hb]
    show (insertJobToSupabase _ _ _).1.quote = _
    rw [insertJobToSupabase_quote, hclick]

end QuoteState

/-- Witness for C19: the steel / medium / 10 form, with a `db.insert` that throws. -/
theorem quote_kept_across_save_witness :
    (validateForm ({ (initialState : AppState ℝ) with
        formData := ⟨"Gear", "steel", "10", "medium", ""⟩ }).formData).hasErrors = false ∧
    ∃ b : QuoteBreakdown ℝ,
      calculateQuote (Real.logb 10)
        ({ (initialState : AppState ℝ) with
          formData := ⟨"Gear", "steel", "10", "medium", ""⟩ }).pricing
        ({ (initialState : AppState ℝ) with
          formData := ⟨"Gear", "steel", "10", "medium", ""⟩ }).formData
        (1 / 2) "2025-03-25T12:00:00.000Z" = Except.ok b ∧
      (calculateQuoteClick (Real.logb 10)
        { (initialState : AppState ℝ) with
          formData := ⟨"Gear", "steel", "10", "medium", ""⟩ }
        (1 / 2) "2025-03-25T12:00:00.000Z").quote = some b.finalQuote ∧
      (insertJobToSupabase
        (calculateQuoteClick (Real.logb 10)
          { (initialState : AppState ℝ) with
            formData := ⟨"Gear", "steel", "10", "medium", ""⟩ }
          (1 / 2) "2025-03-25T12:00:00.000Z") b.jobData
        ((fun _ => Outcome.threw ⟨none, some "Failed to fetch"⟩ :
          Record ℝ → Outcome (InsertResult ℝ)) b.jobData)).1.quote = some b.finalQuote ∧
      (calculateQuoteComplete (Real.logb 10)
        { (initialState : AppState ℝ) with
          formData := ⟨"Gear", "steel", "10", "medium", ""⟩ }
        (1 / 2) "2025-03-25T12:00:00.000Z"
        (fun _ => Outcome.threw ⟨none, some "Failed to fetch"⟩)).quote = some b.finalQuote :=
  ⟨by decide,
   quote_kept_across_save (Real.logb 10)
     { (initialState : AppState ℝ) with formData := ⟨"Gear", "steel", "10", "medium", ""⟩ }
     (1 / 2) "2025-03-25T12:00:00.000Z"
     (fun _ => Outcome.threw ⟨none, some "Failed to fetch"⟩) (by decide)⟩

/-! ## Failed saves (C20) -/

theorem insertJobToSupabase_of_error {α : Type} (s : AppState α) (jobData : Record α)
    (result : InsertResult α) (e : JsError) (he : result.error = some e)
    (hcode : e.code ≠ some "42703") (hrls : mentionsRls e = false) :
    insertJobToSupabase s jobData (Outcome.returned result) =
      ({ s with
         submitStatus := ⟨some "error", some
           ("Failed to save quote: " ++ orString e.message "Please try again.")⟩ },
       ⟨false, "Failed to save quote: " ++ orString e.message "Please try again."⟩) := by
  simp [insertJobToSupabase, he, hcode, hrls]

section FailedSave

variable {α : Type} [LinearOrderedField α]

theorem append_ne_empty (a b : String) (ha : a ≠ "") : a ++ b ≠ "" := by
  intro h
  apply ha
  have hl : (a ++ b).length = 0 := by rw [h]; rfl
  rw [String.length_append] at hl
  have : a.length = 0 := by omega
  exact String.ext (List.length_eq_zero.1 this)

theorem orString_of_ne_empty (text dflt : String) (h : text ≠ "") :
    orString (some text) dflt = text := by
  simp [orString, h]

/-- The errors that `db.insert` can return: never the code 42703 and never a message that
mentions row-level security. -/
theorem dbInsert_error_unclassified (remote : Remote α) (ls : LocalStorage α) (now : α)
    (nowIso table : String) (data : Record α) (e : JsError)
    (he : (dbInsert remote ls now nowIso table data).1.error = some e) :
    e.code ≠ some "42703" ∧ mentionsRls e = false := by
  rcases dbInsert_cases remote ls now nowIso table data with
    ⟨message, h⟩ | ⟨rows, h⟩ | ⟨error, msg, hmsg, hclass, h⟩
  · rcases saveToLocalStorage_cases ls now nowIso table data message with
      hs | ⟨existing, -, hs⟩
    · rw [h, hs] at he
      have hfail : e = ⟨none, some "Failed to save data even in fallback mode"⟩ :=
        (Option.some.inj he).symm
      subst hfail
      exact ⟨by decide, by decide⟩
    · rw [h, hs] at he
      exact Option.noConfusion he
  · rw [h] at he
    exact Option.noConfusion he
  · rw [h] at he
    have hee : error = e := Option.some.inj he
    subst hee
    simp only [isClassified, hmsg, Bool.or_eq_false_iff, decide_eq_false_iff_not] at hclass
    obtain ⟨⟨⟨-, h2⟩, -⟩, h4⟩ := hclass
    refine ⟨h2, ?_⟩
    simp [mentionsRls, hmsg, h4, includes_policy_of_not_rls msg h4]

end FailedSave

section FailedSaveFlow

variable {α : Type} [LinearOrderedField α] [FloorRing α]

/-- C20. For a validated form and every result of `db.insert` that carries an error,
`insertJobToSupabase` takes neither its schema-mismatch branch (the error's code is not
42703) nor its row-level-security branch (the message does not mention it); it returns
`success = false` with the message "Failed to save quote: …", and `calculateQuote` ends with
the submit status of type `error` and that message. -/
theorem failed_save_reported (log10 : α → α) (s : AppState α) (random : α)
    (createdAt : String) (remote : Remote α) (ls : LocalStorage α) (now : α) (nowIso : String)
    (h : (validateForm s.formData).hasErrors = false) :
    ∃ b : QuoteBreakdown α,
      calculateQuote log10 s.pricing s.formData random createdAt = Except.ok b ∧
      ∀ e, (dbInsert remote ls now nowIso "jobs" b.jobData).1.error = some e →
        e.code ≠ some "42703" ∧ mentionsRls e = false ∧
        (insertJobToSupabase (calculateQuoteClick log10 s random createdAt) b.jobData
          (Outcome.returned (dbInsert remote ls now nowIso "jobs" b.jobData).1)).2 =
          ⟨false, "Failed to save quote: " ++ orString e.message "Please try again."⟩ ∧
        (calculateQuoteAndStore log10 s random createdAt remote ls now nowIso).submitStatus =
          ⟨some "error",
            some ("Failed to save quote: " ++ orString e.message "Please try again.")⟩ := by
  obtain ⟨q, hq, -⟩ := parseInt_of_valid s.formData h
  have hb := calculateQuote_of_valid log10 s.pricing s.formData random createdAt q h hq
  refine ⟨_, hb, ?_⟩
  intro e he
  obtain ⟨hcode, hrls⟩ := dbInsert_error_unclassified remote ls now nowIso "jobs" _ e he
  have hins := insertJobToSupabase_of_error (calculateQuoteClick log10 s random createdAt)
    (priceQuote log10 s.pricing s.formData q random createdAt).jobData _ e he hcode hrls
  refine ⟨hcode, hrls, by rw [hins], ?_⟩
  unfold calculateQuoteAndStore
  rw [calculateQuoteComplete_of_ok log10 s random createdAt _ _ hb]
  show statusOfSave _ = _
  rw [hins]
  simp only [statusOfSave]
  rw [orString_of_ne_empty _ _ (append_ne_empty _ _ (by decide))]
  rfl

end FailedSaveFlow

/-- Witness for C20: the steel / medium / 10 form saved to a remote that answers the insert
with "Internal Server Error" (code 500). -/
theorem failed_save_reported_witness :
    (calculateQuoteAndStore (Real.logb 10)
        { (initialState : AppState ℝ) with formData := ⟨"Gear", "steel", "10", "medium", ""⟩ }
        (1 / 2) "2025-03-25T12:00:00.000Z" serverErrorRemote emptyStorage 1742900000000
        "2025-03-25T12:00:00.000Z").submitStatus
      = ⟨some "error", some "Failed to save quote: Internal Server Error"⟩ := by
  obtain ⟨b, hb, hall⟩ := failed_save_reported (Real.logb 10)
    { (initialState : AppState ℝ) with formData := ⟨"Gear", "steel", "10", "medium", ""⟩ }
    (1 / 2) "2025-03-25T12:00:00.000Z" serverErrorRemote emptyStorage 1742900000000
    "2025-03-25T12:00:00.000Z" (by decide)
  have he : (dbInsert (serverErrorRemote : Remote ℝ) emptyStorage 1742900000000
      "2025-03-25T12:00:00.000Z" "jobs" b.jobData).1.error
      = some ⟨some "500", some "Internal Server Error"⟩ := by
    rw [dbInsert_of_unclassified (serverErrorRemote : Remote ℝ) emptyStorage 1742900000000
      "2025-03-25T12:00:00.000Z" "jobs" b.jobData none
      ⟨some "500", some "Internal Server Error"⟩ "Internal Server Error" rfl rfl rfl
      (by decide)]
  rw [(hall _ he).2.2.2]
  decide

/-! ## Loading and re-saving the settings (C18) -/

/-- The material prices written by the handlers are read back as they were. -/
theorem pricesOfRecord_materialPrices {α : Type} (prices : List (String × α)) :
    pricesOfRecord (prices.map (fun kv => (kv.1, JsVal.num kv.2))) = some prices := by
  induction prices with
  | nil => rfl
  | cons hd tl ih =>
    obtain ⟨k, x⟩ := hd
    simp [pricesOfRecord, ih]

section SettingsLemmas

variable {α : Type} [LinearOrderedField α]

/-- Advanced options with a non-zero rush fee amount and margin are read back as they
were. -/
theorem loadAdvancedOptions_of_ne_zero (stored cfg : PricingConfig α)
    (hfee : stored.rushFeeAmount ≠ 0) (hmargin : stored.marginPercentage ≠ 0) :
    loadAdvancedOptions
      [("rushFeeEnabled", JsVal.bool stored.rushFeeEnabled),
       ("rushFeeAmount", JsVal.num stored.rushFeeAmount),
       ("marginPercentage", JsVal.num stored.marginPercentage)] cfg =
      { cfg with
        rushFeeEnabled := stored.rushFeeEnabled
        rushFeeAmount := stored.rushFeeAmount
        marginPercentage := stored.marginPercentage } := by
  simp [loadAdvancedOptions, getKey, List.lookup, hfee, hmargin]

/-- Settings whose stored rush fee amount and margin are not 0 are reproduced by loading
them and saving them again. -/
theorem resave_of_ne_zero (ls : LocalStorage α) (s : AppState α)
    (prices : List (String × α)) (cfg : PricingConfig α)
    (hget : ls.getItemThrows = false)
    (hprices : ls.items.lookup "materialPrices" = some (materialPricesJson prices))
    (hoptions : ls.items.lookup "advancedOptions" = some (advancedOptionsJson cfg))
    (hfee : cfg.rushFeeAmount ≠ 0) (hmargin : cfg.marginPercentage ≠ 0) :
    resavedSettings (loadSavedSettings ls s) =
      (materialPricesJson prices, advancedOptionsJson cfg) := by
  simp only [loadSavedSettings, hget, hprices, hoptions, materialPricesJson,
    pricesOfRecord_materialPrices, advancedOptionsJson, Bool.false_eq_true, if_false]
  rw [loadAdvancedOptions_of_ne_zero cfg _ hfee hmargin]
  rfl

end SettingsLemmas

theorem runEvents_rush_fee_zero :
    (runEvents [PricingEvent.rushFeeToggle true, PricingEvent.rushFeeInput "0"]
        (emptyStorage : LocalStorage ℝ)).2
      = ⟨[("advancedOptions", Stored.object
          [("rushFeeEnabled", JsVal.bool true), ("rushFeeAmount", JsVal.num 0),
           ("marginPercentage", JsVal.num 20)])], false, false⟩ := by
  have hparse : parseInt "0" = some 0 := by decide
  simp [runEvents, PricingEvent.run, PricingEvent.apply, PricingEvent.written, writeItem,
    emptyStorage, advancedOptionsJson, handleRushFeeToggle, rushFeeInputChange,
    handleRushFeeAmountChange, hparse, orZero, initialState, initialPricing, setKey]

/-- C18 (code defect). After the rush fee is switched on and its amount set to 0 through the
handlers, the stored advanced options hold `rushFeeAmount: 0`.  Loading them at startup
leaves `rushFeeAmount` at its initial value 50, because the load effect takes the amount
only when it is truthy, and saving the loaded options again writes 50: the stored JSON is
not reproduced. -/
theorem resave_changes_zero_rush_fee :
    (runEvents [PricingEvent.rushFeeToggle true, PricingEvent.rushFeeInput "0"]
        (emptyStorage : LocalStorage ℝ)).2.items.lookup "advancedOptions"
      = some (Stored.object
          [("rushFeeEnabled", JsVal.bool true), ("rushFeeAmount", JsVal.num 0),
           ("marginPercentage", JsVal.num 20)]) ∧
    (resavedSettings (loadSavedSettings
        (runEvents [PricingEvent.rushFeeToggle true, PricingEvent.rushFeeInput "0"]
          (emptyStorage : LocalStorage ℝ)).2 initialState)).2
      = Stored.object
          [("rushFeeEnabled", JsVal.bool true), ("rushFeeAmount", JsVal.num 50),
           ("marginPercentage", JsVal.num 20)] ∧
    some (resavedSettings (loadSavedSettings
        (runEvents [PricingEvent.rushFeeToggle true, PricingEvent.rushFeeInput "0"]
          (emptyStorage : LocalStorage ℝ)).2 initialState)).2
      ≠ (runEvents [PricingEvent.rushFeeToggle true, PricingEvent.rushFeeInput "0"]
        (emptyStorage : LocalStorage ℝ)).2.items.lookup "advancedOptions" := by
  rw [runEvents_rush_fee_zero]
  have hload : (resavedSettings (loadSavedSettings
      (⟨[("advancedOptions", Stored.object
          [("rushFeeEnabled", JsVal.bool true), ("rushFeeAmount", JsVal.num 0),
           ("marginPercentage", JsVal.num 20)])], false, false⟩ : LocalStorage ℝ)
      initialState)).2
      = Stored.object
          [("rushFeeEnabled", JsVal.bool true), ("rushFeeAmount", JsVal.num 50),
           ("marginPercentage", JsVal.num 20)] := by
    simp [resavedSettings, loadSavedSettings, loadAdvancedOptions, advancedOptionsJson,
      getKey, List.lookup, initialState, initialPricing]
  refine ⟨by simp [List.lookup], hload, ?_⟩
  rw [hload]
  simp [List.lookup]

/-! ## Total cost against quantity (C28) -/

/-- The complexity multiplier is positive for every label. -/
theorem complexityMultiplier_pos (label : String) :
    (0 : ℝ) < lookupOr complexityMultipliers label 1.5 := by
  rw [complexityMultiplier_eq]
  split_ifs <;> norm_num

/-- C28. For validated forms with the same material and complexity, a positive base price, a
positive random factor and a positive margin multiplier, a larger quantity gives a
strictly larger base cost and a strictly larger amount before rounding, so more units never
lower the total. -/
theorem baseCost_strictly_increasing (cfg : PricingConfig ℝ) (form₁ form₂ : FormData)
    (r : ℝ) (t₁ t₂ : String)
    (h₁ : (validateForm form₁).hasErrors = false) (h₂ : (validateForm form₂).hasErrors = false)
    (hmat : form₁.material = form₂.material) (hcx : form₁.complexity = form₂.complexity)
    (hprice : 0 < lookupOr cfg.materialPrices form₁.material 10)
    (hrandom : 0 < (0.9 : ℝ) + r * 0.2) (hmargin : 0 < 1 + cfg.marginPercentage / 100) :
    ∃ b₁ b₂ : QuoteBreakdown ℝ,
      calculateQuote (Real.logb 10) cfg form₁ r t₁ = Except.ok b₁ ∧
      calculateQuote (Real.logb 10) cfg form₂ r t₂ = Except.ok b₂ ∧
      1 ≤ b₁.quantity ∧ 1 ≤ b₂.quantity ∧
      (b₁.quantity < b₂.quantity →
        b₁.baseCost < b₂.baseCost ∧ b₁.calculatedAmount < b₂.calculatedAmount) ∧
      (b₁.quantity ≤ b₂.quantity →
        b₁.baseCost ≤ b₂.baseCost ∧ b₁.calculatedAmount ≤ b₂.calculatedAmount) := by
  obtain ⟨q₁, hq₁, hpos₁⟩ := parseInt_of_valid form₁ h₁
  obtain ⟨q₂, hq₂, hpos₂⟩ := parseInt_of_valid form₂ h₂
  have hq₁r : (0 : ℝ) < (q₁ : ℝ) := by exact_mod_cast hpos₁
  have hq₂r : (0 : ℝ) < (q₂ : ℝ) := by exact_mod_cast hpos₂
  have hc : (0 : ℝ) < lookupOr complexityMultipliers form₁.complexity 1.5 :=
    complexityMultiplier_pos _
  have hpc : (0 : ℝ) < lookupOr cfg.materialPrices form₁.material 10 *
      lookupOr complexityMultipliers form₁.complexity 1.5 := mul_pos hprice hc
  have hm₁ : (1 : ℝ) ≤ quantityMultiplierOf (Real.logb 10) q₁ := le_max_left _ _
  have hm₂ : (1 : ℝ) ≤ quantityMultiplierOf (Real.logb 10) q₂ := le_max_left _ _
  have hmono : q₁ ≤ q₂ →
      quantityMultiplierOf (Real.logb 10) q₁ ≤ quantityMultiplierOf (Real.logb 10) q₂ := by
    intro hle
    have hle' : (q₁ : ℝ) ≤ (q₂ : ℝ) := by exact_mod_cast hle
    have hlog : Real.logb 10 (q₁ : ℝ) ≤ Real.logb 10 (q₂ : ℝ) :=
      Real.logb_le_logb_of_le (by norm_num) hq₁r hle'
    rw [quantityMultiplierOf_of_pos q₁ hpos₁, quantityMultiplierOf_of_pos q₂ hpos₂]
    linarith
  have hrm : (0 : ℝ) < (0.9 + r * 0.2) * (1 + cfg.marginPercentage / 100) :=
    mul_pos hrandom hmargin
  have ea : ∀ (form : FormData) (q : Int) (t : String),
      (priceQuote (Real.logb 10) cfg form q r t).calculatedAmount =
        (priceQuote (Real.logb 10) cfg form q r t).baseCost *
            ((0.9 + r * 0.2) * (1 + cfg.marginPercentage / 100)) +
          (if cfg.rushFeeEnabled then cfg.rushFeeAmount else 0) := by
    intro form q t
    rw [priceQuote_calculatedAmount, priceQuote_baseCost]
    unfold quantityMultiplierOf
    ring
  have eb : ∀ (q : Int) (t : String),
      (priceQuote (Real.logb 10) cfg form₂ q r t).baseCost =
        lookupOr cfg.materialPrices form₁.material 10 *
          lookupOr complexityMultipliers form₁.complexity 1.5 *
          (quantityMultiplierOf (Real.logb 10) q * (q : ℝ)) := by
    intro q t
    rw [priceQuote_baseCost, ← hmat, ← hcx]
    ring
  have eb₁ : ∀ (q : Int) (t : String),
      (priceQuote (Real.logb 10) cfg form₁ q r t).baseCost =
        lookupOr cfg.materialPrices form₁.material 10 *
          lookupOr complexityMultipliers form₁.complexity 1.5 *
          (quantityMultiplierOf (Real.logb 10) q * (q : ℝ)) := by
    intro q t
    rw [priceQuote_baseCost]
    ring
  have hstrict : q₁ < q₂ →
      (priceQuote (Real.logb 10) cfg form₁ q₁ r t₁).baseCost <
        (priceQuote (Real.logb 10) cfg form₂ q₂ r t₂).baseCost := by
    intro hlt
    have hlt' : (q₁ : ℝ) < (q₂ : ℝ) := by exact_mod_cast hlt
    rw [eb₁, eb]
    have hprod : quantityMultiplierOf (Real.logb 10) q₁ * (q₁ : ℝ) <
        quantityMultiplierOf (Real.logb 10) q₂ * (q₂ : ℝ) :=
      calc quantityMultiplierOf (Real.logb 10) q₁ * (q₁ : ℝ)
          < quantityMultiplierOf (Real.logb 10) q₁ * (q₂ : ℝ) :=
            mul_lt_mul_of_pos_left hlt' (by linarith)
        _ ≤ quantityMultiplierOf (Real.logb 10) q₂ * (q₂ : ℝ) :=
            mul_le_mul_of_nonneg_right (hmono hlt.le) hq₂r.le
    exact mul_lt_mul_of_pos_left hprod hpc
  have hamount : ∀ x y : ℝ, x < y →
      x * ((0.9 + r * 0.2) * (1 + cfg.marginPercentage / 100)) +
          (if cfg.rushFeeEnabled then cfg.rushFeeAmount else 0) <
        y * ((0.9 + r * 0.2) * (1 + cfg.marginPercentage / 100)) +
          (if cfg.rushFeeEnabled then cfg.rushFeeAmount else 0) := by
    intro x y hxy
    have := mul_lt_mul_of_pos_right hxy hrm
    linarith
  have hboth : q₁ < q₂ →
      (priceQuote (Real.logb 10) cfg form₁ q₁ r t₁).baseCost <
          (priceQuote (Real.logb 10) cfg form₂ q₂ r t₂).baseCost ∧
        (priceQuote (Real.logb 10) cfg form₁ q₁ r t₁).calculatedAmount <
          (priceQuote (Real.logb 10) cfg form₂ q₂ r t₂).calculatedAmount := by
    intro hlt
    refine ⟨hstrict hlt, ?_⟩
    rw [ea, ea]
    exact hamount _ _ (hstrict hlt)
  refine ⟨_, _, calculateQuote_of_valid _ cfg form₁ r t₁ q₁ h₁ hq₁,
    calculateQuote_of_valid _ cfg form₂ r t₂ q₂ h₂ hq₂, hpos₁, hpos₂, hboth, ?_⟩
  intro hle
  rcases lt_or_eq_of_le hle with hlt | heq
  · exact ⟨(hboth hlt).1.le, (hboth hlt).2.le⟩
  · have heq' : q₁ = q₂ := heq
    have hb : (priceQuote (Real.logb 10) cfg form₁ q₁ r t₁).baseCost =
        (priceQuote (Real.logb 10) cfg form₂ q₂ r t₂).baseCost := by
      rw [eb₁, eb, heq']
    refine ⟨hb.le, ?_⟩
    rw [ea, ea, hb]

/-- Witness for C28: steel, medium complexity, quantities 1 and 10 with the initial
pricing. -/
theorem baseCost_strictly_increasing_witness :
    (validateForm ⟨"Gear", "steel", "1", "medium", ""⟩).hasErrors = false ∧
    (validateForm ⟨"Gear", "steel", "10", "medium", ""⟩).hasErrors = false ∧
    (0 : ℝ) < lookupOr (initialPricing : PricingConfig ℝ).materialPrices "steel" 10 ∧
    (0 : ℝ) < 0.9 + (1 / 2 : ℝ) * 0.2 ∧
    (0 : ℝ) < 1 + (initialPricing : PricingConfig ℝ).marginPercentage / 100 ∧
    ∃ b₁ b₂ : QuoteBreakdown ℝ,
      calculateQuote (Real.logb 10) initialPricing ⟨"Gear", "steel", "1", "medium", ""⟩
        (1 / 2) "2025-03-25T12:00:00.000Z" = Except.ok b₁ ∧
      calculateQuote (Real.logb 10) initialPricing ⟨"Gear", "steel", "10", "medium", ""⟩
        (1 / 2) "2025-03-25T12:00:00.000Z" = Except.ok b₂ ∧
      1 ≤ b₁.quantity ∧ 1 ≤ b₂.quantity ∧
      (b₁.quantity < b₂.quantity →
        b₁.baseCost < b₂.baseCost ∧ b₁.calculatedAmount < b₂.calculatedAmount) ∧
      (b₁.quantity ≤ b₂.quantity →
        b₁.baseCost ≤ b₂.baseCost ∧ b₁.calculatedAmount ≤ b₂.calculatedAmount) := by
  have hprice : (0 : ℝ) < lookupOr (initialPricing : PricingConfig ℝ).materialPrices "steel" 10 := by
    show (0 : ℝ) < lookupOr (defaultMaterialPrices : List (String × ℝ)) "steel" 10
    rw [lookupOr_steel_default]
    norm_num
  have hrandom : (0 : ℝ) < 0.9 + (1 / 2 : ℝ) * 0.2 := by norm_num
  have hmargin : (0 : ℝ) < 1 + (initialPricing : PricingConfig ℝ).marginPercentage / 100 := by
    show (0 : ℝ) < 1 + 20 / 100
    norm_num
  exact ⟨by decide, by decide, hprice, hrandom, hmargin,
    baseCost_strictly_increasing initialPricing ⟨"Gear", "steel", "1", "medium", ""⟩
      ⟨"Gear", "steel", "10", "medium", ""⟩ (1 / 2) "2025-03-25T12:00:00.000Z"
      "2025-03-25T12:00:00.000Z" (by decide) (by decide) rfl rfl hprice hrandom hmargin⟩

/-! ## Recorded rush fee and quote (C27) -/

section Recorded

variable {α : Type} [LinearOrderedField α] [FloorRing α]

/-- A whole number of hundredths is left unchanged by `toFixed(2)`, whatever its size. -/
theorem toFixed2_of_hundredths (n : ℤ) : toFixed2 ((n : α) / 100) = (n : α) / 100 := by
  by_cases h : |(n : α) / 100| < 10 ^ 21
  · exact toFixed2_hundredths n h
  · have h' : (10 : α) ^ 21 ≤ |(n : α) / 100| := not_lt.1 h
    unfold toFixed2 toFixed2Abs
    split_ifs with hneg hbig hbig
    · ring
    · rw [abs_of_neg hneg] at h'
      exact absurd h' hbig
    · rfl
    · rw [abs_of_nonneg (not_lt.1 hneg)] at h'
      exact absurd h' hbig

/-- The value of `parseFloat(x.toFixed(2))` is `x` itself or a whole number of hundredths. -/
theorem toFixed2_eq_or (x : α) : toFixed2 x = x ∨ ∃ n : ℤ, toFixed2 x = (n : α) / 100 := by
  unfold toFixed2 toFixed2Abs
  split_ifs with hneg hbig hbig
  · left
    ring
  · right
    refine ⟨-⌊100 * -x + 1 / 2⌋, ?_⟩
    push_cast
    ring
  · left
    rfl
  · right
    exact ⟨⌊100 * x + 1 / 2⌋, rfl⟩

/-- Rounding to two decimals a second time changes nothing. -/
theorem toFixed2_idem (x : α) : toFixed2 (toFixed2 x) = toFixed2 x := by
  rcases toFixed2_eq_or x with h | ⟨n, hn⟩
  · rw [h]
    exact h
  · rw [hn, toFixed2_of_hundredths]

theorem priceQuote_rushFee (log10 : α → α) (cfg : PricingConfig α) (form : FormData)
    (q : Int) (random : α) (createdAt : String) :
    (priceQuote log10 cfg form q random createdAt).rushFee =
      if cfg.rushFeeEnabled then cfg.rushFeeAmount else 0 := rfl

theorem priceQuote_amount_parts (log10 : α → α) (cfg : PricingConfig α) (form : FormData)
    (q : Int) (random : α) (createdAt : String) :
    (priceQuote log10 cfg form q random createdAt).calculatedAmount =
      (priceQuote log10 cfg form q random createdAt).baseCost *
          (priceQuote log10 cfg form q random createdAt).randomFactor *
          (priceQuote log10 cfg form q random createdAt).marginMultiplier +
        (priceQuote log10 cfg form q random createdAt).rushFee := by
  simp only [priceQuote]
  cases cfg.rushFeeEnabled <;> simp

end Recorded

section RecordedClaim

variable {α : Type} [LinearOrderedField α] [FloorRing α]

/-- C27. For every validated form `calculateQuote` builds a breakdown and a job record in
which the rush fee is the amount added to the quote: the job's `rush_fee_amount` is the
breakdown's rush fee, which is the configured `rushFeeAmount` if `rushFeeEnabled` and 0
otherwise, and the amount before rounding is base cost × random factor × margin multiplier
plus that fee.  The job's `quote` is the breakdown's final quote, which is also the quote
put on display, and the two-decimal renderings in `details` show the final quote unchanged
and the rush fee unchanged whenever it is a whole number of hundredths. -/
theorem recorded_rush_fee_and_quote (log10 : α → α) (s : AppState α) (random : α)
    (createdAt : String) (h : (validateForm s.formData).hasErrors = false) :
    ∃ b : QuoteBreakdown α,
      calculateQuote log10 s.pricing s.formData random createdAt = Except.ok b ∧
      getKey b.jobData "rush_fee_amount" = JsVal.num b.rushFee ∧
      b.rushFee = (if s.pricing.rushFeeEnabled then s.pricing.rushFeeAmount else 0) ∧
      b.calculatedAmount = b.baseCost * b.randomFactor * b.marginMultiplier + b.rushFee ∧
      getKey b.jobData "quote" = JsVal.num b.finalQuote ∧
      (calculateQuoteClick log10 s random createdAt).quote = some b.finalQuote ∧
      (calculateQuoteClick log10 s random createdAt).priceDetails = some b ∧
      (detailsAmounts b).2 = b.finalQuote ∧
      ((∃ n : ℤ, s.pricing.rushFeeAmount = (n : α) / 100) → (detailsAmounts b).1 = b.rushFee) := by
  obtain ⟨q, hq, _⟩ := parseInt_of_valid s.formData h
  have hok := calculateQuote_of_valid log10 s.pricing s.formData random createdAt q h hq
  refine ⟨_, hok, ?_, rfl, priceQuote_amount_parts _ _ _ _ _ _, rfl, ?_, ?_, ?_, ?_⟩
  · rw [priceQuote_jobData, getKey_jobData_rush_fee_amount]
    rfl
  · rw [calculateQuoteClick_of_ok log10 s random createdAt _ hok]
  · simp [calculateQuoteClick, hok]
  · show toFixed2 (priceQuote log10 s.pricing s.formData q random createdAt).finalQuote = _
    rw [priceQuote_finalQuote, toFixed2_idem]
  · rintro ⟨n, hn⟩
    show toFixed2 (priceQuote log10 s.pricing s.formData q random createdAt).rushFee = _
    rw [priceQuote_rushFee]
    cases s.pricing.rushFeeEnabled
    · have h0 : (0 : α) = ((0 : ℤ) : α) / 100 := by simp
      simp only [Bool.false_eq_true, ↓reduceIte]
      rw [h0, toFixed2_of_hundredths]
    · simp only [↓reduceIte]
      rw [hn, toFixed2_of_hundredths]

end RecordedClaim

/-- Witness for C27: the steel / medium / 10 form with the rush fee switched on. -/
theorem recorded_rush_fee_and_quote_witness :
    (validateForm (rushOrderState : AppState ℝ).formData).hasErrors = false ∧
    ∃ b : QuoteBreakdown ℝ,
      calculateQuote (Real.logb 10) (rushOrderState : AppState ℝ).pricing
        (rushOrderState : AppState ℝ).formData (1 / 2) "2025-03-25T12:00:00.000Z" =
          Except.ok b ∧
      getKey b.jobData "rush_fee_amount" = JsVal.num b.rushFee ∧
      b.rushFee = (if (rushOrderState : AppState ℝ).pricing.rushFeeEnabled then
        (rushOrderState : AppState ℝ).pricing.rushFeeAmount else 0) ∧
      b.calculatedAmount = b.baseCost * b.randomFactor * b.marginMultiplier + b.rushFee ∧
      getKey b.jobData "quote" = JsVal.num b.finalQuote ∧
      (calculateQuoteClick (Real.logb 10) rushOrderState (1 / 2)
        "2025-03-25T12:00:00.000Z").quote = some b.finalQuote ∧
      (calculateQuoteClick (Real.logb 10) rushOrderState (1 / 2)
        "2025-03-25T12:00:00.000Z").priceDetails = some b ∧
      (detailsAmounts b).2 = b.finalQuote ∧
      ((∃ n : ℤ, (rushOrderState : AppState ℝ).pricing.rushFeeAmount = (n : ℝ) / 100) →
        (detailsAmounts b).1 = b.rushFee) :=
  ⟨by decide,
   recorded_rush_fee_and_quote (Real.logb 10) rushOrderState (1 / 2)
     "2025-03-25T12:00:00.000Z" (by decide)⟩

/-! ## Failure of the local save (C25) -/

/-- The stored value does not give an array exactly when it is an object or another text
that is not a JSON array. -/
theorem readExisting_eq_none_iff {α : Type} (ls : LocalStorage α) (table : String) :
    readExisting ls table = none ↔
      (∃ fields, ls.items.lookup table = some (Stored.object fields)) ∨
        ls.items.lookup table = some Stored.other := by
  unfold readExisting
  cases hl : ls.items.lookup table with
  | none => simp
  | some stored => cases stored <;> simp

section LocalSaveFailure

variable {α : Type} [LinearOrderedField α]

/-- C25. When the local save fails, because reading the storage throws, the value stored
under the table name is not a JSON array, or the write throws, `_saveToLocalStorage` returns
(it does not throw) with `data` null, `demoMode` true and the error message
"Failed to save data even in fallback mode", and the storage is unchanged. -/
theorem saveToLocalStorage_failure (ls : LocalStorage α) (now : α) (nowIso table : String)
    (data : Record α) (message : String)
    (hfail : ls.getItemThrows = true ∨
      ((∃ fields, ls.items.lookup table = some (Stored.object fields)) ∨
        ls.items.lookup table = some Stored.other) ∨
      ls.setItemThrows = true) :
    ∃ result : InsertResult α,
      saveToLocalStorageOutcome ls now nowIso table data message =
        Outcome.returned (result, ls) ∧
      result.data = none ∧ result.demoMode = true ∧
      result.error = some ⟨none, some "Failed to save data even in fallback mode"⟩ ∧
      result.message = none := by
  refine ⟨saveFailure, ?_, rfl, rfl, rfl, rfl⟩
  rw [saveToLocalStorageOutcome_eq]
  congr 1
  unfold saveToLocalStorage
  rcases hfail with hg | hr | hs
  · rw [if_pos hg]
  · rw [(readExisting_eq_none_iff ls table).2 hr]
    split_ifs <;> rfl
  · split_ifs
    · rfl
    · cases readExisting ls table <;> rfl

end LocalSaveFailure

/-- Witness for C25: the value stored under `jobs` is not a JSON array. -/
theorem saveToLocalStorage_failure_witness :
    ((corruptStorage : LocalStorage ℝ).getItemThrows = true ∨
      ((∃ fields, (corruptStorage : LocalStorage ℝ).items.lookup "jobs" =
          some (Stored.object fields)) ∨
        (corruptStorage : LocalStorage ℝ).items.lookup "jobs" = some Stored.other) ∨
      (corruptStorage : LocalStorage ℝ).setItemThrows = true) ∧
    ∃ result : InsertResult ℝ,
      saveToLocalStorageOutcome corruptStorage 1742904000000 "2025-03-25T12:00:00.000Z" "jobs"
          [("part_type", JsVal.str "Gear")] defaultSaveMessage =
        Outcome.returned (result, corruptStorage) ∧
      result.data = none ∧ result.demoMode = true ∧
      result.error = some ⟨none, some "Failed to save data even in fallback mode"⟩ ∧
      result.message = none :=
  ⟨Or.inr (Or.inl (Or.inr rfl)),
   saveToLocalStorage_failure corruptStorage 1742904000000 "2025-03-25T12:00:00.000Z" "jobs"
     [("part_type", JsVal.str "Gear")] defaultSaveMessage (Or.inr (Or.inl (Or.inr rfl)))⟩

/-! ## The connection probe (C26) -/

section Probe

variable {α : Type} [LinearOrderedField α]

/-- The insert of `db.insert` once the connection check has reported a connection: the
result depends on the remote only through the response of the insert. -/
theorem dbInsert_of_connected (remote other : Remote α) (ls : LocalStorage α) (now : α)
    (nowIso table : String) (data : Record α)
    (hconn : (checkSupabaseConnection remote).isConnected = true)
    (hother : (checkSupabaseConnection other).isConnected = true)
    (hins : remote.insert = other.insert) :
    dbInsert remote ls now nowIso table data = dbInsert other ls now nowIso table data := by
  unfold dbInsert
  rw [hconn, hother, hins]

/-- C26. The function `checkSupabaseConnection` always returns, and it reports
`isConnected = true` exactly when (a) the jobs probe returns no error, or (b) the jobs probe
fails with code 42P01, or (c) the jobs probe fails otherwise and the system-table probe
returns no error or fails with code 42501 or with a message containing "permission denied".
In case (b) the jobs error is returned with it; whenever it reports `isConnected = false`
there is an error, which is the thrown exception when a probe throws.  With a jobs probe
that fails with code 42P01, `db.insert` goes on to the remote insert exactly as with a
probe without error, and returns the inserted rows when the insert is accepted. -/
theorem checkSupabaseConnection_connected_iff (remote : Remote α) :
    checkSupabaseConnectionOutcome remote =
      Outcome.returned (checkSupabaseConnection remote) ∧
    ((checkSupabaseConnection remote).isConnected = true ↔
      remote.jobsProbe = Outcome.returned none ∨
      (∃ e, remote.jobsProbe = Outcome.returned (some e) ∧ e.code = some "42P01") ∨
      (∃ e, remote.jobsProbe = Outcome.returned (some e) ∧ e.code ≠ some "42P01" ∧
        (remote.systemProbe = Outcome.returned none ∨
          ∃ e₂, remote.systemProbe = Outcome.returned (some e₂) ∧
            (e₂.code = some "42501" ∨
              ∃ msg, e₂.message = some msg ∧ includes msg "permission denied" = true)))) ∧
    (∀ e, remote.jobsProbe = Outcome.returned (some e) → e.code = some "42P01" →
      checkSupabaseConnection remote = ⟨true, some e⟩) ∧
    ((checkSupabaseConnection remote).isConnected = false →
      ∃ err, (checkSupabaseConnection remote).error = some err) ∧
    (∀ err, remote.jobsProbe = Outcome.threw err →
      checkSupabaseConnection remote = ⟨false, some err⟩) ∧
    (∀ e err, remote.jobsProbe = Outcome.returned (some e) → e.code ≠ some "42P01" →
      remote.systemProbe = Outcome.threw err →
      checkSupabaseConnection remote = ⟨false, some err⟩) ∧
    (∀ e, remote.jobsProbe = Outcome.returned (some e) → e.code = some "42P01" →
      ∀ (ls : LocalStorage α) (now : α) (nowIso table : String) (data : Record α),
        dbInsert remote ls now nowIso table data =
            dbInsert { remote with jobsProbe := Outcome.returned none } ls now nowIso table
              data ∧
          ∀ rows, remote.insert = Outcome.returned ⟨rows, none⟩ →
            dbInsert remote ls now nowIso table data = (⟨rows, none, false, none⟩, ls)) := by
  have hB : ∀ e, remote.jobsProbe = Outcome.returned (some e) → e.code = some "42P01" →
      checkSupabaseConnection remote = ⟨true, some e⟩ := by
    intro e he hc
    simp [checkSupabaseConnection, he, hc]
  refine ⟨checkSupabaseConnectionOutcome_eq remote, ?_, hB, ?_, ?_, ?_, ?_⟩
  · obtain ⟨jobsProbe, systemProbe, insert⟩ := remote
    cases jobsProbe with
    | threw err => simp [checkSupabaseConnection]
    | returned jobsError =>
      cases jobsError with
      | none => simp [checkSupabaseConnection]
      | some e =>
        by_cases hc : e.code = some "42P01"
        · simp [checkSupabaseConnection, hc]
        · cases systemProbe with
          | threw err => simp [checkSupabaseConnection, hc]
          | returned error =>
            cases error with
            | none => simp [checkSupabaseConnection, hc]
            | some e₂ =>
              by_cases hc₂ : e₂.code = some "42501"
              · simp [checkSupabaseConnection, hc, hc₂]
              · cases hm : e₂.message with
                | none => simp [checkSupabaseConnection, hc, hc₂, hm]
                | some msg =>
                  by_cases hi : includes msg "permission denied" = true
                  · simp [checkSupabaseConnection, hc, hc₂, hm, hi]
                  · simp [checkSupabaseConnection, hc, hc₂, hm, hi]
  · obtain ⟨jobsProbe, systemProbe, insert⟩ := remote
    cases jobsProbe with
    | threw err => simp [checkSupabaseConnection]
    | returned jobsError =>
      cases jobsError with
      | none => simp [checkSupabaseConnection]
      | some e =>
        by_cases hc : e.code = some "42P01"
        · simp [checkSupabaseConnection, hc]
        · cases systemProbe with
          | threw err => simp [checkSupabaseConnection, hc]
          | returned error =>
            cases error with
            | none => simp [checkSupabaseConnection, hc]
            | some e₂ =>
              by_cases hc₂ : e₂.code = some "42501"
              · simp [checkSupabaseConnection, hc, hc₂]
              · cases hm : e₂.message with
                | none => simp [checkSupabaseConnection, hc, hc₂, hm]
                | some msg =>
                  by_cases hi : includes msg "permission denied" = true
                  · simp [checkSupabaseConnection, hc, hc₂, hm, hi]
                  · simp [checkSupabaseConnection, hc, hc₂, hm, hi]
  · intro err he
    simp [checkSupabaseConnection, he]
  · intro e err he hc hs
    simp [checkSupabaseConnection, he, hc, hs]
  · intro e he hc ls now nowIso table data
    have hconn : (checkSupabaseConnection remote).isConnected = true := by
      rw [hB e he hc]
    refine ⟨dbInsert_of_connected remote _ ls now nowIso table data hconn rfl rfl, ?_⟩
    intro rows hins
    exact dbInsert_of_no_error remote ls now nowIso table data rows hconn hins

end Probe

/-! ## Edit and reset of the material prices (C29, C21) -/

/-- A write that does not throw leaves the value under its key. -/
theorem lookup_writeItem {α : Type} (ls : LocalStorage α) (key : String) (value : Stored α)
    (h : ls.setItemThrows = false) :
    (writeItem ls key value).items.lookup key = some value := by
  unfold writeItem
  rw [h]
  exact lookup_setKey_self ls.items key value

section PriceEdit

variable {α : Type} [LinearOrderedField α]

/-- The customized flag is set exactly when some price differs from its default. -/
theorem isCustomized_iff (prices : List (String × α)) :
    isCustomized prices = true ↔
      ∃ kv ∈ prices, prices.lookup kv.1 ≠ defaultMaterialPrices.lookup kv.1 := by
  simp [isCustomized, List.any_eq_true]

/-- C29. The handler `handleMaterialPriceChange(material, value)` sets the price of
`material` to the parsed number, or to 0 when the text does not parse, and leaves the price
of every other material and the other pricing options unchanged; it passes the updated map
to `localStorage.setItem` under `materialPrices`, where it is found afterwards unless the
write throws; and it sets the customized flag to true exactly when some price of the
updated map differs from the default of its material. -/
theorem handleMaterialPriceChange_frame (s : AppState α) (ls : LocalStorage α)
    (material value : String) :
    (PricingEvent.run (s, ls) (PricingEvent.materialPrice material value)).1 =
      handleMaterialPriceChange s material value ∧
    (handleMaterialPriceChange s material value).pricing.materialPrices.lookup material =
      some (orZero (parseFloat value)) ∧
    (∀ v : α, parseFloat value = some v →
      (handleMaterialPriceChange s material value).pricing.materialPrices.lookup material =
        some v) ∧
    ((parseFloat value : Option α) = none →
      (handleMaterialPriceChange s material value).pricing.materialPrices.lookup material =
        some 0) ∧
    (∀ k, k ≠ material →
      (handleMaterialPriceChange s material value).pricing.materialPrices.lookup k =
        s.pricing.materialPrices.lookup k) ∧
    (handleMaterialPriceChange s material value).pricing.rushFeeEnabled =
      s.pricing.rushFeeEnabled ∧
    (handleMaterialPriceChange s material value).pricing.rushFeeAmount =
      s.pricing.rushFeeAmount ∧
    (handleMaterialPriceChange s material value).pricing.marginPercentage =
      s.pricing.marginPercentage ∧
    (handleMaterialPriceChange s material value).formData = s.formData ∧
    (handleMaterialPriceChange s material value).quote = s.quote ∧
    (PricingEvent.run (s, ls) (PricingEvent.materialPrice material value)).2 =
      writeItem ls "materialPrices"
        (materialPricesJson (handleMaterialPriceChange s material value).pricing.materialPrices) ∧
    (ls.setItemThrows = false →
      (PricingEvent.run (s, ls) (PricingEvent.materialPrice material value)).2.items.lookup
          "materialPrices" =
        some (materialPricesJson
          (handleMaterialPriceChange s material value).pricing.materialPrices)) ∧
    ((handleMaterialPriceChange s material value).pricesCustomized = true ↔
      ∃ kv ∈ (handleMaterialPriceChange s material value).pricing.materialPrices,
        (handleMaterialPriceChange s material value).pricing.materialPrices.lookup kv.1 ≠
          defaultMaterialPrices.lookup kv.1) := by
  have hself : (handleMaterialPriceChange s material value).pricing.materialPrices.lookup
      material = some (orZero (parseFloat value)) :=
    lookup_setKey_self s.pricing.materialPrices material _
  refine ⟨rfl, hself, ?_, ?_, ?_, rfl, rfl, rfl, rfl, rfl, rfl, ?_, ?_⟩
  · intro v hv
    rw [hself, hv]
    rfl
  · intro hv
    rw [hself, hv]
    rfl
  · intro k hk
    exact lookup_setKey_of_ne s.pricing.materialPrices material k _ hk
  · intro h
    exact lookup_writeItem ls _ _ h
  · exact isCustomized_iff _

/-- C21. The initial pricing configuration is aluminum 10, steel 15, plastic 5 and
titanium 50, margin 20 and the rush fee off; and from every state `resetMaterialPrices`
sets the material prices to exactly those four, sets the customized flag to false, leaves
the other pricing options unchanged, and passes the defaults to `localStorage.setItem`
under `materialPrices`, where they are found afterwards unless the write throws. -/
theorem resetMaterialPrices_restores_defaults (s : AppState α) (ls : LocalStorage α) :
    (initialState : AppState α).pricing.materialPrices =
      [("aluminum", 10), ("steel", 15), ("plastic", 5), ("titanium", 50)] ∧
    (initialState : AppState α).pricing.marginPercentage = 20 ∧
    (initialState : AppState α).pricing.rushFeeEnabled = false ∧
    (initialState : AppState α).pricesCustomized = false ∧
    (resetMaterialPricesRun (s, ls)).1.pricing.materialPrices =
      [("aluminum", 10), ("steel", 15), ("plastic", 5), ("titanium", 50)] ∧
    (resetMaterialPricesRun (s, ls)).1.pricesCustomized = false ∧
    isCustomized (resetMaterialPricesRun (s, ls)).1.pricing.materialPrices = false ∧
    (resetMaterialPricesRun (s, ls)).1.pricing.rushFeeEnabled = s.pricing.rushFeeEnabled ∧
    (resetMaterialPricesRun (s, ls)).1.pricing.rushFeeAmount = s.pricing.rushFeeAmount ∧
    (resetMaterialPricesRun (s, ls)).1.pricing.marginPercentage =
      s.pricing.marginPercentage ∧
    (resetMaterialPricesRun (s, ls)).2 =
      writeItem ls "materialPrices"
        (materialPricesJson [("aluminum", 10), ("steel", 15), ("plastic", 5), ("titanium", 50)]) ∧
    (ls.setItemThrows = false →
      (resetMaterialPricesRun (s, ls)).2.items.lookup "materialPrices" =
        some (materialPricesJson
          [("aluminum", 10), ("steel", 15), ("plastic", 5), ("titanium", 50)])) := by
  refine ⟨rfl, rfl, rfl, rfl, rfl, rfl, ?_, rfl, rfl, rfl, rfl, ?_⟩
  · rw [Bool.eq_false_iff]
    intro hc
    obtain ⟨kv, hmem, hne⟩ := (isCustomized_iff _).1 hc
    exact hne rfl
  · intro h
    exact lookup_writeItem ls _ _ h

end PriceEdit

/-! ## Fields of the job record and columns of the table (C24) -/

/-- The fields of the job record, in the order of the object literal. -/
theorem buildJobData_keys {α : Type} [LinearOrderedField α] (cfg : PricingConfig α)
    (form : FormData) (quantity : Int) (finalQuote : α) (createdAt : String) :
    (buildJobData cfg form quantity finalQuote createdAt).map Prod.fst =
      ["part_type", "material", "quantity", "complexity", "deadline", "quote",
       "created_at", "rush_fee_enabled", "rush_fee_amount", "margin_percentage"] := rfl

/-- C24 fails on the code: the job record that `calculateQuote` builds (here for the steel /
medium / 10 form) has the fields `rush_fee_enabled`, `rush_fee_amount` and
`margin_percentage`, which are not columns of the table created by `setup_database.js`, and
the field `quote`, which is not a column of the table created by `initializeDatabase` (it
creates `quote_amount`); every field is in the column list that `createJobsTable` prints. -/
theorem jobData_fields_missing_from_created_tables :
    ∃ b : QuoteBreakdown ℝ,
      calculateQuote (Real.logb 10) (rushOrderState : AppState ℝ).pricing
        (rushOrderState : AppState ℝ).formData (1 / 2) "2025-03-25T12:00:00.000Z" =
          Except.ok b ∧
      b.jobData.map Prod.fst =
        ["part_type", "material", "quantity", "complexity", "deadline", "quote",
         "created_at", "rush_fee_enabled", "rush_fee_amount", "margin_percentage"] ∧
      "rush_fee_enabled" ∈ b.jobData.map Prod.fst ∧
      "rush_fee_enabled" ∉ setupDatabaseColumns ∧
      "rush_fee_amount" ∈ b.jobData.map Prod.fst ∧
      "rush_fee_amount" ∉ setupDatabaseColumns ∧
      "margin_percentage" ∈ b.jobData.map Prod.fst ∧
      "margin_percentage" ∉ setupDatabaseColumns ∧
      "quote" ∈ b.jobData.map Prod.fst ∧
      "quote" ∉ initializeDatabaseColumns ∧
      (∀ key ∈ b.jobData.map Prod.fst, key ∈ documentedColumns) := by
  have hq : parseInt (rushOrderState : AppState ℝ).formData.quantity = some 10 := by
    show parseInt "10" = some 10
    decide
  have hok := calculateQuote_of_valid (Real.logb 10) (rushOrderState : AppState ℝ).pricing
    (rushOrderState : AppState ℝ).formData (1 / 2) "2025-03-25T12:00:00.000Z" 10
    (by decide) hq
  refine ⟨_, hok, ?_⟩
  rw [priceQuote_jobData, buildJobData_keys]
  refine ⟨rfl, ?_, ?_, ?_, ?_, ?_, ?_, ?_, ?_, ?_⟩ <;> decide

/-! ## Failed jobs queries and the AI suggestion (C22) -/

theorem fetchJobsOutcome_eq {α : Type} (s : JobsState α) (query : Outcome (QueryResponse α)) :
    fetchJobsOutcome s query = Outcome.returned (fetchJobs s query) := by
  unfold fetchJobsOutcome fetchJobs
  cases query with
  | threw err => rfl
  | returned response =>
    obtain ⟨data, error⟩ := response
    cases error <;> rfl

theorem fetchSimilarJobsOutcome_eq {α : Type} (query : Outcome (QueryResponse α)) :
    fetchSimilarJobsOutcome query = Outcome.returned (fetchSimilarJobs query) := by
  unfold fetchSimilarJobsOutcome fetchSimilarJobs
  cases query with
  | threw err => rfl
  | returned response =>
    obtain ⟨data, error⟩ := response
    cases error <;> rfl

/-- The result of `fetchSimilarJobs` for a failed query. -/
theorem fetchSimilarJobs_of_failure {α : Type} (query : Outcome (QueryResponse α)) (err : JsError)
    (hfail : query = Outcome.threw err ∨ ∃ data, query = Outcome.returned ⟨data, some err⟩) :
    fetchSimilarJobs query = ⟨false, some err, []⟩ := by
  rcases hfail with h | ⟨data, h⟩ <;> rw [h] <;> rfl

/-- The result of `fetchSimilarJobs` for a query without error. -/
theorem fetchSimilarJobs_of_data {α : Type} (data : Option (List (Record α))) :
    fetchSimilarJobs (Outcome.returned ⟨data, none⟩) = ⟨true, none, data.getD []⟩ := rfl

section QueryLemmas

variable {α : Type} [LinearOrderedField α] [FloorRing α]

/-- The function `getAiQuoteSuggestion` always returns: every exception is caught. -/
theorem getAiQuoteSuggestionOutcome_eq (log10 : α → α) (form : FormData)
    (similar : Outcome (QueryResponse α)) (chat : Outcome String) (random₁ random₂ : α) :
    getAiQuoteSuggestionOutcome log10 form similar chat random₁ random₂ =
      Outcome.returned (getAiQuoteSuggestion log10 form similar chat random₁ random₂) := by
  unfold getAiQuoteSuggestionOutcome getAiQuoteSuggestion
  rw [fetchSimilarJobsOutcome_eq]
  by_cases hv : (validateForm form).hasErrors = true
  · rw [if_pos hv, if_pos hv]
  · rw [if_neg hv, if_neg hv, bind_returned]
    by_cases hs : (fetchSimilarJobs similar).success = false
    · rw [if_pos hs, if_pos hs]
      cases (fetchSimilarJobs similar).error <;> rfl
    · rw [if_neg hs, if_neg hs]
      cases chat with
      | threw err => rfl
      | returned aiSuggestion =>
        by_cases he : aiSuggestion = ""
        · simp [he, bind_returned, tryCatch_returned, tryCatch_threw]
        · simp [he, bind_returned, tryCatch_returned]

end QueryLemmas

/-- C22 as stated fails: for a valid form and a chat completion that answers "$975.00", a
similar-jobs query that throws ends the AI suggestion with the error "Failed to fetch
similar jobs for AI comparison: Failed to fetch" and no suggestion, and so does a query
that returns an error, whereas with an empty list of similar jobs the suggestion "$975.00"
is shown. -/
theorem aiSuggestion_stops_on_failed_query :
    getAiQuoteSuggestion (Real.logb 10) ⟨"Gear", "steel", "10", "medium", ""⟩
        (Outcome.threw ⟨none, some "Failed to fetch"⟩) (Outcome.returned "$975.00")
        (1 / 2) (1 / 2) =
      ⟨none, some "Failed to fetch similar jobs for AI comparison: Failed to fetch", false,
        ValidationErrors.empty⟩ ∧
    getAiQuoteSuggestion (Real.logb 10) ⟨"Gear", "steel", "10", "medium", ""⟩
        (Outcome.returned ⟨none, some ⟨some "500", some "Internal Server Error"⟩⟩)
        (Outcome.returned "$975.00") (1 / 2) (1 / 2) =
      ⟨none, some "Failed to fetch similar jobs for AI comparison: Internal Server Error",
        false, ValidationErrors.empty⟩ ∧
    getAiQuoteSuggestion (Real.logb 10) ⟨"Gear", "steel", "10", "medium", ""⟩
        (Outcome.returned ⟨some [], none⟩) (Outcome.returned "$975.00") (1 / 2) (1 / 2) =
      ⟨some (Suggestion.reply "$975.00"), none, false, ValidationErrors.empty⟩ := by
  have hv : (validateForm ⟨"Gear", "steel", "10", "medium", ""⟩).hasErrors = false := by
    decide
  refine ⟨?_, ?_, ?_⟩
  · unfold getAiQuoteSuggestion
    rw [hv, fetchSimilarJobs_of_failure _ ⟨none, some "Failed to fetch"⟩ (Or.inl rfl)]
    simp only [Bool.false_eq_true, ↓reduceIte]
    unfold similarJobsFailure
    congr 2
  · unfold getAiQuoteSuggestion
    rw [hv, fetchSimilarJobs_of_failure _ ⟨some "500", some "Internal Server Error"⟩
      (Or.inr ⟨none, rfl⟩)]
    simp only [Bool.false_eq_true, ↓reduceIte]
    unfold similarJobsFailure
    congr 2
  · unfold getAiQuoteSuggestion
    rw [hv, fetchSimilarJobs_of_data]
    simp only [Bool.false_eq_true, ↓reduceIte]
    exact if_neg (by decide)

section QueryFailure

variable {α : Type} [LinearOrderedField α] [FloorRing α]

/-- C22, amended. For every failure of a jobs query (a thrown exception or an error result)
no caller raises an exception: `fetchJobs` leaves the jobs list empty and records the
message of the error, `fetchSimilarJobs` returns an empty list marked unsuccessful, and for
a valid form `getAiQuoteSuggestion` then stops with the error "Failed to fetch similar jobs
for AI comparison: " followed by the message, and shows no suggestion. -/
theorem failed_jobs_query_handled (log10 : α → α) (s : JobsState α) (form : FormData)
    (query : Outcome (QueryResponse α)) (err : JsError) (chat : Outcome String)
    (random₁ random₂ : α)
    (hfail : query = Outcome.threw err ∨ ∃ data, query = Outcome.returned ⟨data, some err⟩)
    (hvalid : (validateForm form).hasErrors = false) :
    fetchJobsOutcome s query = Outcome.returned (fetchJobs s query) ∧
    (fetchJobs s query).jobs = [] ∧
    (fetchJobs s query).jobsError = err.message ∧
    (fetchJobs s query).isLoadingJobs = false ∧
    fetchSimilarJobsOutcome query = Outcome.returned ⟨false, some err, []⟩ ∧
    getAiQuoteSuggestionOutcome log10 form query chat random₁ random₂ =
      Outcome.returned
        ⟨none,
          some ("Failed to fetch similar jobs for AI comparison: " ++
            err.message.getD "undefined"),
          false, ValidationErrors.empty⟩ := by
  have hsim := fetchSimilarJobs_of_failure query err hfail
  refine ⟨fetchJobsOutcome_eq s query, ?_, ?_, ?_, ?_, ?_⟩
  · rcases hfail with h | ⟨data, h⟩ <;> rw [h] <;> rfl
  · rcases hfail with h | ⟨data, h⟩ <;> rw [h] <;> rfl
  · rcases hfail with h | ⟨data, h⟩ <;> rw [h] <;> rfl
  · rw [fetchSimilarJobsOutcome_eq, hsim]
  · rw [getAiQuoteSuggestionOutcome_eq]
    unfold getAiQuoteSuggestion
    rw [hvalid, hsim]
    rfl

end QueryFailure

/-- Witness for the amended C22: a query that throws "Failed to fetch". -/
theorem failed_jobs_query_handled_witness :
    ((Outcome.threw ⟨none, some "Failed to fetch"⟩ : Outcome (QueryResponse ℝ)) =
        Outcome.threw ⟨none, some "Failed to fetch"⟩ ∨
      ∃ data, (Outcome.threw ⟨none, some "Failed to fetch"⟩ : Outcome (QueryResponse ℝ)) =
        Outcome.returned ⟨data, some ⟨none, some "Failed to fetch"⟩⟩) ∧
    (validateForm ⟨"Gear", "steel", "10", "medium", ""⟩).hasErrors = false ∧
    fetchJobsOutcome (⟨[[("part_type", JsVal.str "Bracket")]], none, true⟩ : JobsState ℝ)
        (Outcome.threw ⟨none, some "Failed to fetch"⟩) =
      Outcome.returned
        (fetchJobs ⟨[[("part_type", JsVal.str "Bracket")]], none, true⟩
          (Outcome.threw ⟨none, some "Failed to fetch"⟩)) ∧
    (fetchJobs (⟨[[("part_type", JsVal.str "Bracket")]], none, true⟩ : JobsState ℝ)
      (Outcome.threw ⟨none, some "Failed to fetch"⟩)).jobs = [] ∧
    (fetchJobs (⟨[[("part_type", JsVal.str "Bracket")]], none, true⟩ : JobsState ℝ)
      (Outcome.threw ⟨none, some "Failed to fetch"⟩)).jobsError =
        (⟨none, some "Failed to fetch"⟩ : JsError).message ∧
    (fetchJobs (⟨[[("part_type", JsVal.str "Bracket")]], none, true⟩ : JobsState ℝ)
      (Outcome.threw ⟨none, some "Failed to fetch"⟩)).isLoadingJobs = false ∧
    fetchSimilarJobsOutcome
        (Outcome.threw ⟨none, some "Failed to fetch"⟩ : Outcome (QueryResponse ℝ)) =
      Outcome.returned ⟨false, some ⟨none, some "Failed to fetch"⟩, []⟩ ∧
    getAiQuoteSuggestionOutcome (Real.logb 10) ⟨"Gear", "steel", "10", "medium", ""⟩
        (Outcome.threw ⟨none, some "Failed to fetch"⟩) (Outcome.returned "$975.00")
        (1 / 2) (1 / 2) =
      Outcome.returned
        ⟨none,
          some ("Failed to fetch similar jobs for AI comparison: " ++
            (⟨none, some "Failed to fetch"⟩ : JsError).message.getD "undefined"),
          false, ValidationErrors.empty⟩ :=
  ⟨Or.inl rfl, by decide,
   failed_jobs_query_handled (Real.logb 10) ⟨[[("part_type", JsVal.str "Bracket")]], none, true⟩
     ⟨"Gear", "steel", "10", "medium", ""⟩ (Outcome.threw ⟨none, some "Failed to fetch"⟩)
     ⟨none, some "Failed to fetch"⟩ (Outcome.returned "$975.00") (1 / 2) (1 / 2)
     (Or.inl rfl) (by decide)⟩

/-! ## The mock estimate (C23) -/

section Mock

variable {α : Type} [LinearOrderedField α]

/-- Without similar jobs the variation factor lies in [0.9, 1.2), with similar jobs in
[0.95, 1.15). -/
theorem mockVariationFactor_bounds (hasSimilarJobs : Bool) (r₁ r₂ : α)
    (h₁ : 0 ≤ r₁ ∧ r₁ < 1) (h₂ : 0 ≤ r₂ ∧ r₂ < 1) :
    (hasSimilarJobs = false →
      0.9 ≤ mockVariationFactor hasSimilarJobs r₁ r₂ ∧
        mockVariationFactor hasSimilarJobs r₁ r₂ < 1.2) ∧
    (hasSimilarJobs = true →
      0.95 ≤ mockVariationFactor hasSimilarJobs r₁ r₂ ∧
        mockVariationFactor hasSimilarJobs r₁ r₂ < 1.15) := by
  obtain ⟨h₁a, h₁b⟩ := h₁
  obtain ⟨h₂a, h₂b⟩ := h₂
  constructor
  · intro h
    subst h
    simp only [mockVariationFactor, Bool.false_eq_true, ↓reduceIte]
    constructor
    · norm_num
      positivity
    · norm_num
      linarith
  · intro h
    subst h
    simp only [mockVariationFactor, ↓reduceIte]
    constructor
    · norm_num
      positivity
    · norm_num
      linarith

end Mock

/-- C23 as stated fails: with similar historical jobs the variation factor is
`0.95 + Math.random() * 0.2`, which stays within [0.95, 1.15); from the draw 0 to the draw
1 it spans 0.2, exactly what the random factor of the calculator spans from 0.9 to 1.1, so
the band is not wider. -/
theorem mockVariationFactor_similar_jobs_not_wider :
    (∀ r₁ r₂ : ℝ, 0 ≤ r₂ → r₂ < 1 →
      0.95 ≤ mockVariationFactor true r₁ r₂ ∧ mockVariationFactor true r₁ r₂ < 1.15) ∧
    mockVariationFactor true (0 : ℝ) 0 = 0.95 ∧
    mockVariationFactor true (0 : ℝ) 1 = 1.15 ∧
    (priceQuote (Real.logb 10) initialPricing ⟨"Gear", "steel", "10", "medium", ""⟩ 10 0
      "2025-03-25T12:00:00.000Z").randomFactor = 0.9 ∧
    (priceQuote (Real.logb 10) initialPricing ⟨"Gear", "steel", "10", "medium", ""⟩ 10 1
      "2025-03-25T12:00:00.000Z").randomFactor = 1.1 ∧
    mockVariationFactor true (0 : ℝ) 1 - mockVariationFactor true (0 : ℝ) 0 =
      (priceQuote (Real.logb 10) initialPricing ⟨"Gear", "steel", "10", "medium", ""⟩ 10 1
        "2025-03-25T12:00:00.000Z").randomFactor -
      (priceQuote (Real.logb 10) initialPricing ⟨"Gear", "steel", "10", "medium", ""⟩ 10 0
        "2025-03-25T12:00:00.000Z").randomFactor := by
  refine ⟨?_, ?_, ?_, ?_, ?_, ?_⟩
  · intro r₁ r₂ h0 h1
    simp only [mockVariationFactor, ↓reduceIte]
    constructor
    · norm_num
      positivity
    · norm_num
      linarith
  · simp only [mockVariationFactor, ↓reduceIte]
    norm_num
  · simp only [mockVariationFactor, ↓reduceIte]
    norm_num
  · simp only [priceQuote]
    norm_num
  · simp only [priceQuote]
    norm_num
  · simp only [priceQuote, mockVariationFactor, ↓reduceIte]
    norm_num

section MockEstimate

variable {α : Type} [LinearOrderedField α] [FloorRing α]

/-- C23, amended. For a valid form, a similar-jobs query without error and a failed
chat-completion call (an exception, or an empty reply), the suggestion shown is the mock
estimate basePrice × complexityMultiplier × max(1, log10(quantity) + 1) × quantity ×
variationFactor, rendered with two decimals, with the notice that the AI service could not
be reached.  Without similar jobs the variation factor is `0.9 + random * 0.3`, within
[0.9, 1.2); with similar jobs it is `0.95 + random * 0.2`, within [0.95, 1.15); the random
factor of the calculator lies within [0.9, 1.1). -/
theorem mock_estimate_of_failed_chat (log10 : α → α) (form : FormData)
    (data : Option (List (Record α))) (chat : Outcome String) (r₁ r₂ : α)
    (hvalid : (validateForm form).hasErrors = false)
    (hchat : (∃ err, chat = Outcome.threw err) ∨ chat = Outcome.returned "")
    (h₁ : 0 ≤ r₁ ∧ r₁ < 1) (h₂ : 0 ≤ r₂ ∧ r₂ < 1) :
    ∃ q : Int, parseInt form.quantity = some q ∧ 0 < q ∧
      getAiQuoteSuggestionOutcome log10 form (Outcome.returned ⟨data, none⟩) chat r₁ r₂ =
        Outcome.returned
          ⟨some (Suggestion.estimate (toFixed2
              (lookupOr mockBasePrices form.material 10 *
                lookupOr mockComplexityMultipliers form.complexity 1.5 *
                max 1 (log10 (q : α) + 1) * (q : α) *
                mockVariationFactor (decide (0 < (data.getD []).length)) r₁ r₂))),
            some "Could not reach AI service. Showing an estimated quote instead.", false,
            ValidationErrors.empty⟩ ∧
      (data.getD [] = [] →
        mockVariationFactor (decide (0 < (data.getD []).length)) r₁ r₂ = 0.9 + r₁ * 0.3 ∧
        0.9 ≤ mockVariationFactor (decide (0 < (data.getD []).length)) r₁ r₂ ∧
        mockVariationFactor (decide (0 < (data.getD []).length)) r₁ r₂ < 1.2) ∧
      (data.getD [] ≠ [] →
        mockVariationFactor (decide (0 < (data.getD []).length)) r₁ r₂ = 0.95 + r₂ * 0.2 ∧
        0.95 ≤ mockVariationFactor (decide (0 < (data.getD []).length)) r₁ r₂ ∧
        mockVariationFactor (decide (0 < (data.getD []).length)) r₁ r₂ < 1.15) ∧
      (∀ (cfg : PricingConfig α) (createdAt : String),
        (priceQuote log10 cfg form q r₁ createdAt).randomFactor = 0.9 + r₁ * 0.2 ∧
        0.9 ≤ (priceQuote log10 cfg form q r₁ createdAt).randomFactor ∧
        (priceQuote log10 cfg form q r₁ createdAt).randomFactor < 1.1) := by
  obtain ⟨q, hq, hpos⟩ := parseInt_of_valid form hvalid
  have hb := mockVariationFactor_bounds (decide (0 < (data.getD []).length)) r₁ r₂ h₁ h₂
  refine ⟨q, hq, hpos, ?_, ?_, ?_, ?_⟩
  · rw [getAiQuoteSuggestionOutcome_eq]
    unfold getAiQuoteSuggestion
    rw [hvalid, fetchSimilarJobs_of_data]
    simp only [Bool.false_eq_true, ↓reduceIte]
    have hm : mockFallback log10 form (data.getD []) r₁ r₂ =
        ⟨some (Suggestion.estimate (toFixed2
            (lookupOr mockBasePrices form.material 10 *
              lookupOr mockComplexityMultipliers form.complexity 1.5 *
              max 1 (log10 (q : α) + 1) * (q : α) *
              mockVariationFactor (decide (0 < (data.getD []).length)) r₁ r₂))),
          some "Could not reach AI service. Showing an estimated quote instead.", false,
          ValidationErrors.empty⟩ := by
      unfold mockFallback
      rw [hq]
      rfl
    rcases hchat with ⟨err, hc⟩ | hc
    · rw [hc, hm]
      simp
    · rw [hc, hm]
      simp
  · intro hnil
    have hd : decide (0 < (data.getD []).length) = false := by
      rw [hnil]
      rfl
    refine ⟨?_, hb.1 hd⟩
    rw [hd]
    rfl
  · intro hne
    have hd : decide (0 < (data.getD []).length) = true := by
      rw [decide_eq_true_iff]
      exact List.length_pos.2 hne
    refine ⟨?_, hb.2 hd⟩
    rw [hd]
    rfl
  · intro cfg createdAt
    obtain ⟨h₁a, h₁b⟩ := h₁
    refine ⟨rfl, ?_, ?_⟩
    · show (0.9 : α) ≤ 0.9 + r₁ * 0.2
      norm_num
      positivity
    · show (0.9 : α) + r₁ * 0.2 < 1.1
      norm_num
      linarith

end MockEstimate

/-- Witness for the amended C23: the steel / medium / 10 form, no similar jobs, and a chat
call that throws. -/
theorem mock_estimate_of_failed_chat_witness :
    (validateForm ⟨"Gear", "steel", "10", "medium", ""⟩).hasErrors = false ∧
    ((∃ err, (Outcome.threw ⟨none, some "Network Error"⟩ : Outcome String) =
        Outcome.threw err) ∨
      (Outcome.threw ⟨none, some "Network Error"⟩ : Outcome String) = Outcome.returned "") ∧
    ((0 : ℝ) ≤ 1 / 2 ∧ (1 / 2 : ℝ) < 1) ∧
    ∃ q : Int, parseInt (⟨"Gear", "steel", "10", "medium", ""⟩ : FormData).quantity = some q ∧
      0 < q ∧
      getAiQuoteSuggestionOutcome (Real.logb 10) ⟨"Gear", "steel", "10", "medium", ""⟩
          (Outcome.returned ⟨none, none⟩) (Outcome.threw ⟨none, some "Network Error"⟩)
          (1 / 2) (1 / 2) =
        Outcome.returned
          ⟨some (Suggestion.estimate (toFixed2
              (lookupOr mockBasePrices "steel" 10 *
                lookupOr mockComplexityMultipliers "medium" 1.5 *
                max 1 (Real.logb 10 (q : ℝ) + 1) * (q : ℝ) *
                mockVariationFactor
                  (decide (0 < ((none : Option (List (Record ℝ))).getD []).length))
                  (1 / 2) (1 / 2)))),
            some "Could not reach AI service. Showing an estimated quote instead.", false,
            ValidationErrors.empty⟩ ∧
      ((none : Option (List (Record ℝ))).getD [] = [] →
        mockVariationFactor (decide (0 < ((none : Option (List (Record ℝ))).getD []).length))
            (1 / 2 : ℝ) (1 / 2) = 0.9 + 1 / 2 * 0.3 ∧
        0.9 ≤ mockVariationFactor
          (decide (0 < ((none : Option (List (Record ℝ))).getD []).length))
          (1 / 2 : ℝ) (1 / 2) ∧
        mockVariationFactor (decide (0 < ((none : Option (List (Record ℝ))).getD []).length))
          (1 / 2 : ℝ) (1 / 2) < 1.2) ∧
      ((none : Option (List (Record ℝ))).getD [] ≠ [] →
        mockVariationFactor (decide (0 < ((none : Option (List (Record ℝ))).getD []).length))
            (1 / 2 : ℝ) (1 / 2) = 0.95 + 1 / 2 * 0.2 ∧
        0.95 ≤ mockVariationFactor
          (decide (0 < ((none : Option (List (Record ℝ))).getD []).length))
          (1 / 2 : ℝ) (1 / 2) ∧
        mockVariationFactor (decide (0 < ((none : Option (List (Record ℝ))).getD []).length))
          (1 / 2 : ℝ) (1 / 2) < 1.15) ∧
      (∀ (cfg : PricingConfig ℝ) (createdAt : String),
        (priceQuote (Real.logb 10) cfg ⟨"Gear", "steel", "10", "medium", ""⟩ q (1 / 2)
          createdAt).randomFactor = 0.9 + 1 / 2 * 0.2 ∧
        0.9 ≤ (priceQuote (Real.logb 10) cfg ⟨"Gear", "steel", "10", "medium", ""⟩ q (1 / 2)
          createdAt).randomFactor ∧
        (priceQuote (Real.logb 10) cfg ⟨"Gear", "steel", "10", "medium", ""⟩ q (1 / 2)
          createdAt).randomFactor < 1.1) :=
  ⟨by decide, Or.inl ⟨_, rfl⟩, ⟨by norm_num, by norm_num⟩,
   mock_estimate_of_failed_chat (Real.logb 10) ⟨"Gear", "steel", "10", "medium", ""⟩ none
     (Outcome.threw ⟨none, some "Network Error"⟩) (1 / 2) (1 / 2) (by decide)
     (Or.inl ⟨_, rfl⟩) ⟨by norm_num, by norm_num⟩ ⟨by norm_num, by norm_num⟩⟩

end FactoryFlow
